import Mathlib

/-!
# Pirate-Ship demo: mesh loading and material resolution

A shallow embedding of `Project3D/Mesh.cpp` (with the parts of `Texture.cpp`
and `Shader.cpp` it calls) and theorems about it.

Conventions of the embedding

* `std::string` is a list of characters (`CppString`); `std::string::npos`
  is `none`.
* `float` values are never inspected by the code modelled here except for one
  subtraction, so the scalar type is a parameter `α`.
* C arrays handed over by the Assimp importer are (pointer, count) pairs: the
  pointer is a total function on indices, a null pointer is `none`.
* A member function that talks to OpenGL, to the shader program, to the
  texture map or to the console is modelled by the sequence of calls it makes
  (`Call`), in program order.
-/

namespace Project3D

/-! ## Strings -/

/-- The type `std::string`, one `Char` per `char`. -/
abbrev CppString := List Char

/-- Loop of `std::string::rfind(s, pos)`: compare at `pos`, then at `pos - 1`, down to `0`. -/
def rfindLoop (str s : CppString) : Nat → Option Nat
  | 0 => if (str.take s.length) = s then some 0 else none
  | pos + 1 =>
    if ((str.drop (pos + 1)).take s.length) = s then some (pos + 1)
    else rfindLoop str s pos

/-- The call `str.rfind(s, pos)`: the last position `≤ pos` at which `s` occurs in `str`. -/
def rfind (str s : CppString) (pos : Nat) : Option Nat :=
  if s.length ≤ str.length then rfindLoop str s (min (str.length - s.length) pos)
  else none

/-- The call `str.find(c)`: the position of the first `c` in `str`. -/
def find : CppString → Char → Option Nat
  | [], _ => none
  | x :: xs, c => if x = c then some 0 else (find xs c).map (· + 1)

/-- The call `str.substr(pos)`: the tail of `str` from `pos`; `none` stands for the
`std::out_of_range` thrown when `pos > str.size()`. -/
def substr (str : CppString) (pos : Nat) : Option CppString :=
  if pos ≤ str.length then some (str.drop pos) else none

/-- The local `correctedTextureName` of `Mesh::applyMaterial` as it stands when the
texture map is searched (Mesh.cpp lines 212-227). -/
def correctedTextureName (textureName : CppString) : Option CppString :=
  if rfind textureName "mat_".toList 0 = some 0 then
    match find textureName '-' with
    | some dashPos => substr textureName (dashPos + 1)
    | none => some textureName
  else if rfind textureName "mtl_".toList 0 = some 0 then
    if textureName = "mtl_001".toList then some "./textures/txt_001_diff.png".toList
    else some textureName
  else some textureName

/-! ## Data model (Mesh.h, Texture.h) -/

/-- The type `glm::vec2`. -/
structure vec2 (α : Type) where
  x : α
  y : α
deriving DecidableEq, Repr

/-- The type `glm::vec3`. -/
structure vec3 (α : Type) where
  x : α
  y : α
  z : α
deriving DecidableEq, Repr

/-- The type `glm::vec4`. -/
structure vec4 (α : Type) where
  x : α
  y : α
  z : α
  w : α
deriving DecidableEq, Repr

/-- The data members of `aie::Texture`; `m_loadedPixels` is `none` for a null pointer. -/
structure Texture where
  m_filename : CppString
  m_width : Nat
  m_height : Nat
  m_glHandle : Nat
  m_format : Nat
  m_loadedPixels : Option (List Nat)
deriving DecidableEq, Repr

/-- The default constructor `Texture::Texture()`: no GPU handle. -/
def Texture.new : Texture :=
  { m_filename := "none".toList, m_width := 0, m_height := 0, m_glHandle := 0,
    m_format := 0, m_loadedPixels := none }

/-- The struct `Mesh::SubMesh`. -/
structure SubMesh where
  vao : Nat
  vbo : Nat
  ibo : Nat
  indexCount : Nat
  materialName : CppString
deriving DecidableEq, Repr

/-- The struct `Mesh::Vertex`. -/
structure Vertex (α : Type) where
  position : vec4 α
  normal : vec4 α
  texCoord : vec2 α
deriving DecidableEq, Repr

/-- The member `std::map<std::string, aie::Texture> textures`, as an association list
searched from the front. -/
abbrev TextureMap := List (CppString × Texture)

/-- The call `textures.find(key)`; `none` is `textures.end()`. -/
def TextureMap.find : TextureMap → CppString → Option Texture
  | [], _ => none
  | (k, t) :: rest, key => if k = key then some t else TextureMap.find rest key

/-- The data members of `Mesh`. -/
structure Mesh (α : Type) where
  m_subMeshes : List SubMesh
  Ka : vec3 α
  Kd : vec3 α
  Ks : vec3 α
  specularPower : α
  textures : TextureMap

/-! ## Calls made by `Mesh.cpp` -/

/-- The two buffer binding points used by `Mesh.cpp`. -/
inductive BufferTarget where
  | GL_ARRAY_BUFFER
  | GL_ELEMENT_ARRAY_BUFFER
deriving DecidableEq, Repr

/-- The payload of a `glBufferData` call: the local `vertices` or the local `indices`. -/
inductive BufferData (α : Type) where
  | vertices (data : List (Vertex α))
  | indices (data : List Nat)
deriving DecidableEq, Repr

/-- One call made by a member function of `Mesh` to a collaborator: the importer, OpenGL,
the shader program, a texture, the texture map, or the console. -/
inductive Call (α : Type) where
  /-- The call `aiImportFile(filename, Triangulate | GenNormals | FlipUVs)`. -/
  | aiImportFile (filename : CppString)
  /-- The call `aiReleaseImport(scene)`. -/
  | aiReleaseImport
  /-- The call `printf(...)`, with the text it writes. -/
  | printf (text : CppString)
  /-- One `std::cerr << ... << std::endl` statement, with the line it writes. -/
  | cerr (line : CppString)
  /-- The call `glGenVertexArrays(1, &vao)`, with the name the driver stored in `vao`. -/
  | glGenVertexArrays (name : Nat)
  /-- The call `glGenBuffers(1, &b)`, with the name the driver stored in `b`. -/
  | glGenBuffers (name : Nat)
  /-- The call `glBindVertexArray(vao)`. -/
  | glBindVertexArray (vao : Nat)
  /-- The call `glBindBuffer(target, buffer)`. -/
  | glBindBuffer (target : BufferTarget) (buffer : Nat)
  /-- The call `glBufferData(target, size, data, GL_STATIC_DRAW)`, `size` in bytes. -/
  | glBufferData (target : BufferTarget) (size : Nat) (data : BufferData α)
  /-- The call `glEnableVertexAttribArray(index)`. -/
  | glEnableVertexAttribArray (index : Nat)
  /-- The call `glVertexAttribPointer(index, size, GL_FLOAT, normalized, stride, offset)`. -/
  | glVertexAttribPointer (index size : Nat) (normalized : Bool) (stride offset : Nat)
  /-- The call `shader->bindUniform(name, value)` with a `glm::vec3` value. -/
  | bindUniformVec3 (name : CppString) (value : vec3 α)
  /-- The call `shader->bindUniform(name, value)` with a `float` value. -/
  | bindUniformFloat (name : CppString) (value : α)
  /-- The call `shader->bindUniform(name, value)` with an `int` value. -/
  | bindUniformInt (name : CppString) (value : Int)
  /-- The call `textures.find(key)`. -/
  | texturesFind (key : CppString)
  /-- The call `glActiveTexture(GL_TEXTURE0 + unit)`. -/
  | glActiveTexture (unit : Nat)
  /-- The call `texture.bind(slot)` on a texture of the map. -/
  | textureBind (texture : Texture) (slot : Nat)
  /-- The call `glDrawElements(GL_TRIANGLES, count, GL_UNSIGNED_INT, 0)`; `count` is the
  value of the argument as written, an `unsigned int`. -/
  | glDrawElements (count : Nat)
  /-- The call `glDeleteVertexArrays(1, &vao)`, with the name deleted. -/
  | glDeleteVertexArrays (name : Nat)
  /-- The call `glDeleteBuffers(1, &b)`, with the name deleted. -/
  | glDeleteBuffers (name : Nat)
deriving DecidableEq, Repr

/-! ## `Mesh::applyMaterial` -/

/-- The sentinel key `"default-grey.jpg"`. -/
def defaultGrey : CppString := "default-grey.jpg".toList

/-- The line written to `std::cerr` when the corrected name is not in the map. -/
def notFoundWarning (textureName : CppString) : CppString :=
  "Warning: Texture not found for material: ".toList ++ textureName
    ++ ". Using default-grey.jpg".toList

/-- Mesh.cpp lines 207-210: the four reflectance uniforms. -/
def Mesh.bindReflectance {α : Type} (m : Mesh α) : List (Call α) :=
  [ Call.bindUniformVec3 "Ka".toList m.Ka,
    Call.bindUniformVec3 "Kd".toList m.Kd,
    Call.bindUniformVec3 "Ks".toList m.Ks,
    Call.bindUniformFloat "specularPower".toList m.specularPower ]

/-- Mesh.cpp lines 229-248: the search of the texture map and what follows it. -/
def Mesh.bindTexture {α : Type} (m : Mesh α) (textureName corrected : CppString) :
    List (Call α) :=
  Call.texturesFind corrected ::
    match m.textures.find corrected with
    | some it =>
      [ Call.glActiveTexture 0, Call.textureBind it 0,
        Call.bindUniformInt "diffuseTex".toList 0 ]
    | none =>
      Call.cerr (notFoundWarning textureName) :: Call.texturesFind defaultGrey ::
        match m.textures.find defaultGrey with
        | some defaultTex =>
          [ Call.glActiveTexture 0, Call.textureBind defaultTex 0,
            Call.bindUniformInt "diffuseTex".toList 0 ]
        | none => []

/-- The function `Mesh::applyMaterial(shader, textureName)`: the calls it makes, in order;
`none` if `substr` throws. -/
def Mesh.applyMaterial {α : Type} (m : Mesh α) (textureName : CppString) :
    Option (List (Call α)) :=
  match correctedTextureName textureName with
  | some corrected => some (m.bindReflectance ++ m.bindTexture textureName corrected)
  | none => none

/-! ## Effect of the calls on the texture units and the uniforms
(`Texture::bind` in Texture.cpp, `ShaderProgram::bindUniform` in Shader.cpp) -/

/-- The type `glm::mat2`, by columns. -/
structure mat2 (α : Type) where
  c0 : vec2 α
  c1 : vec2 α
deriving DecidableEq, Repr

/-- The type `glm::mat3`, by columns. -/
structure mat3 (α : Type) where
  c0 : vec3 α
  c1 : vec3 α
  c2 : vec3 α
deriving DecidableEq, Repr

/-- The type `glm::mat4`, by columns. -/
structure mat4 (α : Type) where
  c0 : vec4 α
  c1 : vec4 α
  c2 : vec4 α
  c3 : vec4 α
deriving DecidableEq, Repr

/-- The value argument of a `bindUniform` overload, one constructor per overload; it is
what the matching `glUniform*` function stores: `glUniform1i`, `glUniform1f`, `glUniform2f`,
`glUniform3f`, `glUniform4f`, `glUniformMatrix2fv`, `glUniformMatrix3fv`,
`glUniformMatrix4fv` with count 1, and `glUniform1iv`, `glUniform1fv`, `glUniform2fv`,
`glUniform3fv`, `glUniform4fv`, `glUniformMatrix2fv`, `glUniformMatrix3fv`,
`glUniformMatrix4fv` with the count and the array given. -/
inductive UniformValue (α : Type) where
  | int (value : Int)
  | float (value : α)
  | vec3 (value : vec3 α)
  | vec2 (value : vec2 α)
  | vec4 (value : vec4 α)
  | mat2 (value : mat2 α)
  | mat3 (value : mat3 α)
  | mat4 (value : mat4 α)
  | intArray (count : Int) (value : List Int)
  | floatArray (count : Int) (value : List α)
  | vec2Array (count : Int) (value : List (Project3D.vec2 α))
  | vec3Array (count : Int) (value : List (Project3D.vec3 α))
  | vec4Array (count : Int) (value : List (Project3D.vec4 α))
  | mat2Array (count : Int) (value : List (Project3D.mat2 α))
  | mat3Array (count : Int) (value : List (Project3D.mat3 α))
  | mat4Array (count : Int) (value : List (Project3D.mat4 α))
deriving DecidableEq, Repr

/-- The part of the OpenGL context that `Mesh::applyMaterial` can change, and the console. -/
structure GLState (α : Type) where
  /-- The active texture unit, as an offset from `GL_TEXTURE0`. -/
  activeTexture : Nat
  /-- The texture bound to `GL_TEXTURE_2D` on each unit. -/
  boundTexture2D : Nat → Nat
  /-- The value of the uniform at each location. -/
  uniform : Int → Option (UniformValue α)
  /-- What was written to the console, oldest first. -/
  console : List CppString

/-- The data members of `aie::Shader`. -/
structure Shader where
  m_handle : Nat := 0
  m_stage : Nat := 0
  m_lastError : Option CppString := none
deriving DecidableEq, Repr

/-- The data members of `aie::ShaderProgram`: `m_program`, the `SHADER_STAGE_Count` slots
of `m_shaders` (`none` for a null pointer) and `m_lastError`. -/
structure ShaderProgram where
  m_program : Nat
  m_shaders : List (Option Shader) := [none, none, none, none, none, none]
  m_lastError : Option CppString := none
deriving DecidableEq, Repr

/-- The text printed by `bindUniform` when the uniform has no location. -/
def uniformNotFound (name : CppString) : CppString :=
  "Shader uniform [".toList ++ name ++ "] not found! Is it being used?\n".toList

/-- The name-keyed `ShaderProgram::bindUniform(name, value)` (Shader.cpp lines 179-221):
`glGetUniformLocation` is the answer of the driver; `none` is a failed `assert`. -/
def ShaderProgram.bindUniform {α : Type} (glGetUniformLocation : Nat → CppString → Int)
    (shader : ShaderProgram) (name : CppString) (value : UniformValue α) (gl : GLState α) :
    Option (Bool × GLState α) :=
  if shader.m_program > 0 then
    let i := glGetUniformLocation shader.m_program name
    if i < 0 then
      some (false, { gl with console := gl.console ++ [uniformNotFound name] })
    else
      some (true, { gl with uniform := Function.update gl.uniform i (some value) })
  else none

/-- The function `Texture::bind(slot)` (Texture.cpp lines 160-164). -/
def Texture.bind {α : Type} (texture : Texture) (slot : Nat) (gl : GLState α) : GLState α :=
  { gl with
    activeTexture := slot
    boundTexture2D := Function.update gl.boundTexture2D slot texture.m_glHandle }

/-- The effect of one call on the texture units, the uniforms and the console; buffer and
vertex-array calls leave all three as they are. `none` is a failed `assert`. -/
def Call.exec {α : Type} (glGetUniformLocation : Nat → CppString → Int)
    (shader : ShaderProgram) (c : Call α) (gl : GLState α) : Option (GLState α) :=
  match c with
  | Call.bindUniformVec3 name value =>
    (shader.bindUniform glGetUniformLocation name (UniformValue.vec3 value) gl).map Prod.snd
  | Call.bindUniformFloat name value =>
    (shader.bindUniform glGetUniformLocation name (UniformValue.float value) gl).map Prod.snd
  | Call.bindUniformInt name value =>
    (shader.bindUniform glGetUniformLocation name (UniformValue.int value) gl).map Prod.snd
  | Call.glActiveTexture unit => some { gl with activeTexture := unit }
  | Call.textureBind texture slot => some (texture.bind slot gl)
  | Call.printf text => some { gl with console := gl.console ++ [text] }
  | Call.cerr line => some { gl with console := gl.console ++ [line] }
  | Call.aiImportFile _ => some gl
  | Call.aiReleaseImport => some gl
  | Call.glGenVertexArrays _ => some gl
  | Call.glGenBuffers _ => some gl
  | Call.glBindVertexArray _ => some gl
  | Call.glBindBuffer _ _ => some gl
  | Call.glBufferData _ _ _ => some gl
  | Call.glEnableVertexAttribArray _ => some gl
  | Call.glVertexAttribPointer _ _ _ _ _ => some gl
  | Call.texturesFind _ => some gl
  | Call.glDrawElements _ => some gl
  | Call.glDeleteVertexArrays _ => some gl
  | Call.glDeleteBuffers _ => some gl

/-- The effect of a sequence of calls, in order. -/
def execAll {α : Type} (glGetUniformLocation : Nat → CppString → Int)
    (shader : ShaderProgram) : List (Call α) → GLState α → Option (GLState α)
  | [], gl => some gl
  | c :: cs, gl =>
    match c.exec glGetUniformLocation shader gl with
    | some gl1 => execAll glGetUniformLocation shader cs gl1
    | none => none

/-- The context after `Mesh::applyMaterial(shader, textureName)`; `none` if an `assert`
fails or `substr` throws. -/
def Mesh.applyMaterialState {α : Type} (glGetUniformLocation : Nat → CppString → Int)
    (shader : ShaderProgram) (m : Mesh α) (textureName : CppString) (gl : GLState α) :
    Option (GLState α) :=
  (m.applyMaterial textureName).bind (fun calls => execAll glGetUniformLocation shader calls gl)

/-! ## Imported scene (Assimp) -/

/-- The type `aiVector3D`. -/
structure aiVector3D (α : Type) where
  x : α
  y : α
  z : α

/-- The type `aiFace`: `mNumIndices` indices at `mIndices`. -/
structure aiFace where
  mNumIndices : Nat
  mIndices : Nat → Nat

/-- The members of `aiMesh` read by `Mesh.cpp`. -/
structure aiMesh (α : Type) where
  mNumVertices : Nat
  mVertices : Nat → aiVector3D α
  mNormals : Option (Nat → aiVector3D α)
  mTextureCoords : Nat → Option (Nat → aiVector3D α)
  mNumFaces : Nat
  mFaces : Nat → aiFace
  mMaterialIndex : Nat

/-- The constant `AI_MAX_NUMBER_OF_TEXTURECOORDS`. -/
def AI_MAX_NUMBER_OF_TEXTURECOORDS : Nat := 8

/-- Assimp's inline `aiMesh::HasNormals()`: `mNormals != nullptr && mNumVertices > 0`. -/
def aiMesh.HasNormals {α : Type} (mesh : aiMesh α) : Bool :=
  mesh.mNormals.isSome && decide (mesh.mNumVertices > 0)

/-- Assimp's inline `aiMesh::HasTextureCoords(index)`. -/
def aiMesh.HasTextureCoords {α : Type} (mesh : aiMesh α) (index : Nat) : Bool :=
  if index ≥ AI_MAX_NUMBER_OF_TEXTURECOORDS then false
  else (mesh.mTextureCoords index).isSome && decide (mesh.mNumVertices > 0)

/-- An `aiMaterial`, by what `Get(AI_MATKEY_NAME, aiMatName)` does: `some name` when it
returns `AI_SUCCESS`, `name` being `aiMatName.C_Str()`; `none` otherwise. -/
structure aiMaterial where
  name : Option CppString

/-- The members of `aiScene` read by `Mesh.cpp`. -/
structure aiScene (α : Type) where
  mNumMeshes : Nat
  mMeshes : Option (Nat → aiMesh α)
  mNumMaterials : Nat
  mMaterials : Option (Nat → aiMaterial)

/-- Assimp's inline `aiScene::HasMeshes()`: `mMeshes != nullptr && mNumMeshes > 0`. -/
def aiScene.HasMeshes {α : Type} (scene : aiScene α) : Bool :=
  scene.mMeshes.isSome && decide (scene.mNumMeshes > 0)

/-! ## `Mesh::initialiseFromFile` -/

/-- The conversion `(unsigned int)n` of a `size_t`: 32 bits are kept. -/
def toUnsignedInt (n : Nat) : Nat := n % 2 ^ 32

/-- The constant `sizeof(Vertex)`: ten floats. -/
def sizeofVertex : Nat := 40

/-- The constant `sizeof(unsigned int)`. -/
def sizeofUnsignedInt : Nat := 4

/-- Mesh.cpp lines 47-76: the body of the vertex loop, for vertex number `v`. -/
def packVertex {α : Type} [Zero α] [One α] [Sub α] (mesh : aiMesh α) (v : Nat) : Vertex α :=
  { position :=
      { x := (mesh.mVertices v).x, y := (mesh.mVertices v).y, z := (mesh.mVertices v).z,
        w := 1 }
    normal :=
      if h : mesh.HasNormals = true then
        let mNormals := mesh.mNormals.get (by
          unfold aiMesh.HasNormals at h
          exact (Bool.and_eq_true_iff.mp h).1)
        { x := (mNormals v).x, y := (mNormals v).y, z := (mNormals v).z, w := 0 }
      else
        { x := 0, y := 1, z := 0, w := 0 }
    texCoord :=
      if h : mesh.HasTextureCoords 0 = true then
        let mTextureCoords0 := (mesh.mTextureCoords 0).get (by
          unfold aiMesh.HasTextureCoords at h
          rw [if_neg (by decide)] at h
          exact (Bool.and_eq_true_iff.mp h).1)
        { x := (mTextureCoords0 v).x, y := 1 - (mTextureCoords0 v).y }
      else
        { x := 0, y := 0 } }

/-- Mesh.cpp lines 45-78: the local `vertices` after the vertex loop. -/
def meshVertices {α : Type} [Zero α] [One α] [Sub α] (mesh : aiMesh α) : List (Vertex α) :=
  (List.range mesh.mNumVertices).foldl (fun vertices v => vertices ++ [packVertex mesh v]) []

/-- Mesh.cpp lines 80-89: the local `indices` after the face loop. -/
def meshIndices {α : Type} (mesh : aiMesh α) : List Nat :=
  (List.range mesh.mNumFaces).foldl
    (fun indices f =>
      let face := mesh.mFaces f
      if face.mNumIndices = 3 then
        indices ++ [face.mIndices 0] ++ [face.mIndices 1] ++ [face.mIndices 2]
      else indices)
    []

/-- Mesh.cpp lines 123-137: the material name stored in the submesh. -/
def meshMaterialName {α : Type} (scene : aiScene α) (mesh : aiMesh α) : CppString :=
  match scene.mMaterials with
  | some mMaterials =>
    if mesh.mMaterialIndex < scene.mNumMaterials then
      match (mMaterials mesh.mMaterialIndex).name with
      | some aiMatName => aiMatName
      | none => "default-grey.jpg".toList
    else "default-grey.jpg".toList
  | none => "default-grey.jpg".toList

/-- A submesh together with the calls made while it was built. -/
structure BuiltSubMesh (α : Type) where
  subMesh : SubMesh
  calls : List (Call α)

/-- Mesh.cpp lines 41-145: the body of the mesh loop for one `aiMesh`; `vao`, `vbo`, `ibo` are
the names the driver hands out for the three `glGen*` calls. -/
def buildSubMesh {α : Type} [Zero α] [One α] [Sub α] (scene : aiScene α) (mesh : aiMesh α)
    (vao vbo ibo : Nat) : BuiltSubMesh α :=
  let vertices := meshVertices mesh
  let indices := meshIndices mesh
  { subMesh :=
      { vao := vao, vbo := vbo, ibo := ibo,
        indexCount := toUnsignedInt indices.length,
        materialName := meshMaterialName scene mesh }
    calls :=
      [ Call.glGenVertexArrays vao,
        Call.glBindVertexArray vao,
        Call.glGenBuffers vbo,
        Call.glBindBuffer BufferTarget.GL_ARRAY_BUFFER vbo,
        Call.glBufferData BufferTarget.GL_ARRAY_BUFFER (vertices.length * sizeofVertex)
          (BufferData.vertices vertices),
        Call.glEnableVertexAttribArray 0,
        Call.glVertexAttribPointer 0 4 false sizeofVertex 0,
        Call.glEnableVertexAttribArray 1,
        Call.glVertexAttribPointer 1 4 true sizeofVertex 16,
        Call.glEnableVertexAttribArray 2,
        Call.glVertexAttribPointer 2 2 false sizeofVertex 32,
        Call.glGenBuffers ibo,
        Call.glBindBuffer BufferTarget.GL_ELEMENT_ARRAY_BUFFER ibo,
        Call.glBufferData BufferTarget.GL_ELEMENT_ARRAY_BUFFER
          (indices.length * sizeofUnsignedInt) (BufferData.indices indices),
        Call.glBindVertexArray 0,
        Call.glBindBuffer BufferTarget.GL_ARRAY_BUFFER 0,
        Call.glBindBuffer BufferTarget.GL_ELEMENT_ARRAY_BUFFER 0 ] }

/-- The text printed when the import fails or the scene has no meshes. -/
def loadFailed (filename : CppString) : CppString :=
  "Error: Failed to load model file ".toList ++ filename ++ "\n".toList

/-- What a call of `Mesh::initialiseFromFile` leaves behind: the value returned, the mesh
afterwards, and the calls made. -/
structure Loaded (α : Type) where
  result : Bool
  mesh : Mesh α
  calls : List (Call α)

/-- Mesh.cpp lines 40-146: the mesh loop, from an empty `m_subMeshes`; the three names
for mesh number `meshIndex` are `names (3 * meshIndex)` and the two after it. -/
def loadSubMeshes {α : Type} [Zero α] [One α] [Sub α] (scene : aiScene α)
    (mMeshes : Nat → aiMesh α) (names : Nat → Nat) : List SubMesh × List (Call α) :=
  (List.range scene.mNumMeshes).foldl
    (fun acc meshIndex =>
      let built := buildSubMesh scene (mMeshes meshIndex) (names (3 * meshIndex))
        (names (3 * meshIndex + 1)) (names (3 * meshIndex + 2))
      (acc.1 ++ [built.subMesh], acc.2 ++ built.calls))
    ([], [])

/-- The function `Mesh::initialiseFromFile(filename)`. `scene` is what `aiImportFile` returns
for `filename` (`none` for a null pointer) and `names` the object names the driver hands out,
in the order asked for. -/
def Mesh.initialiseFromFile {α : Type} [Zero α] [One α] [Sub α] (m : Mesh α)
    (filename : CppString) (scene : Option (aiScene α)) (names : Nat → Nat) : Loaded α :=
  match scene with
  | none =>
    { result := false, mesh := m,
      calls := [Call.aiImportFile filename, Call.printf (loadFailed filename)] }
  | some scene =>
    if h : scene.HasMeshes = true then
      let mMeshes := scene.mMeshes.get (by
        unfold aiScene.HasMeshes at h
        exact (Bool.and_eq_true_iff.mp h).1)
      let loaded := loadSubMeshes scene mMeshes names
      { result := true, mesh := { m with m_subMeshes := loaded.1 },
        calls := Call.aiImportFile filename :: loaded.2 ++ [Call.aiReleaseImport] }
    else
      { result := false, mesh := m,
        calls := [Call.aiImportFile filename, Call.printf (loadFailed filename)] }

/-! ## `Mesh::draw` -/

/-- Mesh.cpp lines 195-199: the body of the loop of `Mesh::draw` for one submesh; `none`
if `applyMaterial` throws. -/
def Mesh.drawSubMesh {α : Type} (m : Mesh α) (sub : SubMesh) : Option (List (Call α)) :=
  match m.applyMaterial sub.materialName with
  | some material =>
    some (material ++ [Call.glBindVertexArray sub.vao, Call.glDrawElements sub.indexCount])
  | none => none

/-- The function `Mesh::draw(shader)`: the calls it makes, in order; `none` if
`applyMaterial` throws. -/
def Mesh.draw {α : Type} (m : Mesh α) : Option (List (Call α)) :=
  match m.m_subMeshes.foldl
      (fun acc sub =>
        match acc, m.drawSubMesh sub with
        | some calls, some drawn => some (calls ++ drawn)
        | _, _ => none)
      (some []) with
  | some calls => some (calls ++ [Call.glBindVertexArray 0])
  | none => none

/-! ## `Texture::load` (Texture.cpp) -/

/-- The pixel formats of OpenGL used by `Texture.cpp`. -/
inductive GLFormat where
  | GL_RED
  | GL_RG
  | GL_RGB
  | GL_RGBA
deriving DecidableEq, Repr

/-- The two filter parameters set by `Texture::load`. -/
inductive GLFilter where
  | GL_TEXTURE_MAG_FILTER
  | GL_TEXTURE_MIN_FILTER
deriving DecidableEq, Repr

/-- One call made by `Texture::load` or `Texture::~Texture` to the image decoder or to
OpenGL. -/
inductive TextureCall where
  /-- The call `glDeleteTextures(1, &m_glHandle)`, with the name deleted. -/
  | glDeleteTextures (name : Nat)
  /-- The call `stbi_load(filename, &x, &y, &comp, STBI_default)`. -/
  | stbi_load (filename : CppString)
  /-- The call `glGenTextures(1, &m_glHandle)`, with the name the driver stored. -/
  | glGenTextures (name : Nat)
  /-- The call `glBindTexture(GL_TEXTURE_2D, name)`. -/
  | glBindTexture (name : Nat)
  /-- The call `glTexImage2D(GL_TEXTURE_2D, 0, format, x, y, 0, format, GL_UNSIGNED_BYTE,
  pixels)`. -/
  | glTexImage2D (format : GLFormat) (x y : Nat) (pixels : List Nat)
  /-- The call `glTexParameteri(GL_TEXTURE_2D, filter, GL_LINEAR)`. -/
  | glTexParameteri (filter : GLFilter)
  /-- The call `glGenerateMipmap(GL_TEXTURE_2D)`. -/
  | glGenerateMipmap
  /-- The call `stbi_image_free(m_loadedPixels)`, with the pixels freed. -/
  | stbi_image_free (pixels : List Nat)
deriving DecidableEq, Repr

/-- What `stbi_load` hands back for a file it can decode: the pixels, and the values it
stores in `x`, `y` and `comp`. -/
structure StbImage where
  pixels : List Nat
  x : Nat
  y : Nat
  comp : Nat
deriving DecidableEq, Repr

/-- The enumerators of `Texture::Format`. -/
def Texture.RED : Nat := 1

/-- See `Texture.RED`. -/
def Texture.RG : Nat := 2

/-- See `Texture.RED`. -/
def Texture.RGB : Nat := 3

/-- See `Texture.RED`. -/
def Texture.RGBA : Nat := 4

/-- What a call of `Texture::load` leaves behind: the value returned, the texture
afterwards, and the calls made. -/
structure TextureLoaded where
  result : Bool
  texture : Texture
  calls : List TextureCall
deriving DecidableEq, Repr

/-- Texture.cpp lines 53-59: an earlier texture is deleted before the new one is loaded. -/
def Texture.release (t : Texture) : Texture × List TextureCall :=
  if t.m_glHandle ≠ 0 then
    ({ t with m_glHandle := 0, m_width := 0, m_height := 0, m_filename := "none".toList },
      [TextureCall.glDeleteTextures t.m_glHandle])
  else (t, [])

/-- Texture.cpp lines 71-93: the `switch (comp)`: the format recorded and the upload made
for each channel count; any other count records and uploads nothing. -/
def Texture.upload (t : Texture) (image : StbImage) : Texture × List TextureCall :=
  if image.comp = 1 then
    ({ t with m_format := Texture.RED },
      [TextureCall.glTexImage2D GLFormat.GL_RED image.x image.y image.pixels])
  else if image.comp = 2 then
    ({ t with m_format := Texture.RG },
      [TextureCall.glTexImage2D GLFormat.GL_RG image.x image.y image.pixels])
  else if image.comp = 3 then
    ({ t with m_format := Texture.RGB },
      [TextureCall.glTexImage2D GLFormat.GL_RGB image.x image.y image.pixels])
  else if image.comp = 4 then
    ({ t with m_format := Texture.RGBA },
      [TextureCall.glTexImage2D GLFormat.GL_RGBA image.x image.y image.pixels])
  else (t, [])

/-- The function `Texture::load(filename)` (Texture.cpp lines 50-113). `decoded` is what
`stbi_load` returns for `filename` (`none` for a null pointer) and `name` the name the
driver stores in `glGenTextures`. -/
def Texture.load (t : Texture) (filename : CppString) (decoded : Option StbImage)
    (name : Nat) : TextureLoaded :=
  let released := t.release
  match decoded with
  | some image =>
    let generated : Texture :=
      { released.1 with m_loadedPixels := some image.pixels, m_glHandle := name }
    let uploaded := generated.upload image
    { result := true
      texture :=
        { uploaded.1 with m_width := image.x, m_height := image.y, m_filename := filename }
      calls := released.2 ++
        [TextureCall.stbi_load filename, TextureCall.glGenTextures name,
          TextureCall.glBindTexture name] ++ uploaded.2 ++
        [TextureCall.glTexParameteri GLFilter.GL_TEXTURE_MAG_FILTER,
          TextureCall.glTexParameteri GLFilter.GL_TEXTURE_MIN_FILTER,
          TextureCall.glGenerateMipmap, TextureCall.glBindTexture 0] }
  | none =>
    { result := false
      texture := { released.1 with m_loadedPixels := none }
      calls := released.2 ++ [TextureCall.stbi_load filename] }

/-! ## Shader.cpp: shaders -/

/-- The enumerator `eShaderStage::SHADER_STAGE_Count`; the stages are 1 (`VERTEX`),
2 (`TESSELLATION_EVALUATION`), 3 (`TESSELLATION_CONTROL`), 4 (`GEOMETRY`), 5 (`FRAGMENT`). -/
def SHADER_STAGE_Count : Nat := 6

/-- The shader types of OpenGL. -/
inductive GLShaderType where
  | GL_VERTEX_SHADER
  | GL_TESS_EVALUATION_SHADER
  | GL_TESS_CONTROL_SHADER
  | GL_GEOMETRY_SHADER
  | GL_FRAGMENT_SHADER
deriving DecidableEq, Repr

/-- The object parameters queried in `Shader.cpp`. -/
inductive GLParameter where
  | GL_COMPILE_STATUS
  | GL_LINK_STATUS
  | GL_INFO_LOG_LENGTH
deriving DecidableEq, Repr

/-- The constant `GL_TRUE`. -/
def GL_TRUE : Int := 1

/-- The constant `GL_FALSE`. -/
def GL_FALSE : Int := 0

/-- One call made by `Shader` or `ShaderProgram` to the C library or to OpenGL while a
shader is created or a program is linked or bound. -/
inductive ShaderCall where
  /-- The call `glCreateShader(type)`, with the handle returned. -/
  | glCreateShader (type : GLShaderType) (handle : Nat)
  /-- The call `fopen_s(&file, filename, "rb")`. -/
  | fopen_s (filename : CppString)
  /-- The calls `fseek(file, 0, SEEK_END)` and `ftell(file)`. -/
  | ftell
  /-- The calls `fseek(file, 0, SEEK_SET)` and `fread_s(source, size + 1, 1, size, file)`. -/
  | fread_s
  /-- The call `fclose(file)`. -/
  | fclose
  /-- The call `printf(...)`, with the text it writes. -/
  | printf (text : CppString)
  /-- The call `glShaderSource(shader, 1, &source, 0)`. -/
  | glShaderSource (shader : Nat) (source : CppString)
  /-- The call `glCompileShader(shader)`. -/
  | glCompileShader (shader : Nat)
  /-- The call `glGetShaderiv(shader, pname, &out)`. -/
  | glGetShaderiv (shader : Nat) (pname : GLParameter)
  /-- The call `glGetShaderInfoLog(shader, infoLogLength, 0, m_lastError)`. -/
  | glGetShaderInfoLog (shader : Nat)
  /-- The call `glCreateProgram()`, with the name returned. -/
  | glCreateProgram (program : Nat)
  /-- The call `glAttachShader(program, shader)`. -/
  | glAttachShader (program shader : Nat)
  /-- The call `glLinkProgram(program)`. -/
  | glLinkProgram (program : Nat)
  /-- The call `glGetProgramiv(program, pname, &out)`. -/
  | glGetProgramiv (program : Nat) (pname : GLParameter)
  /-- The call `glGetProgramInfoLog(program, infoLogLength, 0, m_lastError)`. -/
  | glGetProgramInfoLog (program : Nat)
  /-- The call `glUseProgram(program)`. -/
  | glUseProgram (program : Nat)
deriving DecidableEq, Repr

/-- What the driver holds for a shader object after `glCompileShader`. -/
structure ShaderObject where
  compileStatus : Bool
  infoLog : CppString
deriving DecidableEq, Repr

/-- The length OpenGL reports for an information log: 0 for no log, else its characters and
the terminating null. -/
def infoLogLength (infoLog : CppString) : Int :=
  if infoLog = [] then 0 else Int.ofNat infoLog.length + 1

/-- OpenGL's `glGetShaderiv(shader, pname, params)`: the value of `*params` after the call,
`params` being its value before. `GL_COMPILE_STATUS` and `GL_INFO_LOG_LENGTH` are
parameters of a shader object. `GL_LINK_STATUS` is not: the call raises `GL_INVALID_ENUM`
and, as for every OpenGL error, writes nothing. -/
def glGetShaderiv (object : ShaderObject) (pname : GLParameter) (params : Int) : Int :=
  match pname with
  | GLParameter.GL_COMPILE_STATUS => if object.compileStatus then GL_TRUE else GL_FALSE
  | GLParameter.GL_INFO_LOG_LENGTH => infoLogLength object.infoLog
  | GLParameter.GL_LINK_STATUS => params

/-- The `switch (stage)` of `loadShader` and `createShader`: the shader type created for a
stage, `none` for the `default` label. -/
def stageType (stage : Nat) : Option GLShaderType :=
  if stage = 1 then some GLShaderType.GL_VERTEX_SHADER
  else if stage = 2 then some GLShaderType.GL_TESS_EVALUATION_SHADER
  else if stage = 3 then some GLShaderType.GL_TESS_CONTROL_SHADER
  else if stage = 4 then some GLShaderType.GL_GEOMETRY_SHADER
  else if stage = 5 then some GLShaderType.GL_FRAGMENT_SHADER
  else none

/-- What the C library answers for a file that `fopen_s` could open: the value of `ftell`
at the end of the file, the count returned by `fread_s`, and the characters read. -/
structure OpenedFile where
  size : Int
  bytesRead : Nat
  source : CppString
deriving DecidableEq, Repr

/-- What a call of `loadShader` or `createShader` on a `Shader` leaves behind. -/
structure ShaderLoaded where
  result : Bool
  shader : Shader
  calls : List ShaderCall
deriving DecidableEq, Repr

/-- Shader.cpp lines 70-92: the source is handed to OpenGL and compiled, and
`GL_COMPILE_STATUS` decides the result. -/
def Shader.compileLoaded (shader : Shader) (source : CppString) (object : ShaderObject)
    (opened : List ShaderCall) : ShaderLoaded :=
  let compiled := opened ++
    [ ShaderCall.glShaderSource shader.m_handle source,
      ShaderCall.glCompileShader shader.m_handle,
      ShaderCall.glGetShaderiv shader.m_handle GLParameter.GL_COMPILE_STATUS ]
  let success := glGetShaderiv object GLParameter.GL_COMPILE_STATUS GL_TRUE
  if success = GL_FALSE then
    { result := false
      shader := { shader with m_lastError := some object.infoLog }
      calls := compiled ++
        [ ShaderCall.glGetShaderiv shader.m_handle GLParameter.GL_INFO_LOG_LENGTH,
          ShaderCall.glGetShaderInfoLog shader.m_handle,
          ShaderCall.printf ("Error: Shader compilation failed: ".toList ++ object.infoLog
            ++ "\n".toList) ] }
  else { result := true, shader := shader, calls := compiled }

/-- The function `Shader::loadShader(stage, filename)` (Shader.cpp lines 13-93). `handle`
is what `glCreateShader` returns, `file` what the C library answers for `filename` (`none`
if it cannot be opened), `object` what the driver holds after compiling; the result is
`none` if the `assert` fails. The test of `source` after `new` cannot fail and is left
out. -/
def Shader.loadShader (shader : Shader) (stage : Nat) (filename : CppString) (handle : Nat)
    (file : Option OpenedFile) (object : ShaderObject) : Option ShaderLoaded :=
  if stage > 0 ∧ stage < SHADER_STAGE_Count then
    match stageType stage with
    | none => some { result := false, shader := { shader with m_stage := stage }, calls := [] }
    | some type =>
      let created : Shader := { shader with m_stage := stage, m_handle := handle }
      let opening := [ShaderCall.glCreateShader type handle, ShaderCall.fopen_s filename]
      match file with
      | none =>
        some
          { result := false, shader := created
            calls := opening ++
              [ShaderCall.printf ("Error: Failed to open shader file: ".toList ++ filename
                ++ "\n".toList)] }
      | some opened =>
        if opened.size ≤ 0 then
          some
            { result := false, shader := created
              calls := opening ++
                [ ShaderCall.ftell,
                  ShaderCall.printf ("Error: Shader file is empty or unreadable: ".toList
                    ++ filename ++ "\n".toList),
                  ShaderCall.fclose ] }
        else if opened.bytesRead ≠ opened.size.toNat then
          some
            { result := false, shader := created
              calls := opening ++
                [ ShaderCall.ftell, ShaderCall.fread_s,
                  ShaderCall.printf ("Error: Failed to read entire shader file: ".toList
                    ++ filename ++ "\n".toList),
                  ShaderCall.fclose ] }
        else
          some (created.compileLoaded opened.source object
            (opening ++ [ShaderCall.ftell, ShaderCall.fread_s, ShaderCall.fclose]))
  else none

/-- The function `Shader::createShader(stage, string)` (Shader.cpp lines 95-125), with the
same driver answers as `loadShader`; the status it asks for is `GL_LINK_STATUS`. -/
def Shader.createShader (shader : Shader) (stage : Nat) (string : CppString) (handle : Nat)
    (object : ShaderObject) : Option ShaderLoaded :=
  if stage > 0 ∧ stage < SHADER_STAGE_Count then
    let created : Shader × List ShaderCall :=
      match stageType stage with
      | some type =>
        ({ shader with m_stage := stage, m_handle := handle },
          [ShaderCall.glCreateShader type handle])
      | none => ({ shader with m_stage := stage }, [])
    let compiled := created.2 ++
      [ ShaderCall.glShaderSource created.1.m_handle string,
        ShaderCall.glCompileShader created.1.m_handle,
        ShaderCall.glGetShaderiv created.1.m_handle GLParameter.GL_LINK_STATUS ]
    let success := glGetShaderiv object GLParameter.GL_LINK_STATUS GL_TRUE
    if success = GL_FALSE then
      some
        { result := false
          shader := { created.1 with m_lastError := some object.infoLog }
          calls := compiled ++
            [ ShaderCall.glGetShaderiv created.1.m_handle GLParameter.GL_INFO_LOG_LENGTH,
              ShaderCall.glGetShaderInfoLog created.1.m_handle ] }
    else some { result := true, shader := created.1, calls := compiled }
  else none

/-! ## Shader.cpp: programs -/

/-- A default-constructed `ShaderProgram`: no program, no shaders. -/
def ShaderProgram.new : ShaderProgram := { m_program := 0 }

/-- What a call of `loadShader`, `createShader` or `link` on a `ShaderProgram` leaves
behind. -/
structure ProgramLoaded where
  result : Bool
  program : ShaderProgram
  calls : List ShaderCall
deriving DecidableEq, Repr

/-- The function `ShaderProgram::loadShader(stage, filename)` (Shader.cpp lines 132-136):
a new `Shader` is stored in slot `stage`, then loaded. The release of the `Shader`
replaced is not part of the model. -/
def ShaderProgram.loadShader (program : ShaderProgram) (stage : Nat) (filename : CppString)
    (handle : Nat) (file : Option OpenedFile) (object : ShaderObject) : Option ProgramLoaded :=
  if stage > 0 ∧ stage < SHADER_STAGE_Count then
    match ({} : Shader).loadShader stage filename handle file object with
    | some loaded =>
      some
        { result := loaded.result
          program := { program with m_shaders := program.m_shaders.set stage (some loaded.shader) }
          calls := loaded.calls }
    | none => none
  else none

/-- The function `ShaderProgram::createShader(stage, string)` (Shader.cpp lines 138-142). -/
def ShaderProgram.createShader (program : ShaderProgram) (stage : Nat) (string : CppString)
    (handle : Nat) (object : ShaderObject) : Option ProgramLoaded :=
  if stage > 0 ∧ stage < SHADER_STAGE_Count then
    match ({} : Shader).createShader stage string handle object with
    | some loaded =>
      some
        { result := loaded.result
          program := { program with m_shaders := program.m_shaders.set stage (some loaded.shader) }
          calls := loaded.calls }
    | none => none
  else none

/-- What the driver holds for a program object after `glLinkProgram`. -/
structure ProgramObject where
  linkStatus : Bool
  infoLog : CppString
deriving DecidableEq, Repr

/-- OpenGL's `glGetProgramiv(program, pname, params)`: the value of `*params` after the
call. `GL_LINK_STATUS` and `GL_INFO_LOG_LENGTH` are parameters of a program object;
`GL_COMPILE_STATUS` is not, and nothing is written for it. -/
def glGetProgramiv (object : ProgramObject) (pname : GLParameter) (params : Int) : Int :=
  match pname with
  | GLParameter.GL_LINK_STATUS => if object.linkStatus then GL_TRUE else GL_FALSE
  | GLParameter.GL_INFO_LOG_LENGTH => infoLogLength object.infoLog
  | GLParameter.GL_COMPILE_STATUS => params

/-- Shader.cpp lines 151-153: the loop of `link` over the slots of `m_shaders`. -/
def ShaderProgram.attachAll (m_program : Nat) (m_shaders : List (Option Shader)) :
    List ShaderCall :=
  m_shaders.foldl
    (fun calls s =>
      match s with
      | some shader => calls ++ [ShaderCall.glAttachShader m_program shader.m_handle]
      | none => calls)
    []

/-- The function `ShaderProgram::link()` (Shader.cpp lines 149-168). `name` is what
`glCreateProgram` returns and `object` what the driver holds after linking. -/
def ShaderProgram.link (program : ShaderProgram) (name : Nat) (object : ProgramObject) :
    ProgramLoaded :=
  let linking := ShaderCall.glCreateProgram name ::
    ShaderProgram.attachAll name program.m_shaders ++
    [ShaderCall.glLinkProgram name, ShaderCall.glGetProgramiv name GLParameter.GL_LINK_STATUS]
  let success := glGetProgramiv object GLParameter.GL_LINK_STATUS GL_TRUE
  if success = GL_FALSE then
    { result := false
      program := { program with m_program := name, m_lastError := some object.infoLog }
      calls := linking ++
        [ ShaderCall.glGetProgramiv name GLParameter.GL_INFO_LOG_LENGTH,
          ShaderCall.glGetProgramInfoLog name ] }
  else { result := true, program := { program with m_program := name }, calls := linking }

/-- The function `ShaderProgram::bind()` (Shader.cpp lines 170-173); `none` is a failed
`assert`. -/
def ShaderProgram.bind (program : ShaderProgram) : Option (List ShaderCall) :=
  if program.m_program > 0 then some [ShaderCall.glUseProgram program.m_program] else none

/-- One call made by a `bindUniform` overload. -/
inductive UniformCall (α : Type) where
  /-- The call `glGetUniformLocation(program, name)`. -/
  | glGetUniformLocation (program : Nat) (name : CppString)
  /-- The call `printf(...)`, with the text it writes. -/
  | printf (text : CppString)
  /-- The call of the `glUniform*` function of the overload, at `location`. -/
  | glUniform (location : Int) (value : UniformValue α)
deriving DecidableEq, Repr

/-- The name-keyed overloads `ShaderProgram::bindUniform(name, ...)` (Shader.cpp lines
179-353): the value returned and the calls made; `none` is a failed `assert`. -/
def ShaderProgram.bindUniformCalls {α : Type} (glGetUniformLocation : Nat → CppString → Int)
    (shader : ShaderProgram) (name : CppString) (value : UniformValue α) :
    Option (Bool × List (UniformCall α)) :=
  if shader.m_program > 0 then
    let i := glGetUniformLocation shader.m_program name
    if i < 0 then
      some (false, [UniformCall.glGetUniformLocation shader.m_program name,
        UniformCall.printf (uniformNotFound name)])
    else
      some (true, [UniformCall.glGetUniformLocation shader.m_program name,
        UniformCall.glUniform i value])
  else none

/-- The location-keyed overloads `ShaderProgram::bindUniform(ID, ...)` (Shader.cpp lines
355-449): the calls made; `none` is a failed `assert`. -/
def ShaderProgram.bindUniformID {α : Type} (shader : ShaderProgram) (ID : Int)
    (value : UniformValue α) : Option (List (UniformCall α)) :=
  if shader.m_program > 0 then
    if ID ≥ 0 then some [UniformCall.glUniform ID value] else none
  else none

/-- The effect of one call of a `bindUniform` overload on the context. -/
def UniformCall.exec {α : Type} (c : UniformCall α) (gl : GLState α) : GLState α :=
  match c with
  | UniformCall.glGetUniformLocation _ _ => gl
  | UniformCall.printf text => { gl with console := gl.console ++ [text] }
  | UniformCall.glUniform location value =>
    { gl with uniform := Function.update gl.uniform location (some value) }

/-! ## Input streams (`std::fstream`, `std::stringstream`) -/

/-- An input stream: the characters not yet extracted, and the state bits `eofbit` and
`failbit`; `badbit` is never set on the streams of `Mesh.cpp`. -/
structure IStream where
  rest : CppString
  eofbit : Bool
  failbit : Bool
deriving DecidableEq, Repr

/-- A stream that has just been opened on the characters `content`. -/
def IStream.open (content : CppString) : IStream :=
  { rest := content, eofbit := false, failbit := false }

/-- The call `stream.good()`: no state bit is set. -/
def IStream.good (s : IStream) : Bool := !s.eofbit && !s.failbit

/-- The line delimiter `'\n'`. -/
def newline : Char := Char.ofNat 10

/-- The null character that ends a C string. -/
def nullChar : Char := Char.ofNat 0

/-- The function `isspace` of the C locale: space, and `'\t'` to `'\r'`. -/
def isspace (c : Char) : Bool := c.toNat = 32 || (9 ≤ c.toNat && c.toNat ≤ 13)

/-- What the extraction loop of `getline` leaves behind. -/
structure Extracted where
  /-- The characters stored in the buffer. -/
  stored : CppString
  /-- The characters left in the stream. -/
  rest : CppString
  /-- The end of the input was met. -/
  eof : Bool
  /-- The buffer was full before a delimiter was met. -/
  full : Bool
  /-- The number of characters extracted, the delimiter included. -/
  count : Nat
deriving DecidableEq, Repr

/-- The extraction loop of `istream::getline(s, n)` with `room = n - 1` places left in the
buffer. The three ways out are tested in the order of the standard: end of input; the next
character is the delimiter, which is extracted and not stored; no room is left. -/
def getlineLoop : Nat → CppString → Extracted
  | _, [] => { stored := [], rest := [], eof := true, full := false, count := 0 }
  | room, c :: cs =>
    if c = newline then { stored := [], rest := cs, eof := false, full := false, count := 1 }
    else
      match room with
      | 0 => { stored := [], rest := c :: cs, eof := false, full := true, count := 0 }
      | room1 + 1 =>
        let e := getlineLoop room1 cs
        { e with stored := c :: e.stored, count := e.count + 1 }

/-- The call `stream.getline(buffer, n)`: the characters stored in `buffer` before the
terminating null, and the stream afterwards. A stream that is not `good()` extracts
nothing; `failbit` is set when the buffer is full or nothing was extracted. -/
def IStream.getline (s : IStream) (n : Nat) : CppString × IStream :=
  if s.good then
    let e := getlineLoop (n - 1) s.rest
    (e.stored,
      { rest := e.rest, eofbit := e.eof, failbit := e.full || decide (e.count = 0) })
  else ([], { s with failbit := true })

/-- The conversion of a character buffer to `std::string`: the characters before the first
null. -/
def cstr (buffer : CppString) : CppString := buffer.takeWhile (fun c => c != nullChar)

/-- The sentry of a formatted extraction: on a stream that is not `good()` it sets
`failbit`; otherwise it skips white space, and sets `eofbit` and `failbit` if nothing is
left. The flag tells whether the extraction may go on. -/
def IStream.sentry (s : IStream) : Bool × IStream :=
  if s.good then
    let rest := s.rest.dropWhile isspace
    if rest = [] then (false, { rest := [], eofbit := true, failbit := true })
    else (true, { s with rest := rest })
  else (false, { s with failbit := true })

/-- The extraction `stream >> str` into a `std::string`: the word read (`none` if the
string is left as it was), and the stream afterwards. -/
def IStream.extractString (s : IStream) : Option CppString × IStream :=
  let ready := s.sentry
  if ready.1 then
    let rest := ready.2.rest.dropWhile (fun c => !isspace c)
    (some (ready.2.rest.takeWhile (fun c => !isspace c)),
      { rest := rest, eofbit := decide (rest = []), failbit := false })
  else (none, ready.2)

/-- What the `num_get` facet of the library answers when it reads a `float` from
characters that start with a character other than white space: the value it stores (`none`
if it leaves the variable as it was), whether it sets `failbit`, and how many characters it
consumes. -/
structure NumGet (α : Type) where
  value : Option α
  fail : Bool
  consumed : Nat

/-- The extraction `stream >> x` into a `float`, with the answer of the library for the
characters at hand: the value stored (`none` if `x` is left as it was), and the stream
afterwards. -/
def IStream.extractFloat {α : Type} (num_get : CppString → NumGet α) (s : IStream) :
    Option α × IStream :=
  let ready := s.sentry
  if ready.1 then
    let answer := num_get ready.2.rest
    (answer.value,
      { rest := ready.2.rest.drop answer.consumed
        eofbit := decide (ready.2.rest.length ≤ answer.consumed)
        failbit := answer.fail })
  else (none, ready.2)

/-- The call `str.find(s)` with a string argument: the first position at which `s` occurs
in `str`. -/
def findString (str s : CppString) : Option Nat :=
  if str.take s.length = s then some 0
  else
    match str with
    | [] => none
    | _ :: cs => (findString cs s).map (· + 1)

/-- The call `str.find_last_of(chars)`: the last position of `str` that holds one of the
characters of `chars`. -/
def find_last_of : CppString → CppString → Option Nat
  | [], _ => none
  | c :: cs, chars =>
    match find_last_of cs chars with
    | some i => some (i + 1)
    | none => if c ∈ chars then some 0 else none

/-! ## `Mesh::loadMaterial` -/

/-- The statement `textures[key] = texture`: the entry of `key` is overwritten, or added
if the map has none. -/
def TextureMap.assign : TextureMap → CppString → Texture → TextureMap
  | [], key, texture => [(key, texture)]
  | (k, t) :: rest, key, texture =>
    if k = key then (k, texture) :: rest else (k, t) :: TextureMap.assign rest key texture

/-- One call made by `Mesh::loadMaterial`: a line on `std::cerr`, or a call made inside
`textures[mapFileName].load(texturePath)`. -/
inductive MaterialCall where
  | cerr (line : CppString)
  | texture (c : TextureCall)
deriving DecidableEq, Repr

/-- What surrounds a call of `Mesh::loadMaterial`: the answers of the library when a
`float` is read, of the image decoder for each path, and the texture names the driver
hands out, in the order asked for. -/
structure MaterialEnv (α : Type) where
  num_get : CppString → NumGet α
  stbi_load : CppString → Option StbImage
  names : Nat → Nat

/-- The state carried through the lines of a material file: the mesh, the calls made so
far, and the number of texture names generated so far. -/
structure MaterialState (α : Type) where
  mesh : Mesh α
  calls : List MaterialCall
  generated : Nat

/-- The statement `ss >> header >> v.x >> v.y >> v.z` (Mesh.cpp lines 174-176): the value of
`v` afterwards. A component whose extraction stores nothing keeps its value. -/
def extractVec3 {α : Type} (num_get : CppString → NumGet α) (ss : IStream) (v : vec3 α) :
    vec3 α :=
  let header := ss.extractString
  let x := header.2.extractFloat num_get
  let y := x.2.extractFloat num_get
  let z := y.2.extractFloat num_get
  { x := x.1.getD v.x, y := y.1.getD v.y, z := z.1.getD v.z }

/-- The statement `ss >> header >> specularPower` (Mesh.cpp line 177). -/
def extractScalar {α : Type} (num_get : CppString → NumGet α) (ss : IStream) (v : α) : α :=
  let header := ss.extractString
  (header.2.extractFloat num_get).1.getD v

/-- Mesh.cpp lines 179-187: the body of the `map_Kd` branch. -/
def Mesh.loadMap {α : Type} (env : MaterialEnv α) (directory : CppString)
    (st : MaterialState α) (ss : IStream) : MaterialState α :=
  let header := ss.extractString
  let mapFileName := (header.2.extractString).1.getD []
  let texturePath := directory ++ mapFileName
  let textures := st.mesh.textures.assign mapFileName Texture.new
  let loaded := Texture.new.load texturePath (env.stbi_load texturePath)
    (env.names st.generated)
  { mesh := { st.mesh with textures := textures.assign mapFileName loaded.texture }
    calls := st.calls ++ loaded.calls.map MaterialCall.texture ++
      (if loaded.result then []
        else [MaterialCall.cerr ("Failed to load texture: ".toList ++ texturePath)])
    generated := if loaded.result then st.generated + 1 else st.generated }

/-- Mesh.cpp lines 171-188: what the body of the read loop does with one `line`. -/
def Mesh.loadMaterialLine {α : Type} (env : MaterialEnv α) (directory : CppString)
    (st : MaterialState α) (line : CppString) : MaterialState α :=
  let ss := IStream.open line
  if findString line "Ka".toList = some 0 then
    { st with mesh := { st.mesh with Ka := extractVec3 env.num_get ss st.mesh.Ka } }
  else if findString line "Kd".toList = some 0 then
    { st with mesh := { st.mesh with Kd := extractVec3 env.num_get ss st.mesh.Kd } }
  else if findString line "Ks".toList = some 0 then
    { st with mesh := { st.mesh with Ks := extractVec3 env.num_get ss st.mesh.Ks } }
  else if findString line "Ns".toList = some 0 then
    { st with
      mesh :=
        { st.mesh with specularPower := extractScalar env.num_get ss st.mesh.specularPower } }
  else if findString line "map_Kd".toList = some 0 then Mesh.loadMap env directory st ss
  else st

/-- Mesh.cpp lines 169-189: the read loop `while (!file.eof())`, run for at most `fuel`
tests of its condition; `none` if the loop has not ended by then. -/
def Mesh.loadMaterialLoop {α : Type} (env : MaterialEnv α) (directory : CppString) :
    Nat → IStream → MaterialState α → Option (MaterialState α)
  | 0, _, _ => none
  | fuel + 1, file, st =>
    if file.eofbit then some st
    else
      let read := file.getline 256
      Mesh.loadMaterialLoop env directory fuel read.2
        (Mesh.loadMaterialLine env directory st (cstr read.1))

/-- Mesh.cpp lines 161-163: the directory of the material file, up to and including its
last `/` or backslash. -/
def materialDirectory (fileName : CppString) : CppString :=
  match find_last_of fileName ['/', Char.ofNat 92] with
  | some index => fileName.take (index + 1)
  | none => []

/-- The function `Mesh::loadMaterial(fileName)`. `content` is what the file stream delivers
(`none` if the file cannot be opened); the result is `none` if the read loop has not ended
after `fuel` tests of its condition. -/
def Mesh.loadMaterial {α : Type} (env : MaterialEnv α) (m : Mesh α) (fileName : CppString)
    (content : Option CppString) (fuel : Nat) : Option (MaterialState α) :=
  match content with
  | none =>
    some
      { mesh := m
        calls := [MaterialCall.cerr ("Failed to open material file: ".toList ++ fileName)]
        generated := 0 }
  | some content =>
    Mesh.loadMaterialLoop env (materialDirectory fileName) fuel (IStream.open content)
      { mesh := m, calls := [], generated := 0 }

/-! ## Construction and destruction of a `Mesh` -/

/-- The constructor `Mesh::Mesh()` (Mesh.cpp lines 9-11): no submesh and no texture;
`tenth` and `thirtyTwo` stand for the constants `0.1f` and `32.0f`. -/
def Mesh.new {α : Type} [One α] (tenth thirtyTwo : α) : Mesh α :=
  { m_subMeshes := []
    Ka := ⟨tenth, tenth, tenth⟩
    Kd := ⟨1, 1, 1⟩
    Ks := ⟨1, 1, 1⟩
    specularPower := thirtyTwo
    textures := [] }

/-- Mesh.cpp lines 17-19: the body of the loop of `Mesh::~Mesh` for one submesh. -/
def Mesh.destroySubMesh {α : Type} (sub : SubMesh) : List (Call α) :=
  (if sub.vao ≠ 0 then [Call.glDeleteVertexArrays sub.vao] else []) ++
    ((if sub.vbo ≠ 0 then [Call.glDeleteBuffers sub.vbo] else []) ++
      (if sub.ibo ≠ 0 then [Call.glDeleteBuffers sub.ibo] else []))

/-- The body of the destructor `Mesh::~Mesh` (Mesh.cpp lines 13-21): the calls made by the
loop over `m_subMeshes`, in order. -/
def Mesh.destructor {α : Type} (m : Mesh α) : List (Call α) :=
  m.m_subMeshes.foldl (fun calls sub => calls ++ Mesh.destroySubMesh sub) []

/-- The destructor `Texture::~Texture` (Texture.cpp lines 42-48): the calls made. -/
def Texture.destructor (t : Texture) : List TextureCall :=
  (if t.m_glHandle ≠ 0 then [TextureCall.glDeleteTextures t.m_glHandle] else []) ++
    (match t.m_loadedPixels with
      | some pixels => [TextureCall.stbi_image_free pixels]
      | none => [])

/-- One call made during the lifetime of a `Mesh`: by a member function of `Mesh`, or by a
member function of one of the textures of its map. -/
inductive LifetimeCall (α : Type) where
  | mesh (c : Call α)
  | texture (c : TextureCall)
deriving DecidableEq, Repr

/-- A call of `Mesh::loadMaterial` as a call of the lifetime of the mesh. -/
def MaterialCall.lift {α : Type} : MaterialCall → LifetimeCall α
  | MaterialCall.cerr line => LifetimeCall.mesh (Call.cerr line)
  | MaterialCall.texture c => LifetimeCall.texture c

/-- The destruction of a `Mesh` object: the body of `Mesh::~Mesh`, then the destructors of
the data members. Of the members only `textures` makes calls, the destructor of each
texture it holds; the textures are taken in the order of the association list, the
library fixing no order among them. -/
def Mesh.destroy {α : Type} (m : Mesh α) : List (LifetimeCall α) :=
  m.destructor.map LifetimeCall.mesh ++
    m.textures.flatMap (fun entry => entry.2.destructor.map LifetimeCall.texture)

/-- A GPU object name with the kind of object it names: the kinds are those of the three
`glGen...` calls of `Mesh.cpp` and `Texture.cpp`. -/
inductive Handle where
  | vertexArray (name : Nat)
  | buffer (name : Nat)
  | texture (name : Nat)
deriving DecidableEq, Repr

/-- The name of a handle. -/
def Handle.name : Handle → Nat
  | Handle.vertexArray name => name
  | Handle.buffer name => name
  | Handle.texture name => name

/-- The handle a call allocates: the one stored by `glGenVertexArrays`, `glGenBuffers` or
`glGenTextures`; any other call allocates none. -/
def LifetimeCall.allocates {α : Type} : LifetimeCall α → Option Handle
  | LifetimeCall.mesh (Call.glGenVertexArrays name) => some (Handle.vertexArray name)
  | LifetimeCall.mesh (Call.glGenBuffers name) => some (Handle.buffer name)
  | LifetimeCall.texture (TextureCall.glGenTextures name) => some (Handle.texture name)
  | _ => none

/-- The handle a call releases: the one passed to `glDeleteVertexArrays`, `glDeleteBuffers`
or `glDeleteTextures`; any other call releases none. -/
def LifetimeCall.releases {α : Type} : LifetimeCall α → Option Handle
  | LifetimeCall.mesh (Call.glDeleteVertexArrays name) => some (Handle.vertexArray name)
  | LifetimeCall.mesh (Call.glDeleteBuffers name) => some (Handle.buffer name)
  | LifetimeCall.texture (TextureCall.glDeleteTextures name) => some (Handle.texture name)
  | _ => none

/-- The handles allocated by a sequence of calls, in order. -/
def allocated {α : Type} (calls : List (LifetimeCall α)) : List Handle :=
  calls.filterMap LifetimeCall.allocates

/-- The handles released by a sequence of calls, in order. -/
def released {α : Type} (calls : List (LifetimeCall α)) : List Handle :=
  calls.filterMap LifetimeCall.releases

/-! ## The lifetime of a `Mesh` -/

/-- One member-function call made on a `Mesh` between its construction and its
destruction, with what the importer returns or what the file stream delivers. -/
inductive MeshOp (α : Type) where
  | initialiseFromFile (filename : CppString) (scene : Option (aiScene α))
  | loadMaterial (fileName : CppString) (content : Option CppString)

/-- A `Mesh` in the course of its lifetime: the object, and the calls made so far. -/
structure MeshLife (α : Type) where
  mesh : Mesh α
  calls : List (LifetimeCall α)

/-- One member-function call in the course of a lifetime. `env.names` is the sequence of
names the driver hands out over the whole lifetime, so the call starts at the name after
those already handed out; `none` if the read loop of `loadMaterial` has not ended after
`fuel` tests of its condition. -/
def MeshLife.step {α : Type} [Zero α] [One α] [Sub α] (env : MaterialEnv α) (fuel : Nat)
    (life : MeshLife α) : MeshOp α → Option (MeshLife α)
  | MeshOp.initialiseFromFile filename scene =>
    let loaded := life.mesh.initialiseFromFile filename scene
      (fun k => env.names ((allocated life.calls).length + k))
    some { mesh := loaded.mesh, calls := life.calls ++ loaded.calls.map LifetimeCall.mesh }
  | MeshOp.loadMaterial fileName content =>
    (life.mesh.loadMaterial
      { env with names := fun k => env.names ((allocated life.calls).length + k) }
      fileName content fuel).map
      (fun st => { mesh := st.mesh, calls := life.calls ++ st.calls.map MaterialCall.lift })

/-- A sequence of member-function calls, in order. -/
def MeshLife.run {α : Type} [Zero α] [One α] [Sub α] (env : MaterialEnv α) (fuel : Nat) :
    MeshLife α → List (MeshOp α) → Option (MeshLife α)
  | life, [] => some life
  | life, op :: ops =>
    match life.step env fuel op with
    | some next => MeshLife.run env fuel next ops
    | none => none

/-- The calls of a whole lifetime: construction, the member-function calls `ops`, in
order, and destruction. -/
def Mesh.lifetime {α : Type} [Zero α] [One α] [Sub α] (env : MaterialEnv α) (fuel : Nat)
    (tenth thirtyTwo : α) (ops : List (MeshOp α)) : Option (List (LifetimeCall α)) :=
  (MeshLife.run env fuel { mesh := Mesh.new tenth thirtyTwo, calls := [] } ops).map
    (fun life => life.calls ++ life.mesh.destroy)

/-! ## Words of the specification -/

/-- The triangular faces of a mesh: its faces with exactly three indices, in face order. -/
def triangularFaces {α : Type} (mesh : aiMesh α) : List aiFace :=
  ((List.range mesh.mNumFaces).map mesh.mFaces).filter (fun face => decide (face.mNumIndices = 3))

/-- The non-zero handles of a submesh: of its vertex array, its vertex buffer and its index
buffer, in that order. -/
def SubMesh.handles (sub : SubMesh) : List Handle :=
  [Handle.vertexArray sub.vao, Handle.buffer sub.vbo, Handle.buffer sub.ibo].filter
    (fun handle => decide (handle.name ≠ 0))

/-- The non-zero handles held by the textures of a map. -/
def TextureMap.handles (textures : TextureMap) : List Handle :=
  (textures.map (fun entry => Handle.texture entry.2.m_glHandle)).filter
    (fun handle => decide (handle.name ≠ 0))

/-- The number of times a handle is released by a sequence of calls. -/
def timesReleased {α : Type} (calls : List (LifetimeCall α)) (handle : Handle) : Nat :=
  ((released calls).filter (fun r => decide (r = handle))).length

/-- Every handle allocated by a sequence of calls is released exactly once by it. -/
def ReleasedExactlyOnce {α : Type} (calls : List (LifetimeCall α)) : Prop :=
  ∀ handle ∈ allocated calls, timesReleased calls handle = 1

/-! ## Concrete inputs -/

/-- A mesh with two textures, one of them the grey default. -/
def sampleMesh : Mesh Int :=
  { m_subMeshes := []
    Ka := ⟨1, 2, 3⟩
    Kd := ⟨4, 5, 6⟩
    Ks := ⟨7, 8, 9⟩
    specularPower := 32
    textures :=
      [ ("texture014.jpg".toList,
          { Texture.new with m_glHandle := 11, m_width := 4, m_height := 4 }),
        ("default-grey.jpg".toList,
          { Texture.new with m_glHandle := 12, m_width := 1, m_height := 1 }) ] }

/-- The sample mesh after a `map_Kd hull.png` line whose image failed to decode: the key
`hull.png` is in the map with a texture that has no GPU handle. -/
def staleMesh : Mesh Int :=
  { sampleMesh with textures := ("hull.png".toList, Texture.new) :: sampleMesh.textures }

/-- The sample mesh without its grey default. -/
def bareMesh : Mesh Int :=
  { sampleMesh with
    textures :=
      [ ("texture014.jpg".toList,
          { Texture.new with m_glHandle := 11, m_width := 4, m_height := 4 }) ] }

/-- A linked shader program. -/
def sampleShader : ShaderProgram := { m_program := 3 }

/-- A driver that knows every uniform of the render contract but `Ks`. -/
def sampleLocation (_program : Nat) (name : CppString) : Int :=
  if name = "Ka".toList then 0
  else if name = "Kd".toList then 1
  else if name = "specularPower".toList then 2
  else if name = "diffuseTex".toList then 3
  else -1

/-- A context with texture 5 on unit 0, unit 1 active, no uniform set. -/
def sampleGL : GLState Int :=
  { activeTexture := 1
    boundTexture2D := fun unit => if unit = 0 then 5 else 0
    uniform := fun _ => none
    console := [] }

/-- The sample mesh after an earlier successful load of one submesh. -/
def loadedMesh : Mesh Int :=
  { sampleMesh with
    m_subMeshes :=
      [ { vao := 1, vbo := 2, ibo := 3, indexCount := 6,
          materialName := "mat_0-texture014.jpg".toList } ] }

/-- A scene without meshes. -/
def emptyScene : aiScene Int :=
  { mNumMeshes := 0, mMeshes := none, mNumMaterials := 0, mMaterials := none }

/-- A face with `n` indices, the `k`-th being `start + k`. -/
def sampleFace (n start : Nat) : aiFace :=
  { mNumIndices := n, mIndices := fun k => start + k }

/-- Five vertices without normals and without texture coordinates; a triangle, a quad
and a second triangle; material 0. -/
def quadTriMesh : aiMesh Int :=
  { mNumVertices := 5
    mVertices := fun v => { x := Int.ofNat v, y := 10, z := 20 }
    mNormals := none
    mTextureCoords := fun _ => none
    mNumFaces := 3
    mFaces := fun f => if f = 1 then sampleFace 4 0 else sampleFace 3 f
    mMaterialIndex := 0 }

/-- Two vertices with normals and texture coordinates, no faces; material 5. -/
def litMesh : aiMesh Int :=
  { mNumVertices := 2
    mVertices := fun v => { x := Int.ofNat v, y := 10, z := 20 }
    mNormals := some (fun _ => { x := 0, y := 0, z := 1 })
    mTextureCoords := fun channel =>
      if channel = 0 then some (fun v => { x := Int.ofNat v, y := 3, z := 0 }) else none
    mNumFaces := 0
    mFaces := fun _ => sampleFace 3 0
    mMaterialIndex := 5 }

/-- A scene with the two sample meshes and two materials, the second without a name. -/
def sampleScene : aiScene Int :=
  { mNumMeshes := 2
    mMeshes := some (fun meshIndex => if meshIndex = 0 then quadTriMesh else litMesh)
    mNumMaterials := 2
    mMaterials := some (fun k =>
      if k = 0 then { name := some "mat_0-texture014.jpg".toList } else { name := none }) }

/-- The driver hands out the names 1, 2, 3, and so on. -/
def sampleNames (k : Nat) : Nat := k + 1

/-- A mesh of 1431655766 triangles over three vertices. -/
def hugeMesh : aiMesh Int :=
  { mNumVertices := 3
    mVertices := fun v => { x := Int.ofNat v, y := 0, z := 0 }
    mNormals := none
    mTextureCoords := fun _ => none
    mNumFaces := 1431655766
    mFaces := fun _ => sampleFace 3 0
    mMaterialIndex := 0 }

/-- A scene with the huge mesh alone and no materials. -/
def hugeScene : aiScene Int :=
  { mNumMeshes := 1, mMeshes := some (fun _ => hugeMesh), mNumMaterials := 0,
    mMaterials := none }

/-- A driver answer for a shader whose source does not compile. -/
def brokenShaderObject : ShaderObject :=
  { compileStatus := false, infoLog := "0:1: syntax error".toList }

/-- A driver answer for a shader that compiles. -/
def goodShaderObject : ShaderObject := { compileStatus := true, infoLog := [] }

/-- A shader file of eight characters, read in full. -/
def sampleShaderFile : OpenedFile := { size := 8, bytesRead := 8, source := "void m()".toList }

/-- A driver answer for a program that does not link. -/
def brokenProgramObject : ProgramObject :=
  { linkStatus := false, infoLog := "no fragment shader".toList }

/-- A driver answer for a program that links. -/
def goodProgramObject : ProgramObject := { linkStatus := true, infoLog := [] }

/-- The value of a run of decimal digits. -/
def digitsValue (digits : CppString) : Int :=
  Int.ofNat (digits.foldl (fun n c => 10 * n + (c.toNat - 48)) 0)

/-- The decimal digits. -/
def isdigit (c : Char) : Bool := 48 ≤ c.toNat && c.toNat ≤ 57

/-- A `num_get` that reads a run of decimal digits, and fails on anything else. -/
def sampleNumGet (input : CppString) : NumGet Int :=
  if input.takeWhile isdigit = [] then { value := some 0, fail := true, consumed := 0 }
  else
    { value := some (digitsValue (input.takeWhile isdigit)), fail := false,
      consumed := (input.takeWhile isdigit).length }

/-- A decoder that knows the image `./models/deck.png`, two by one pixels of three channels,
and no other file; a driver that hands out the texture names 21, 22, and so on. -/
def sampleEnv : MaterialEnv Int :=
  { num_get := sampleNumGet
    stbi_load := fun path =>
      if path = "./models/deck.png".toList then
        some { pixels := [1, 2, 3, 4, 5, 6], x := 2, y := 1, comp := 3 }
      else none
    names := fun k => 21 + k }

/-- A material file of five lines: three reflectance lines, a texture that fails to
decode, and the specular exponent. -/
def sampleMaterial : CppString :=
  "# ship\nKa 1 2 3\nKd 4 5 6\nmap_Kd hull.png\nNs 9\n".toList

/-- A material file whose first line has 300 characters, followed by a `Ka` line. -/
def longLineMaterial : CppString :=
  List.replicate 300 'x' ++ "\nKa 1 2 3\n".toList

/-- A mesh whose model never loaded and whose only texture line named an image that failed
to decode: no submesh, and one texture without a GPU handle. -/
def unloadedMesh : Mesh Int :=
  { sampleMesh with textures := [("hull.png".toList, Texture.new)] }

/-- The sample library with a driver that hands out the names 1, 2, 3, ... over a
lifetime. -/
def lifeEnv : MaterialEnv Int := { sampleEnv with names := sampleNames }

/-- A model file that cannot be imported, then a material file with one texture line. -/
def unloadedOps : List (MeshOp Int) :=
  [ MeshOp.initialiseFromFile "ship.obj".toList none,
    MeshOp.loadMaterial "./models/ship.mtl".toList (some "map_Kd deck.png\n".toList) ]

/-- Two loads of the sample scene, then a material file with the same texture line
twice. -/
def reloadOps : List (MeshOp Int) :=
  [ MeshOp.initialiseFromFile "ship.obj".toList (some sampleScene),
    MeshOp.initialiseFromFile "ship.obj".toList (some sampleScene),
    MeshOp.loadMaterial "./models/ship.mtl".toList
      (some "map_Kd deck.png\nmap_Kd deck.png\n".toList) ]

/-- A material file of 256 characters without a newline. -/
def unbrokenMaterial : CppString := List.replicate 256 'y'

/-! ## Facts about the string functions -/

theorem rfind_zero_eq (str s : CppString) :
    rfind str s 0 = if s <+: str then some 0 else none := by
  unfold rfind
  by_cases hlen : s.length ≤ str.length
  · rw [if_pos hlen, Nat.min_zero, rfindLoop]
    by_cases h : s <+: str
    · rw [if_pos h, if_pos (List.prefix_iff_eq_take.mp h).symm]
    · rw [if_neg h, if_neg (fun e => h (List.prefix_iff_eq_take.mpr e.symm))]
  · rw [if_neg hlen, if_neg]
    intro hp
    exact hlen hp.length_le

theorem rfind_zero_iff (str s : CppString) : rfind str s 0 = some 0 ↔ s <+: str := by
  rw [rfind_zero_eq]
  by_cases h : s <+: str <;> simp [h]

theorem find_eq_none_iff (str : CppString) (c : Char) : find str c = none ↔ c ∉ str := by
  induction str with
  | nil => simp [find]
  | cons x xs ih =>
    by_cases hx : x = c
    · simp [find, hx]
    · have hx1 : ¬ c = x := fun h => hx h.symm
      simp [find, hx, hx1, ih]

theorem find_append_cons (a b : CppString) (c : Char) (h : c ∉ a) :
    find (a ++ c :: b) c = some a.length := by
  induction a with
  | nil => simp [find]
  | cons x xs ih =>
    have hx : ¬ x = c := fun e => h (by simp [e])
    have hxs : c ∉ xs := fun e => h (by simp [e])
    simp [find, hx, ih hxs]

theorem substr_append (a b : CppString) : substr (a ++ b) a.length = some b := by
  simp [substr]

/-- The `mat_` rule in closed form. -/
theorem correctedTextureName_mat (a b : CppString) (h : '-' ∉ a) :
    correctedTextureName ("mat_".toList ++ a ++ '-' :: b) = some b := by
  have hp : "mat_".toList <+: "mat_".toList ++ a ++ '-' :: b := by
    rw [List.append_assoc]
    exact List.prefix_append _ _
  have hd : '-' ∉ "mat_".toList ++ a := by
    intro hm
    rcases List.mem_append.mp hm with h1 | h1
    · exact absurd h1 (by decide)
    · exact h h1
  have hs := substr_append ("mat_".toList ++ a ++ ['-']) b
  rw [List.append_assoc, List.singleton_append, List.length_append, List.length_singleton] at hs
  unfold correctedTextureName
  rw [if_pos ((rfind_zero_iff _ _).mpr hp), find_append_cons _ _ _ hd]
  exact hs

/-- The pass-through of a `mat_` tag without a dash. -/
theorem correctedTextureName_mat_nodash (tag : CppString) (hp : "mat_".toList <+: tag)
    (h : '-' ∉ tag) : correctedTextureName tag = some tag := by
  unfold correctedTextureName
  rw [if_pos ((rfind_zero_iff _ _).mpr hp), (find_eq_none_iff _ _).mpr h]

/-- The `mtl_` branch in closed form. -/
theorem correctedTextureName_mtl (tag : CppString) (hp : "mtl_".toList <+: tag) :
    correctedTextureName tag =
      if tag = "mtl_001".toList then some "./textures/txt_001_diff.png".toList else some tag := by
  have hm : ¬ "mat_".toList <+: tag := by
    intro hq
    obtain ⟨r, hr⟩ := hp
    obtain ⟨q, hq⟩ := hq
    rw [← hr] at hq
    simp at hq
  unfold correctedTextureName
  rw [if_neg (fun e => hm ((rfind_zero_iff _ _).mp e)), if_pos ((rfind_zero_iff _ _).mpr hp)]

/-- The pass-through of a tag with neither marker. -/
theorem correctedTextureName_other (tag : CppString) (h1 : ¬ "mat_".toList <+: tag)
    (h2 : ¬ "mtl_".toList <+: tag) : correctedTextureName tag = some tag := by
  unfold correctedTextureName
  rw [if_neg (fun e => h1 ((rfind_zero_iff _ _).mp e)),
    if_neg (fun e => h2 ((rfind_zero_iff _ _).mp e))]

/-- A tag that starts with `mat_` and has a dash splits at its first dash, which comes
after the marker. -/
theorem mat_split (tag : CppString) (hp : "mat_".toList <+: tag) (h : '-' ∈ tag) :
    ∃ a b, tag = "mat_".toList ++ a ++ '-' :: b ∧ '-' ∉ a := by
  obtain ⟨r, hr⟩ := hp
  have hr1 : '-' ∈ r := by
    rw [← hr] at h
    rcases List.mem_append.mp h with h1 | h1
    · exact absurd h1 (by decide)
    · exact h1
  obtain ⟨a, b, hab, ha⟩ := List.eq_append_cons_of_mem hr1
  exact ⟨a, b, by rw [← hr, hab, List.append_assoc], ha⟩

/-- `substr` never throws in `applyMaterial`: a corrected name is always produced. -/
theorem correctedTextureName_isSome (tag : CppString) :
    ∃ key, correctedTextureName tag = some key := by
  by_cases h1 : "mat_".toList <+: tag
  · by_cases hd : '-' ∈ tag
    · obtain ⟨a, b, hab, ha⟩ := mat_split tag h1 hd
      exact ⟨b, by rw [hab]; exact correctedTextureName_mat a b ha⟩
    · exact ⟨tag, correctedTextureName_mat_nodash tag h1 hd⟩
  · by_cases h2 : "mtl_".toList <+: tag
    · rw [correctedTextureName_mtl tag h2]
      by_cases e : tag = "mtl_001".toList
      · exact ⟨_, by rw [if_pos e]⟩
      · exact ⟨_, by rw [if_neg e]⟩
    · exact ⟨tag, correctedTextureName_other tag h1 h2⟩

/-- The calls of `applyMaterial` once the corrected name is known. -/
theorem applyMaterial_of_corrected {α : Type} (m : Mesh α) (tag key : CppString)
    (h : correctedTextureName tag = some key) :
    m.applyMaterial tag = some (m.bindReflectance ++ m.bindTexture tag key) := by
  unfold Mesh.applyMaterial
  rw [h]

/-- The search of the texture map is the first call after the reflectance uniforms. -/
theorem applyMaterial_looks_up {α : Type} (m : Mesh α) (tag key : CppString)
    (h : correctedTextureName tag = some key) :
    ∃ rest, m.applyMaterial tag = some (m.bindReflectance ++ Call.texturesFind key :: rest) := by
  rw [applyMaterial_of_corrected m tag key h]
  exact ⟨_, rfl⟩

/-! ## The material resolver -/

/-- C1: a tag that begins with `mat_` and contains a `-` splits as `mat_`, a part without
`-`, the `-`, and a remainder; that remainder, later dashes included, is the corrected
name, and it is the key `Mesh::applyMaterial` searches the texture map for. -/
theorem applyMaterial_mat_rule {α : Type} (m : Mesh α) (tag : CppString)
    (hp : "mat_".toList <+: tag) (hd : '-' ∈ tag) :
    ∃ a b, tag = "mat_".toList ++ a ++ '-' :: b ∧ '-' ∉ a ∧
      correctedTextureName tag = some b ∧
      ∃ rest, m.applyMaterial tag = some (m.bindReflectance ++ Call.texturesFind b :: rest) := by
  obtain ⟨a, b, hab, ha⟩ := mat_split tag hp hd
  have hk : correctedTextureName tag = some b := by
    rw [hab]
    exact correctedTextureName_mat a b ha
  exact ⟨a, b, hab, ha, hk, applyMaterial_looks_up m tag b hk⟩

/-- The `mat_` rule at the tag `mat_7-foo-bar.png` on the sample mesh. -/
theorem applyMaterial_mat_rule_witness :
    ("mat_".toList <+: "mat_7-foo-bar.png".toList ∧ '-' ∈ "mat_7-foo-bar.png".toList) ∧
    ∃ a b, "mat_7-foo-bar.png".toList = "mat_".toList ++ a ++ '-' :: b ∧ '-' ∉ a ∧
      correctedTextureName "mat_7-foo-bar.png".toList = some b ∧
      ∃ rest, sampleMesh.applyMaterial "mat_7-foo-bar.png".toList
        = some (sampleMesh.bindReflectance ++ Call.texturesFind b :: rest) :=
  ⟨⟨⟨"7-foo-bar.png".toList, rfl⟩, by decide⟩,
    applyMaterial_mat_rule sampleMesh "mat_7-foo-bar.png".toList
      ⟨"7-foo-bar.png".toList, rfl⟩ (by decide)⟩

/-- The two `mat_` tags named in the specification. -/
theorem correctedTextureName_mat_samples :
    correctedTextureName "mat_0-texture014.jpg".toList = some "texture014.jpg".toList ∧
    correctedTextureName "mat_7-foo-bar.png".toList = some "foo-bar.png".toList := by
  decide

/-- C2: the tag `mtl_001` is corrected to `./textures/txt_001_diff.png`, which is then the
key searched for; any tag corrected to that path is `mtl_001`, the path itself, or a
`mat_` tag whose remainder after its first `-` is the path. -/
theorem applyMaterial_mtl_rule :
    correctedTextureName "mtl_001".toList = some "./textures/txt_001_diff.png".toList ∧
    (∀ (α : Type) (m : Mesh α), ∃ rest, m.applyMaterial "mtl_001".toList
      = some (m.bindReflectance ++ Call.texturesFind "./textures/txt_001_diff.png".toList :: rest)) ∧
    ∀ tag : CppString, correctedTextureName tag = some "./textures/txt_001_diff.png".toList →
      tag = "mtl_001".toList ∨ tag = "./textures/txt_001_diff.png".toList ∨
      ∃ a, '-' ∉ a ∧ tag = "mat_".toList ++ a ++ '-' :: "./textures/txt_001_diff.png".toList := by
  have h001 : correctedTextureName "mtl_001".toList
      = some "./textures/txt_001_diff.png".toList := by decide
  refine ⟨h001, fun α m => applyMaterial_looks_up m _ _ h001, ?_⟩
  intro tag h
  by_cases h1 : "mat_".toList <+: tag
  · by_cases hd : '-' ∈ tag
    · obtain ⟨a, b, hab, ha⟩ := mat_split tag h1 hd
      have hk := correctedTextureName_mat a b ha
      rw [← hab, h] at hk
      have hb : b = "./textures/txt_001_diff.png".toList := (Option.some.inj hk).symm
      exact Or.inr (Or.inr ⟨a, ha, by rw [hab, hb]⟩)
    · rw [correctedTextureName_mat_nodash tag h1 hd] at h
      exact Or.inr (Or.inl (Option.some.inj h))
  · by_cases h2 : "mtl_".toList <+: tag
    · rw [correctedTextureName_mtl tag h2] at h
      by_cases e : tag = "mtl_001".toList
      · exact Or.inl e
      · rw [if_neg e] at h
        exact Or.inr (Or.inl (Option.some.inj h))
    · rw [correctedTextureName_other tag h1 h2] at h
      exact Or.inr (Or.inl (Option.some.inj h))

/-- The `mtl_` rule at a `mat_` tag whose remainder is the ocean texture path. -/
theorem applyMaterial_mtl_rule_witness :
    correctedTextureName "mat_3-./textures/txt_001_diff.png".toList
      = some "./textures/txt_001_diff.png".toList ∧
    ("mat_3-./textures/txt_001_diff.png".toList = "mtl_001".toList ∨
      "mat_3-./textures/txt_001_diff.png".toList = "./textures/txt_001_diff.png".toList ∨
      ∃ a, '-' ∉ a ∧ "mat_3-./textures/txt_001_diff.png".toList
        = "mat_".toList ++ a ++ '-' :: "./textures/txt_001_diff.png".toList) :=
  ⟨by decide, applyMaterial_mtl_rule.2.2 "mat_3-./textures/txt_001_diff.png".toList (by decide)⟩

/-- C3: a tag that begins with `mat_` and has no `-`, or begins with `mtl_` and is not
`mtl_001`, or begins with neither (the empty tag included) is its own corrected name, and
`Mesh::applyMaterial` searches the texture map for the tag itself. -/
theorem applyMaterial_pass_through {α : Type} (m : Mesh α) (tag : CppString)
    (h : ("mat_".toList <+: tag ∧ '-' ∉ tag) ∨
      ("mtl_".toList <+: tag ∧ tag ≠ "mtl_001".toList) ∨
      (¬ "mat_".toList <+: tag ∧ ¬ "mtl_".toList <+: tag)) :
    correctedTextureName tag = some tag ∧
    ∃ rest, m.applyMaterial tag = some (m.bindReflectance ++ Call.texturesFind tag :: rest) := by
  have hk : correctedTextureName tag = some tag := by
    rcases h with ⟨hp, hd⟩ | ⟨hp, hne⟩ | ⟨h1, h2⟩
    · exact correctedTextureName_mat_nodash tag hp hd
    · rw [correctedTextureName_mtl tag hp, if_neg hne]
    · exact correctedTextureName_other tag h1 h2
  exact ⟨hk, applyMaterial_looks_up m tag tag hk⟩

/-- The pass-through at `mat_noseparator`, at `mtl_999` and at the empty tag. -/
theorem applyMaterial_pass_through_witness :
    (("mat_".toList <+: "mat_noseparator".toList ∧ '-' ∉ "mat_noseparator".toList) ∧
      correctedTextureName "mat_noseparator".toList = some "mat_noseparator".toList) ∧
    (("mtl_".toList <+: "mtl_999".toList ∧ "mtl_999".toList ≠ "mtl_001".toList) ∧
      correctedTextureName "mtl_999".toList = some "mtl_999".toList) ∧
    ((¬ "mat_".toList <+: "".toList ∧ ¬ "mtl_".toList <+: "".toList) ∧
      correctedTextureName "".toList = some "".toList) :=
  ⟨⟨by decide, (applyMaterial_pass_through sampleMesh "mat_noseparator".toList
      (Or.inl (by decide))).1⟩,
    ⟨by decide, (applyMaterial_pass_through sampleMesh "mtl_999".toList
      (Or.inr (Or.inl (by decide)))).1⟩,
    ⟨by decide, (applyMaterial_pass_through sampleMesh "".toList
      (Or.inr (Or.inr (by decide)))).1⟩⟩

/-! ## Effect of `applyMaterial` on the texture units -/

theorem execAll_append {α : Type} (loc : Nat → CppString → Int) (shader : ShaderProgram)
    (cs ds : List (Call α)) (gl : GLState α) :
    execAll loc shader (cs ++ ds) gl
      = (execAll loc shader cs gl).bind (fun gl1 => execAll loc shader ds gl1) := by
  induction cs generalizing gl with
  | nil => rfl
  | cons c cs ih =>
    rw [List.cons_append, execAll, execAll]
    cases c.exec loc shader gl with
    | none => rfl
    | some gl1 => exact ih gl1

/-- On a linked program a name-keyed `bindUniform` returns, and leaves the texture units
as they were. -/
theorem bindUniform_linked {α : Type} (loc : Nat → CppString → Int) (shader : ShaderProgram)
    (hs : shader.m_program > 0) (name : CppString) (value : UniformValue α) (gl : GLState α) :
    ∃ gl1, (shader.bindUniform loc name value gl).map Prod.snd = some gl1 ∧
      gl1.boundTexture2D = gl.boundTexture2D ∧ gl1.activeTexture = gl.activeTexture ∧
      (0 ≤ loc shader.m_program name → gl1.uniform (loc shader.m_program name) = some value) := by
  unfold ShaderProgram.bindUniform
  rw [if_pos hs]
  by_cases hi : loc shader.m_program name < 0
  · simp only [hi, if_true, Option.map_some']
    exact ⟨_, rfl, rfl, rfl, fun h => absurd hi (not_lt.mpr h)⟩
  · simp only [hi, if_false, Option.map_some']
    exact ⟨_, rfl, rfl, rfl, fun _ => by simp⟩

/-- On a linked program the four reflectance binds return, and leave the texture units as
they were. -/
theorem execAll_bindReflectance {α : Type} (loc : Nat → CppString → Int)
    (shader : ShaderProgram) (hs : shader.m_program > 0) (m : Mesh α) (gl : GLState α) :
    ∃ gl1, execAll loc shader m.bindReflectance gl = some gl1 ∧
      gl1.boundTexture2D = gl.boundTexture2D ∧ gl1.activeTexture = gl.activeTexture := by
  obtain ⟨g1, e1, b1, a1, _⟩ :=
    bindUniform_linked loc shader hs "Ka".toList (UniformValue.vec3 m.Ka) gl
  obtain ⟨g2, e2, b2, a2, _⟩ :=
    bindUniform_linked loc shader hs "Kd".toList (UniformValue.vec3 m.Kd) g1
  obtain ⟨g3, e3, b3, a3, _⟩ :=
    bindUniform_linked loc shader hs "Ks".toList (UniformValue.vec3 m.Ks) g2
  obtain ⟨g4, e4, b4, a4, _⟩ :=
    bindUniform_linked loc shader hs "specularPower".toList
      (UniformValue.float m.specularPower) g3
  refine ⟨g4, ?_, by rw [b4, b3, b2, b1], by rw [a4, a3, a2, a1]⟩
  simp only [Mesh.bindReflectance, execAll, Call.exec, e1, e2, e3, e4]

/-- On a linked program, searching the map, switching to unit 0, binding a texture there
and setting `diffuseTex` leaves that texture on unit 0 and `0` in the uniform. -/
theorem execAll_bind_unit0 {α : Type} (loc : Nat → CppString → Int)
    (shader : ShaderProgram) (hs : shader.m_program > 0) (pre : List (Call α))
    (hpre : ∀ gl : GLState α, ∃ gl1, execAll loc shader pre gl = some gl1)
    (t : Texture) (gl : GLState α) :
    ∃ gl1, execAll loc shader
        (pre ++ [Call.glActiveTexture 0, Call.textureBind t 0,
          Call.bindUniformInt "diffuseTex".toList 0]) gl = some gl1 ∧
      gl1.boundTexture2D 0 = t.m_glHandle ∧ gl1.activeTexture = 0 ∧
      (0 ≤ loc shader.m_program "diffuseTex".toList →
        gl1.uniform (loc shader.m_program "diffuseTex".toList) = some (UniformValue.int 0)) := by
  obtain ⟨g0, e0⟩ := hpre gl
  obtain ⟨g1, e1, b1, a1, u1⟩ :=
    bindUniform_linked loc shader hs "diffuseTex".toList (UniformValue.int 0)
      (t.bind 0 { g0 with activeTexture := 0 })
  refine ⟨g1, ?_, ?_, ?_, u1⟩
  · rw [execAll_append, e0]
    simp only [Option.bind, execAll, Call.exec, e1]
  · rw [b1]
    simp [Texture.bind]
  · rw [a1]
    rfl

/-- On a linked program the calls up to and including a missed search return, and leave
the texture units as they were. -/
theorem execAll_miss {α : Type} (loc : Nat → CppString → Int) (shader : ShaderProgram)
    (hs : shader.m_program > 0) (m : Mesh α) (key line : CppString) (gl : GLState α) :
    ∃ gl1, execAll loc shader
        (m.bindReflectance ++
          [Call.texturesFind key, Call.cerr line, Call.texturesFind defaultGrey]) gl = some gl1 ∧
      gl1.boundTexture2D = gl.boundTexture2D ∧ gl1.activeTexture = gl.activeTexture := by
  obtain ⟨g1, e1, b1, a1⟩ := execAll_bindReflectance loc shader hs m gl
  refine ⟨{ g1 with console := g1.console ++ [line] }, ?_, b1, a1⟩
  rw [execAll_append, e1]
  rfl

/-- On a linked program the calls up to and including the first search return. -/
theorem execAll_search {α : Type} (loc : Nat → CppString → Int) (shader : ShaderProgram)
    (hs : shader.m_program > 0) (m : Mesh α) (key : CppString) (gl : GLState α) :
    ∃ gl1, execAll loc shader (m.bindReflectance ++ [Call.texturesFind key]) gl = some gl1 := by
  obtain ⟨g1, e1, _, _⟩ := execAll_bindReflectance loc shader hs m gl
  refine ⟨g1, ?_⟩
  rw [execAll_append, e1]
  rfl

/-! ## Texture lookup and fallback -/

/-- C4, as the code has it: when the corrected name is a key of the texture map, the
texture stored there is bound to unit 0 and `diffuseTex` is bound to 0, whether or not
that texture has a GPU handle; no warning is written and `default-grey.jpg` is not
searched for. On a linked program unit 0 then holds the handle of that texture, which is
0 for an uninitialized one. -/
theorem applyMaterial_found {α : Type} (m : Mesh α) (tag key : CppString) (t : Texture)
    (hk : correctedTextureName tag = some key) (hf : m.textures.find key = some t) :
    m.applyMaterial tag = some (m.bindReflectance ++
      [Call.texturesFind key, Call.glActiveTexture 0, Call.textureBind t 0,
        Call.bindUniformInt "diffuseTex".toList 0]) ∧
    ∀ (loc : Nat → CppString → Int) (shader : ShaderProgram) (gl : GLState α),
      shader.m_program > 0 →
      ∃ gl1, m.applyMaterialState loc shader tag gl = some gl1 ∧
        gl1.boundTexture2D 0 = t.m_glHandle := by
  have hc : m.applyMaterial tag = some (m.bindReflectance ++
      [Call.texturesFind key, Call.glActiveTexture 0, Call.textureBind t 0,
        Call.bindUniformInt "diffuseTex".toList 0]) := by
    rw [applyMaterial_of_corrected m tag key hk]
    unfold Mesh.bindTexture
    rw [hf]
  refine ⟨hc, ?_⟩
  intro loc shader gl hs
  obtain ⟨g1, e1, b1, _, _⟩ := execAll_bind_unit0 loc shader hs
    (m.bindReflectance ++ [Call.texturesFind key]) (execAll_search loc shader hs m key) t gl
  refine ⟨g1, ?_, b1⟩
  unfold Mesh.applyMaterialState
  rw [hc, Option.bind, ← e1, List.append_assoc]
  rfl

/-- A present key with an uninitialized texture, at the tag `hull.png`. -/
theorem applyMaterial_found_witness :
    (correctedTextureName "hull.png".toList = some "hull.png".toList ∧
      staleMesh.textures.find "hull.png".toList = some Texture.new) ∧
    (staleMesh.applyMaterial "hull.png".toList = some (staleMesh.bindReflectance ++
      [Call.texturesFind "hull.png".toList, Call.glActiveTexture 0,
        Call.textureBind Texture.new 0, Call.bindUniformInt "diffuseTex".toList 0]) ∧
    ∀ (loc : Nat → CppString → Int) (shader : ShaderProgram) (gl : GLState Int),
      shader.m_program > 0 →
      ∃ gl1, staleMesh.applyMaterialState loc shader "hull.png".toList gl = some gl1 ∧
        gl1.boundTexture2D 0 = Texture.new.m_glHandle) :=
  ⟨by decide, applyMaterial_found staleMesh "hull.png".toList "hull.png".toList Texture.new
    (by decide) (by decide)⟩

/-- C4, as stated, fails: with `hull.png` in the map under a texture without GPU handle,
the tag `hull.png` binds that texture, writes no warning and does not search for
`default-grey.jpg`; with `hull.png` absent from the same map the warning is written and the
grey default is bound. The two outcomes differ. -/
theorem applyMaterial_uninitialized_counterexample :
    staleMesh.textures.find "hull.png".toList = some Texture.new ∧
    Texture.new.m_glHandle = 0 ∧
    sampleMesh.textures.find "hull.png".toList = none ∧
    staleMesh.applyMaterial "hull.png".toList = some (staleMesh.bindReflectance ++
      [Call.texturesFind "hull.png".toList, Call.glActiveTexture 0,
        Call.textureBind Texture.new 0, Call.bindUniformInt "diffuseTex".toList 0]) ∧
    sampleMesh.applyMaterial "hull.png".toList = some (sampleMesh.bindReflectance ++
      [Call.texturesFind "hull.png".toList,
        Call.cerr "Warning: Texture not found for material: hull.png. Using default-grey.jpg".toList,
        Call.texturesFind "default-grey.jpg".toList, Call.glActiveTexture 0,
        Call.textureBind { Texture.new with m_glHandle := 12, m_width := 1, m_height := 1 } 0,
        Call.bindUniformInt "diffuseTex".toList 0]) ∧
    staleMesh.applyMaterial "hull.png".toList ≠ sampleMesh.applyMaterial "hull.png".toList := by
  decide

/-- C5: when the corrected name is not a key of the texture map, the warning with the
original tag is written and `default-grey.jpg` is searched for. If it is there, its texture
is bound to unit 0 and `diffuseTex` is bound to 0 (on a linked program unit 0 then holds
its handle and the uniform, if the program has it, holds 0). If it is not there, no further
call is made: no texture bind, no `diffuseTex` bind, and on a linked program every texture
unit holds what it held before the call. -/
theorem applyMaterial_fallback {α : Type} (m : Mesh α) (tag key : CppString)
    (hk : correctedTextureName tag = some key) (hf : m.textures.find key = none) :
    (∀ defaultTex, m.textures.find "default-grey.jpg".toList = some defaultTex →
      m.applyMaterial tag = some (m.bindReflectance ++
        [Call.texturesFind key,
          Call.cerr ("Warning: Texture not found for material: ".toList ++ tag
            ++ ". Using default-grey.jpg".toList),
          Call.texturesFind "default-grey.jpg".toList, Call.glActiveTexture 0,
          Call.textureBind defaultTex 0, Call.bindUniformInt "diffuseTex".toList 0]) ∧
      ∀ (loc : Nat → CppString → Int) (shader : ShaderProgram) (gl : GLState α),
        shader.m_program > 0 →
        ∃ gl1, m.applyMaterialState loc shader tag gl = some gl1 ∧
          gl1.boundTexture2D 0 = defaultTex.m_glHandle ∧
          (0 ≤ loc shader.m_program "diffuseTex".toList →
            gl1.uniform (loc shader.m_program "diffuseTex".toList)
              = some (UniformValue.int 0))) ∧
    (m.textures.find "default-grey.jpg".toList = none →
      m.applyMaterial tag = some (m.bindReflectance ++
        [Call.texturesFind key,
          Call.cerr ("Warning: Texture not found for material: ".toList ++ tag
            ++ ". Using default-grey.jpg".toList),
          Call.texturesFind "default-grey.jpg".toList]) ∧
      ∀ (loc : Nat → CppString → Int) (shader : ShaderProgram) (gl : GLState α),
        shader.m_program > 0 →
        ∃ gl1, m.applyMaterialState loc shader tag gl = some gl1 ∧
          gl1.boundTexture2D = gl.boundTexture2D) := by
  constructor
  · intro defaultTex hd
    have hc : m.applyMaterial tag = some (m.bindReflectance ++
        [Call.texturesFind key,
          Call.cerr ("Warning: Texture not found for material: ".toList ++ tag
            ++ ". Using default-grey.jpg".toList),
          Call.texturesFind "default-grey.jpg".toList, Call.glActiveTexture 0,
          Call.textureBind defaultTex 0, Call.bindUniformInt "diffuseTex".toList 0]) := by
      rw [applyMaterial_of_corrected m tag key hk]
      unfold Mesh.bindTexture
      rw [hf]
      change m.textures.find defaultGrey = some defaultTex at hd
      simp only [hd]
      rfl
    refine ⟨hc, ?_⟩
    intro loc shader gl hs
    obtain ⟨g1, e1, b1, _, u1⟩ := execAll_bind_unit0 loc shader hs
      (m.bindReflectance ++ [Call.texturesFind key, Call.cerr (notFoundWarning tag),
        Call.texturesFind defaultGrey])
      (fun g => (execAll_miss loc shader hs m key (notFoundWarning tag) g).imp
        (fun _ h => h.1)) defaultTex gl
    refine ⟨g1, ?_, b1, u1⟩
    unfold Mesh.applyMaterialState
    rw [hc, Option.bind, ← e1, List.append_assoc]
    rfl
  · intro hd
    have hc : m.applyMaterial tag = some (m.bindReflectance ++
        [Call.texturesFind key,
          Call.cerr ("Warning: Texture not found for material: ".toList ++ tag
            ++ ". Using default-grey.jpg".toList),
          Call.texturesFind "default-grey.jpg".toList]) := by
      rw [applyMaterial_of_corrected m tag key hk]
      unfold Mesh.bindTexture
      rw [hf]
      change m.textures.find defaultGrey = none at hd
      simp only [hd]
      rfl
    refine ⟨hc, ?_⟩
    intro loc shader gl hs
    obtain ⟨g1, e1, b1, _⟩ := execAll_miss loc shader hs m key (notFoundWarning tag) gl
    refine ⟨g1, ?_, b1⟩
    unfold Mesh.applyMaterialState
    rw [hc, Option.bind, ← e1]
    rfl

/-- The fallback without a grey default, at the tag `mat_2-hull.png`: the warning carries
the tag, not the corrected name `hull.png`. -/
theorem applyMaterial_fallback_witness :
    (correctedTextureName "mat_2-hull.png".toList = some "hull.png".toList ∧
      bareMesh.textures.find "hull.png".toList = none ∧
      bareMesh.textures.find "default-grey.jpg".toList = none ∧
      sampleShader.m_program > 0) ∧
    bareMesh.applyMaterial "mat_2-hull.png".toList = some (bareMesh.bindReflectance ++
      [Call.texturesFind "hull.png".toList,
        Call.cerr
          "Warning: Texture not found for material: mat_2-hull.png. Using default-grey.jpg".toList,
        Call.texturesFind "default-grey.jpg".toList]) ∧
    ∃ gl1, bareMesh.applyMaterialState sampleLocation sampleShader "mat_2-hull.png".toList
        sampleGL = some gl1 ∧ gl1.boundTexture2D = sampleGL.boundTexture2D :=
  ⟨by decide,
    ((applyMaterial_fallback bareMesh "mat_2-hull.png".toList "hull.png".toList
      (by decide) (by decide)).2 (by decide)).1,
    ((applyMaterial_fallback bareMesh "mat_2-hull.png".toList "hull.png".toList
      (by decide) (by decide)).2 (by decide)).2 sampleLocation sampleShader sampleGL
      (by decide)⟩

/-- The fallback with the grey default present, at the sample mesh. -/
theorem applyMaterial_fallback_default_sample :
    sampleMesh.applyMaterial "mat_2-hull.png".toList = some (sampleMesh.bindReflectance ++
      [Call.texturesFind "hull.png".toList,
        Call.cerr
          "Warning: Texture not found for material: mat_2-hull.png. Using default-grey.jpg".toList,
        Call.texturesFind "default-grey.jpg".toList, Call.glActiveTexture 0,
        Call.textureBind { Texture.new with m_glHandle := 12, m_width := 1, m_height := 1 } 0,
        Call.bindUniformInt "diffuseTex".toList 0]) := by
  decide

/-- C6: for every mesh state and every tag, `Mesh::applyMaterial` returns, and the first
four calls it makes bind `Ka`, `Kd`, `Ks` and `specularPower` to the current ambient,
diffuse, specular and specular-power members; the fifth call is the first search of the
texture map, so no texture lookup and no texture bind precedes the four binds. -/
theorem applyMaterial_reflectance_first {α : Type} (m : Mesh α) (tag : CppString) :
    ∃ key rest, m.applyMaterial tag = some
      (Call.bindUniformVec3 "Ka".toList m.Ka ::
        Call.bindUniformVec3 "Kd".toList m.Kd ::
        Call.bindUniformVec3 "Ks".toList m.Ks ::
        Call.bindUniformFloat "specularPower".toList m.specularPower ::
        Call.texturesFind key :: rest) := by
  obtain ⟨key, hk⟩ := correctedTextureName_isSome tag
  obtain ⟨rest, hr⟩ := applyMaterial_looks_up m tag key hk
  exact ⟨key, rest, hr⟩

/-! ## The loops of `initialiseFromFile` in closed form -/

theorem foldl_push_back {β γ : Type} (g : β → γ) (l : List β) (init : List γ) :
    l.foldl (fun acc x => acc ++ [g x]) init = init ++ l.map g := by
  induction l generalizing init with
  | nil => simp
  | cons x xs ih => simp [ih]

theorem foldl_push_back_many {β γ : Type} (g : β → List γ) (l : List β) (init : List γ) :
    l.foldl (fun acc x => acc ++ g x) init = init ++ l.flatMap g := by
  induction l generalizing init with
  | nil => simp
  | cons x xs ih => simp [ih]

theorem foldl_push_back_pair {β γ δ : Type} (g : β → γ) (k : β → List δ) (l : List β)
    (init : List γ × List δ) :
    l.foldl (fun acc x => (acc.1 ++ [g x], acc.2 ++ k x)) init
      = (init.1 ++ l.map g, init.2 ++ l.flatMap k) := by
  induction l generalizing init with
  | nil => simp
  | cons x xs ih => simp [ih]

theorem flatMap_filter_map {β γ δ : Type} (g : β → γ) (p : γ → Bool) (k : γ → List δ)
    (l : List β) :
    ((l.map g).filter p).flatMap k = l.flatMap (fun x => if p (g x) then k (g x) else []) := by
  induction l with
  | nil => rfl
  | cons x xs ih =>
    rw [List.map_cons, List.flatMap_cons, ← ih]
    by_cases hp : p (g x) = true
    · rw [List.filter_cons_of_pos hp, List.flatMap_cons, if_pos hp]
    · rw [List.filter_cons_of_neg hp, if_neg hp, List.nil_append]

theorem length_flatMap_const {γ δ : Type} (k : γ → List δ) (n : Nat) (l : List γ)
    (h : ∀ x ∈ l, (k x).length = n) : (l.flatMap k).length = n * l.length := by
  induction l with
  | nil => rfl
  | cons x xs ih =>
    rw [List.flatMap_cons, List.length_append, h x (List.mem_cons_self _ _),
      ih (fun y hy => h y (List.mem_cons_of_mem _ hy)), List.length_cons, Nat.mul_succ,
      Nat.add_comm]

/-- The vertex loop pushes the packed vertex of each source vertex, in order. -/
theorem meshVertices_eq {α : Type} [Zero α] [One α] [Sub α] (mesh : aiMesh α) :
    meshVertices mesh = (List.range mesh.mNumVertices).map (packVertex mesh) := by
  unfold meshVertices
  rw [foldl_push_back, List.nil_append]

/-- The face loop pushes the three indices of each face with three indices, in order. -/
theorem meshIndices_eq {α : Type} (mesh : aiMesh α) :
    meshIndices mesh =
      (((List.range mesh.mNumFaces).map mesh.mFaces).filter
        (fun face => decide (face.mNumIndices = 3))).flatMap
        (fun face => [face.mIndices 0, face.mIndices 1, face.mIndices 2]) := by
  rw [flatMap_filter_map, ← List.nil_append (List.flatMap _ _), ← foldl_push_back_many]
  unfold meshIndices
  congr 1
  funext indices f
  by_cases h : (mesh.mFaces f).mNumIndices = 3
  · simp [h]
  · simp [h]

/-- The mesh loop pushes one submesh per `aiMesh`, in order. -/
theorem loadSubMeshes_eq {α : Type} [Zero α] [One α] [Sub α] (scene : aiScene α)
    (mMeshes : Nat → aiMesh α) (names : Nat → Nat) :
    loadSubMeshes scene mMeshes names =
      ((List.range scene.mNumMeshes).map (fun meshIndex =>
          (buildSubMesh scene (mMeshes meshIndex) (names (3 * meshIndex))
            (names (3 * meshIndex + 1)) (names (3 * meshIndex + 2))).subMesh),
        (List.range scene.mNumMeshes).flatMap (fun meshIndex =>
          (buildSubMesh scene (mMeshes meshIndex) (names (3 * meshIndex))
            (names (3 * meshIndex + 1)) (names (3 * meshIndex + 2))).calls)) := by
  unfold loadSubMeshes
  rw [foldl_push_back_pair]
  simp

/-- A load of a scene with meshes succeeds and replaces the submeshes. -/
theorem initialiseFromFile_loaded {α : Type} [Zero α] [One α] [Sub α] (m : Mesh α)
    (filename : CppString) (scene : aiScene α) (mMeshes : Nat → aiMesh α) (names : Nat → Nat)
    (hm : scene.mMeshes = some mMeshes) (hn : scene.mNumMeshes > 0) :
    m.initialiseFromFile filename (some scene) names =
      { result := true
        mesh := { m with m_subMeshes := (loadSubMeshes scene mMeshes names).1 }
        calls := Call.aiImportFile filename :: (loadSubMeshes scene mMeshes names).2
          ++ [Call.aiReleaseImport] } := by
  have h : scene.HasMeshes = true := by
    unfold aiScene.HasMeshes
    rw [hm]
    simp [hn]
  unfold Mesh.initialiseFromFile
  simp only [h, dite_true]
  simp only [hm, Option.get_some]

/-- A load that fails leaves the mesh as it was. -/
theorem initialiseFromFile_failed {α : Type} [Zero α] [One α] [Sub α] (m : Mesh α)
    (filename : CppString) (scene : Option (aiScene α)) (names : Nat → Nat)
    (h : scene = none ∨ ∃ sc, scene = some sc ∧ sc.HasMeshes = false) :
    m.initialiseFromFile filename scene names =
      { result := false, mesh := m,
        calls := [Call.aiImportFile filename, Call.printf (loadFailed filename)] } := by
  rcases h with h | ⟨sc, h, hs⟩
  · rw [h]
    rfl
  · rw [h]
    unfold Mesh.initialiseFromFile
    simp only [hs]
    rfl

/-- Submesh number `i` of a successful load is the one built from mesh number `i`, and
the calls made while building it are among the calls of the load. -/
theorem initialiseFromFile_nth {α : Type} [Zero α] [One α] [Sub α] (m : Mesh α)
    (filename : CppString) (scene : aiScene α) (mMeshes : Nat → aiMesh α) (names : Nat → Nat)
    (hm : scene.mMeshes = some mMeshes) (hn : scene.mNumMeshes > 0)
    (i : Nat) (hi : i < scene.mNumMeshes) :
    (m.initialiseFromFile filename (some scene) names).result = true ∧
    (m.initialiseFromFile filename (some scene) names).mesh.m_subMeshes[i]? =
      some (buildSubMesh scene (mMeshes i) (names (3 * i)) (names (3 * i + 1))
        (names (3 * i + 2))).subMesh ∧
    ∀ c ∈ (buildSubMesh scene (mMeshes i) (names (3 * i)) (names (3 * i + 1))
        (names (3 * i + 2))).calls,
      c ∈ (m.initialiseFromFile filename (some scene) names).calls := by
  rw [initialiseFromFile_loaded m filename scene mMeshes names hm hn, loadSubMeshes_eq]
  refine ⟨rfl, ?_, ?_⟩
  · simp only [List.getElem?_map, List.getElem?_range hi, Option.map_some']
  · intro c hc
    simp only [List.cons_append, List.mem_cons, List.mem_append, List.mem_flatMap,
      List.mem_range]
    exact Or.inr (Or.inl ⟨i, hi, hc⟩)

/-! ## Loading a model file -/

/-- C7, as the code has it: if the import returns no scene, or a scene with a null mesh
array or zero meshes, `Mesh::initialiseFromFile` returns `false`, makes no OpenGL call and
leaves the mesh, its submesh collection included, exactly as it was before the call. -/
theorem initialiseFromFile_failure_keeps_mesh {α : Type} [Zero α] [One α] [Sub α]
    (m : Mesh α) (filename : CppString) (scene : Option (aiScene α)) (names : Nat → Nat)
    (h : scene = none ∨ ∃ sc, scene = some sc ∧ (sc.mMeshes = none ∨ sc.mNumMeshes = 0)) :
    (m.initialiseFromFile filename scene names).result = false ∧
    (m.initialiseFromFile filename scene names).mesh = m ∧
    (m.initialiseFromFile filename scene names).mesh.m_subMeshes = m.m_subMeshes ∧
    (m.initialiseFromFile filename scene names).calls =
      [Call.aiImportFile filename,
        Call.printf ("Error: Failed to load model file ".toList ++ filename ++ "\n".toList)] := by
  have h1 : scene = none ∨ ∃ sc, scene = some sc ∧ sc.HasMeshes = false := by
    rcases h with h | ⟨sc, h, hz⟩
    · exact Or.inl h
    · refine Or.inr ⟨sc, h, ?_⟩
      unfold aiScene.HasMeshes
      rcases hz with hz | hz
      · rw [hz]
        rfl
      · rw [hz]
        simp
  rw [initialiseFromFile_failed m filename scene names h1]
  exact ⟨rfl, rfl, rfl, rfl⟩

/-- A failed import on a mesh that holds a submesh. -/
theorem initialiseFromFile_failure_keeps_mesh_witness :
    ((none : Option (aiScene Int)) = none ∨
      ∃ sc, (none : Option (aiScene Int)) = some sc ∧ (sc.mMeshes = none ∨ sc.mNumMeshes = 0)) ∧
    (loadedMesh.initialiseFromFile "missing.obj".toList none sampleNames).result = false ∧
    (loadedMesh.initialiseFromFile "missing.obj".toList none sampleNames).mesh = loadedMesh ∧
    (loadedMesh.initialiseFromFile "missing.obj".toList none sampleNames).mesh.m_subMeshes
      = loadedMesh.m_subMeshes ∧
    (loadedMesh.initialiseFromFile "missing.obj".toList none sampleNames).calls =
      [Call.aiImportFile "missing.obj".toList,
        Call.printf ("Error: Failed to load model file ".toList ++ "missing.obj".toList
          ++ "\n".toList)] :=
  ⟨Or.inl rfl,
    initialiseFromFile_failure_keeps_mesh loadedMesh "missing.obj".toList none sampleNames
      (Or.inl rfl)⟩

/-- C7, as stated, fails: on a mesh that holds one submesh from an earlier load, a load
that finds no scene and a load of a scene with zero meshes both return `false` and leave
that submesh in the collection, which is therefore not empty. -/
theorem initialiseFromFile_failure_counterexample :
    loadedMesh.m_subMeshes.length = 1 ∧
    (loadedMesh.initialiseFromFile "missing.obj".toList none sampleNames).result = false ∧
    (loadedMesh.initialiseFromFile "missing.obj".toList none sampleNames).mesh.m_subMeshes
      = [ { vao := 1, vbo := 2, ibo := 3, indexCount := 6,
            materialName := "mat_0-texture014.jpg".toList } ] ∧
    (loadedMesh.initialiseFromFile "missing.obj".toList none sampleNames).mesh.m_subMeshes ≠ [] ∧
    emptyScene.mNumMeshes = 0 ∧
    (loadedMesh.initialiseFromFile "empty.obj".toList (some emptyScene) sampleNames).result
      = false ∧
    (loadedMesh.initialiseFromFile "empty.obj".toList (some emptyScene) sampleNames).mesh.m_subMeshes
      ≠ [] := by
  decide

theorem length_meshIndices {α : Type} (mesh : aiMesh α) :
    (meshIndices mesh).length = 3 * (triangularFaces mesh).length := by
  rw [meshIndices_eq]
  exact length_flatMap_const _ 3 _ (fun _ _ => rfl)

/-- C8, as the code has it: for mesh number `i` of a successful load, the index list
handed to `glBufferData` is the concatenation, in face order, of the three indices of each
face with exactly three indices, so its length is 3 times the number of triangular faces;
the stored `indexCount` is that length converted to `unsigned int`, that is, reduced modulo
2^32, and equals it whenever it is below 2^32. -/
theorem initialiseFromFile_triangles {α : Type} [Zero α] [One α] [Sub α] (m : Mesh α)
    (filename : CppString) (scene : aiScene α) (mMeshes : Nat → aiMesh α) (names : Nat → Nat)
    (hm : scene.mMeshes = some mMeshes) (hn : scene.mNumMeshes > 0)
    (i : Nat) (hi : i < scene.mNumMeshes) :
    ∃ indices : List Nat,
      indices = meshIndices (mMeshes i) ∧
      indices = (triangularFaces (mMeshes i)).flatMap
        (fun face => [face.mIndices 0, face.mIndices 1, face.mIndices 2]) ∧
      indices.length = 3 * (triangularFaces (mMeshes i)).length ∧
      Call.glBufferData BufferTarget.GL_ELEMENT_ARRAY_BUFFER (indices.length * 4)
          (BufferData.indices indices)
        ∈ (m.initialiseFromFile filename (some scene) names).calls ∧
      ((m.initialiseFromFile filename (some scene) names).mesh.m_subMeshes[i]?).map
          SubMesh.indexCount
        = some ((3 * (triangularFaces (mMeshes i)).length) % 2 ^ 32) ∧
      (3 * (triangularFaces (mMeshes i)).length < 2 ^ 32 →
        ((m.initialiseFromFile filename (some scene) names).mesh.m_subMeshes[i]?).map
            SubMesh.indexCount
          = some (3 * (triangularFaces (mMeshes i)).length)) := by
  obtain ⟨_, hsub, hcalls⟩ := initialiseFromFile_nth m filename scene mMeshes names hm hn i hi
  have hcount : ((m.initialiseFromFile filename (some scene) names).mesh.m_subMeshes[i]?).map
      SubMesh.indexCount = some ((3 * (triangularFaces (mMeshes i)).length) % 2 ^ 32) := by
    rw [hsub, Option.map_some', ← length_meshIndices]
    rfl
  refine ⟨meshIndices (mMeshes i), rfl, meshIndices_eq _, length_meshIndices _, ?_, hcount, ?_⟩
  · apply hcalls
    simp [buildSubMesh, sizeofUnsignedInt]
  · intro hlt
    rw [hcount, Nat.mod_eq_of_lt hlt]

/-- The index list of the first mesh of the sample scene. -/
theorem initialiseFromFile_triangles_witness :
    (sampleScene.mMeshes = some (fun meshIndex => if meshIndex = 0 then quadTriMesh else litMesh) ∧
      sampleScene.mNumMeshes > 0 ∧ 0 < sampleScene.mNumMeshes) ∧
    ∃ indices : List Nat,
      indices = meshIndices quadTriMesh ∧
      indices = (triangularFaces quadTriMesh).flatMap
        (fun face => [face.mIndices 0, face.mIndices 1, face.mIndices 2]) ∧
      indices.length = 3 * (triangularFaces quadTriMesh).length ∧
      Call.glBufferData BufferTarget.GL_ELEMENT_ARRAY_BUFFER (indices.length * 4)
          (BufferData.indices indices)
        ∈ (sampleMesh.initialiseFromFile "ship.obj".toList (some sampleScene) sampleNames).calls ∧
      ((sampleMesh.initialiseFromFile "ship.obj".toList (some sampleScene)
          sampleNames).mesh.m_subMeshes[0]?).map SubMesh.indexCount
        = some ((3 * (triangularFaces quadTriMesh).length) % 2 ^ 32) ∧
      (3 * (triangularFaces quadTriMesh).length < 2 ^ 32 →
        ((sampleMesh.initialiseFromFile "ship.obj".toList (some sampleScene)
            sampleNames).mesh.m_subMeshes[0]?).map SubMesh.indexCount
          = some (3 * (triangularFaces quadTriMesh).length)) :=
  ⟨⟨rfl, by decide, by decide⟩,
    initialiseFromFile_triangles sampleMesh "ship.obj".toList sampleScene
      (fun meshIndex => if meshIndex = 0 then quadTriMesh else litMesh) sampleNames rfl
      (by decide) 0 (by decide)⟩

/-- The mix of two triangles and a quad of the sample mesh gives two index triples. -/
theorem meshIndices_quadTriMesh :
    meshIndices quadTriMesh = [0, 1, 2, 2, 3, 4] ∧
    (triangularFaces quadTriMesh).length = 2 ∧
    (sampleMesh.initialiseFromFile "ship.obj".toList (some sampleScene)
      sampleNames).mesh.m_subMeshes.map SubMesh.indexCount = [6, 0] := by
  decide

theorem triangularFaces_hugeMesh : (triangularFaces hugeMesh).length = 1431655766 := by
  unfold triangularFaces
  have h : hugeMesh.mFaces = fun _ => sampleFace 3 0 := rfl
  have hn : hugeMesh.mNumFaces = 1431655766 := rfl
  rw [h, hn, List.map_const', List.filter_replicate, if_pos (by decide),
    List.length_replicate, List.length_range]

/-- C8, as stated, fails: a mesh of 1431655766 triangles gives an index list of
4294967298 entries, and the stored `indexCount` is 2. -/
theorem initialiseFromFile_indexCount_counterexample :
    (triangularFaces hugeMesh).length = 1431655766 ∧
    (meshIndices hugeMesh).length = 3 * 1431655766 ∧
    (sampleMesh.initialiseFromFile "huge.obj".toList (some hugeScene) sampleNames).result = true ∧
    ((sampleMesh.initialiseFromFile "huge.obj".toList (some hugeScene)
      sampleNames).mesh.m_subMeshes[0]?).map SubMesh.indexCount = some 2 ∧
    2 ≠ 3 * 1431655766 := by
  have hlen : (meshIndices hugeMesh).length = 3 * 1431655766 := by
    rw [length_meshIndices, triangularFaces_hugeMesh]
  obtain ⟨hres, hsub, _⟩ := initialiseFromFile_nth sampleMesh "huge.obj".toList hugeScene
    (fun _ => hugeMesh) sampleNames rfl (by decide) 0 (by decide)
  refine ⟨triangularFaces_hugeMesh, hlen, hres, ?_, by decide⟩
  rw [hsub, Option.map_some']
  show some (toUnsignedInt (meshIndices hugeMesh).length) = some 2
  rw [hlen]
  rfl

theorem get_of_eq_some {β : Type} (o : Option β) (x : β) (h : o = some x)
    (p : o.isSome = true) : o.get p = x := by
  subst h
  rfl

theorem packVertex_position {α : Type} [Zero α] [One α] [Sub α] (mesh : aiMesh α) (v : Nat) :
    (packVertex mesh v).position =
      { x := (mesh.mVertices v).x, y := (mesh.mVertices v).y, z := (mesh.mVertices v).z,
        w := 1 } :=
  rfl

theorem packVertex_normal_w {α : Type} [Zero α] [One α] [Sub α] (mesh : aiMesh α) (v : Nat) :
    (packVertex mesh v).normal.w = 0 := by
  unfold packVertex
  by_cases h : mesh.HasNormals = true
  · rw [dif_pos h]
  · rw [dif_neg h]

theorem packVertex_normal_none {α : Type} [Zero α] [One α] [Sub α] (mesh : aiMesh α) (v : Nat)
    (h : mesh.mNormals = none) :
    (packVertex mesh v).normal = { x := 0, y := 1, z := 0, w := 0 } := by
  have hn : ¬ mesh.HasNormals = true := by
    unfold aiMesh.HasNormals
    rw [h]
    simp
  unfold packVertex
  rw [dif_neg hn]

theorem packVertex_normal_some {α : Type} [Zero α] [One α] [Sub α] (mesh : aiMesh α) (v : Nat)
    (mNormals : Nat → aiVector3D α) (h : mesh.mNormals = some mNormals)
    (hv : v < mesh.mNumVertices) :
    (packVertex mesh v).normal =
      { x := (mNormals v).x, y := (mNormals v).y, z := (mNormals v).z, w := 0 } := by
  have hn : mesh.HasNormals = true := by
    unfold aiMesh.HasNormals
    rw [h]
    simp
    omega
  unfold packVertex
  rw [dif_pos hn]
  simp only [get_of_eq_some _ _ h]

theorem packVertex_texCoord_none {α : Type} [Zero α] [One α] [Sub α] (mesh : aiMesh α)
    (v : Nat) (h : mesh.mTextureCoords 0 = none) :
    (packVertex mesh v).texCoord = { x := 0, y := 0 } := by
  have hn : ¬ mesh.HasTextureCoords 0 = true := by
    unfold aiMesh.HasTextureCoords
    rw [h]
    simp
  unfold packVertex
  rw [dif_neg hn]

theorem packVertex_texCoord_some {α : Type} [Zero α] [One α] [Sub α] (mesh : aiMesh α)
    (v : Nat) (mTextureCoords0 : Nat → aiVector3D α)
    (h : mesh.mTextureCoords 0 = some mTextureCoords0) (hv : v < mesh.mNumVertices) :
    (packVertex mesh v).texCoord =
      { x := (mTextureCoords0 v).x, y := 1 - (mTextureCoords0 v).y } := by
  have hn : mesh.HasTextureCoords 0 = true := by
    unfold aiMesh.HasTextureCoords
    rw [h]
    simp [AI_MAX_NUMBER_OF_TEXTURECOORDS]
    omega
  unfold packVertex
  rw [dif_pos hn]
  simp only [get_of_eq_some _ _ h]

/-- C9: for mesh number `i` of a successful load, the vertex list handed to `glBufferData`
has one vertex per source vertex, in order; vertex `v` has the position of source vertex
`v` with `w = 1` and a normal with `w = 0`; its normal is `(0, 1, 0, 0)` when the mesh has
no normals and the source normal otherwise, and its texture coordinate is `(0, 0)` when the
mesh has no texture-coordinate channel 0. -/
theorem initialiseFromFile_vertices {α : Type} [Zero α] [One α] [Sub α] (m : Mesh α)
    (filename : CppString) (scene : aiScene α) (mMeshes : Nat → aiMesh α) (names : Nat → Nat)
    (hm : scene.mMeshes = some mMeshes) (hn : scene.mNumMeshes > 0)
    (i : Nat) (hi : i < scene.mNumMeshes) :
    ∃ vertices : List (Vertex α),
      vertices = meshVertices (mMeshes i) ∧
      Call.glBufferData BufferTarget.GL_ARRAY_BUFFER (vertices.length * 40)
          (BufferData.vertices vertices)
        ∈ (m.initialiseFromFile filename (some scene) names).calls ∧
      vertices.length = (mMeshes i).mNumVertices ∧
      (∀ vertex ∈ vertices, vertex.position.w = 1 ∧ vertex.normal.w = 0) ∧
      (∀ v, v < (mMeshes i).mNumVertices → ∃ vertex, vertices[v]? = some vertex ∧
        vertex.position =
          { x := ((mMeshes i).mVertices v).x, y := ((mMeshes i).mVertices v).y,
            z := ((mMeshes i).mVertices v).z, w := 1 } ∧
        (∀ mNormals, (mMeshes i).mNormals = some mNormals → vertex.normal =
          { x := (mNormals v).x, y := (mNormals v).y, z := (mNormals v).z, w := 0 })) ∧
      ((mMeshes i).mNormals = none →
        ∀ vertex ∈ vertices, vertex.normal = { x := 0, y := 1, z := 0, w := 0 }) ∧
      ((mMeshes i).mTextureCoords 0 = none →
        ∀ vertex ∈ vertices, vertex.texCoord = { x := 0, y := 0 }) := by
  obtain ⟨_, _, hcalls⟩ := initialiseFromFile_nth m filename scene mMeshes names hm hn i hi
  refine ⟨meshVertices (mMeshes i), rfl, ?_, ?_, ?_, ?_, ?_, ?_⟩
  · apply hcalls
    simp [buildSubMesh, sizeofVertex]
  · rw [meshVertices_eq, List.length_map, List.length_range]
  · intro vertex hv
    rw [meshVertices_eq, List.mem_map] at hv
    obtain ⟨v, _, rfl⟩ := hv
    exact ⟨rfl, packVertex_normal_w _ v⟩
  · intro v hv
    refine ⟨packVertex (mMeshes i) v, ?_, rfl, ?_⟩
    · rw [meshVertices_eq, List.getElem?_map, List.getElem?_range hv, Option.map_some']
    · intro mNormals hnorm
      exact packVertex_normal_some _ v mNormals hnorm hv
  · intro hnone vertex hv
    rw [meshVertices_eq, List.mem_map] at hv
    obtain ⟨v, _, rfl⟩ := hv
    exact packVertex_normal_none _ v hnone
  · intro hnone vertex hv
    rw [meshVertices_eq, List.mem_map] at hv
    obtain ⟨v, _, rfl⟩ := hv
    exact packVertex_texCoord_none _ v hnone

/-- The vertex list of the first mesh of the sample scene. -/
theorem initialiseFromFile_vertices_witness :
    (sampleScene.mMeshes = some (fun meshIndex => if meshIndex = 0 then quadTriMesh else litMesh) ∧
      sampleScene.mNumMeshes > 0 ∧ 0 < sampleScene.mNumMeshes) ∧
    ∃ vertices : List (Vertex Int),
      vertices = meshVertices quadTriMesh ∧
      Call.glBufferData BufferTarget.GL_ARRAY_BUFFER (vertices.length * 40)
          (BufferData.vertices vertices)
        ∈ (sampleMesh.initialiseFromFile "ship.obj".toList (some sampleScene) sampleNames).calls ∧
      vertices.length = quadTriMesh.mNumVertices ∧
      (∀ vertex ∈ vertices, vertex.position.w = 1 ∧ vertex.normal.w = 0) ∧
      (∀ v, v < quadTriMesh.mNumVertices → ∃ vertex, vertices[v]? = some vertex ∧
        vertex.position =
          { x := (quadTriMesh.mVertices v).x, y := (quadTriMesh.mVertices v).y,
            z := (quadTriMesh.mVertices v).z, w := 1 } ∧
        (∀ mNormals, quadTriMesh.mNormals = some mNormals → vertex.normal =
          { x := (mNormals v).x, y := (mNormals v).y, z := (mNormals v).z, w := 0 })) ∧
      (quadTriMesh.mNormals = none →
        ∀ vertex ∈ vertices, vertex.normal = { x := 0, y := 1, z := 0, w := 0 }) ∧
      (quadTriMesh.mTextureCoords 0 = none →
        ∀ vertex ∈ vertices, vertex.texCoord = { x := 0, y := 0 }) :=
  ⟨⟨rfl, by decide, by decide⟩,
    initialiseFromFile_vertices sampleMesh "ship.obj".toList sampleScene
      (fun meshIndex => if meshIndex = 0 then quadTriMesh else litMesh) sampleNames rfl
      (by decide) 0 (by decide)⟩

/-- The packed vertices of the two sample meshes. -/
theorem meshVertices_samples :
    meshVertices quadTriMesh =
      [ { position := ⟨0, 10, 20, 1⟩, normal := ⟨0, 1, 0, 0⟩, texCoord := ⟨0, 0⟩ },
        { position := ⟨1, 10, 20, 1⟩, normal := ⟨0, 1, 0, 0⟩, texCoord := ⟨0, 0⟩ },
        { position := ⟨2, 10, 20, 1⟩, normal := ⟨0, 1, 0, 0⟩, texCoord := ⟨0, 0⟩ },
        { position := ⟨3, 10, 20, 1⟩, normal := ⟨0, 1, 0, 0⟩, texCoord := ⟨0, 0⟩ },
        { position := ⟨4, 10, 20, 1⟩, normal := ⟨0, 1, 0, 0⟩, texCoord := ⟨0, 0⟩ } ] ∧
    meshVertices litMesh =
      [ { position := ⟨0, 10, 20, 1⟩, normal := ⟨0, 0, 1, 0⟩, texCoord := ⟨0, -2⟩ },
        { position := ⟨1, 10, 20, 1⟩, normal := ⟨0, 0, 1, 0⟩, texCoord := ⟨1, -2⟩ } ] := by
  decide

/-- C10: the material name stored in submesh number `i` of a successful load is the name
of the material at the material index of mesh `i` when the scene has a material array, the
index is below the number of materials and the name can be read; it is `default-grey.jpg`
when the scene has no material array, when the index is not below the number of materials,
and when the name cannot be read. -/
theorem initialiseFromFile_materialName {α : Type} [Zero α] [One α] [Sub α] (m : Mesh α)
    (filename : CppString) (scene : aiScene α) (mMeshes : Nat → aiMesh α) (names : Nat → Nat)
    (hm : scene.mMeshes = some mMeshes) (hn : scene.mNumMeshes > 0)
    (i : Nat) (hi : i < scene.mNumMeshes) :
    ∃ subMesh, (m.initialiseFromFile filename (some scene) names).mesh.m_subMeshes[i]?
        = some subMesh ∧
      (∀ mMaterials aiMatName, scene.mMaterials = some mMaterials →
        (mMeshes i).mMaterialIndex < scene.mNumMaterials →
        (mMaterials (mMeshes i).mMaterialIndex).name = some aiMatName →
        subMesh.materialName = aiMatName) ∧
      (scene.mMaterials = none → subMesh.materialName = "default-grey.jpg".toList) ∧
      (scene.mNumMaterials ≤ (mMeshes i).mMaterialIndex →
        subMesh.materialName = "default-grey.jpg".toList) ∧
      (∀ mMaterials, scene.mMaterials = some mMaterials →
        (mMaterials (mMeshes i).mMaterialIndex).name = none →
        subMesh.materialName = "default-grey.jpg".toList) := by
  obtain ⟨_, hsub, _⟩ := initialiseFromFile_nth m filename scene mMeshes names hm hn i hi
  refine ⟨_, hsub, ?_, ?_, ?_, ?_⟩
  · intro mMaterials aiMatName hmat hidx hname
    show meshMaterialName scene (mMeshes i) = aiMatName
    unfold meshMaterialName
    simp only [hmat, hidx, if_true, hname]
  · intro hmat
    show meshMaterialName scene (mMeshes i) = _
    unfold meshMaterialName
    simp only [hmat]
  · intro hidx
    show meshMaterialName scene (mMeshes i) = _
    unfold meshMaterialName
    cases scene.mMaterials with
    | none => rfl
    | some mMaterials => simp only [not_lt.mpr hidx, if_false]
  · intro mMaterials hmat hname
    show meshMaterialName scene (mMeshes i) = _
    unfold meshMaterialName
    simp only [hmat, hname]
    by_cases hidx : (mMeshes i).mMaterialIndex < scene.mNumMaterials
    · simp only [hidx, if_true]
    · simp only [hidx, if_false]

/-- The material name of the first submesh of the sample scene. -/
theorem initialiseFromFile_materialName_witness :
    (sampleScene.mMeshes = some (fun meshIndex => if meshIndex = 0 then quadTriMesh else litMesh) ∧
      sampleScene.mNumMeshes > 0 ∧ 0 < sampleScene.mNumMeshes) ∧
    ∃ subMesh, (sampleMesh.initialiseFromFile "ship.obj".toList (some sampleScene)
        sampleNames).mesh.m_subMeshes[0]? = some subMesh ∧
      (∀ mMaterials aiMatName, sampleScene.mMaterials = some mMaterials →
        quadTriMesh.mMaterialIndex < sampleScene.mNumMaterials →
        (mMaterials quadTriMesh.mMaterialIndex).name = some aiMatName →
        subMesh.materialName = aiMatName) ∧
      (sampleScene.mMaterials = none → subMesh.materialName = "default-grey.jpg".toList) ∧
      (sampleScene.mNumMaterials ≤ quadTriMesh.mMaterialIndex →
        subMesh.materialName = "default-grey.jpg".toList) ∧
      (∀ mMaterials, sampleScene.mMaterials = some mMaterials →
        (mMaterials quadTriMesh.mMaterialIndex).name = none →
        subMesh.materialName = "default-grey.jpg".toList) :=
  ⟨⟨rfl, by decide, by decide⟩,
    initialiseFromFile_materialName sampleMesh "ship.obj".toList sampleScene
      (fun meshIndex => if meshIndex = 0 then quadTriMesh else litMesh) sampleNames rfl
      (by decide) 0 (by decide)⟩

/-- The material names of the sample load: a declared name, and the default for an index
out of range. -/
theorem materialName_samples :
    (sampleMesh.initialiseFromFile "ship.obj".toList (some sampleScene)
      sampleNames).mesh.m_subMeshes.map SubMesh.materialName
      = ["mat_0-texture014.jpg".toList, "default-grey.jpg".toList] ∧
    (sampleMesh.initialiseFromFile "huge.obj".toList (some hugeScene)
      sampleNames).mesh.m_subMeshes.map SubMesh.materialName
      = ["default-grey.jpg".toList] := by
  decide

/-! ## Replacing the submeshes, and drawing them -/

/-- C11: a load of a scene with meshes returns `true` and leaves exactly one submesh per
mesh of the scene, in mesh order: submesh `i` carries the three names generated for mesh
`i`, the index count of mesh `i` and the material name of mesh `i`. The collection does not
depend on what the mesh held before the call, so no earlier submesh remains; the other
members of the mesh are unchanged. -/
theorem initialiseFromFile_replaces {α : Type} [Zero α] [One α] [Sub α] (m : Mesh α)
    (filename : CppString) (scene : aiScene α) (mMeshes : Nat → aiMesh α) (names : Nat → Nat)
    (hm : scene.mMeshes = some mMeshes) (hn : scene.mNumMeshes > 0) :
    (m.initialiseFromFile filename (some scene) names).result = true ∧
    (m.initialiseFromFile filename (some scene) names).mesh.m_subMeshes.length
      = scene.mNumMeshes ∧
    (∀ i, i < scene.mNumMeshes →
      (m.initialiseFromFile filename (some scene) names).mesh.m_subMeshes[i]? = some
        { vao := names (3 * i), vbo := names (3 * i + 1), ibo := names (3 * i + 2),
          indexCount := toUnsignedInt (meshIndices (mMeshes i)).length,
          materialName := meshMaterialName scene (mMeshes i) }) ∧
    (∀ earlier : List SubMesh,
      ({ m with m_subMeshes := earlier }.initialiseFromFile filename (some scene)
          names).mesh.m_subMeshes
        = (m.initialiseFromFile filename (some scene) names).mesh.m_subMeshes) ∧
    (m.initialiseFromFile filename (some scene) names).mesh.textures = m.textures ∧
    (m.initialiseFromFile filename (some scene) names).mesh.Ka = m.Ka ∧
    (m.initialiseFromFile filename (some scene) names).mesh.Kd = m.Kd ∧
    (m.initialiseFromFile filename (some scene) names).mesh.Ks = m.Ks ∧
    (m.initialiseFromFile filename (some scene) names).mesh.specularPower
      = m.specularPower := by
  refine ⟨?_, ?_, ?_, ?_, ?_⟩
  · rw [initialiseFromFile_loaded m filename scene mMeshes names hm hn]
  · rw [initialiseFromFile_loaded m filename scene mMeshes names hm hn, loadSubMeshes_eq]
    simp only [List.length_map, List.length_range]
  · intro i hi
    exact (initialiseFromFile_nth m filename scene mMeshes names hm hn i hi).2.1
  · intro earlier
    rw [initialiseFromFile_loaded m filename scene mMeshes names hm hn,
      initialiseFromFile_loaded _ filename scene mMeshes names hm hn]
  · rw [initialiseFromFile_loaded m filename scene mMeshes names hm hn]
    exact ⟨rfl, rfl, rfl, rfl, rfl⟩

/-- A second load on a mesh that already holds a submesh. -/
theorem initialiseFromFile_replaces_witness :
    (sampleScene.mMeshes = some (fun meshIndex => if meshIndex = 0 then quadTriMesh else litMesh) ∧
      sampleScene.mNumMeshes > 0) ∧
    (loadedMesh.initialiseFromFile "ship.obj".toList (some sampleScene) sampleNames).mesh.m_subMeshes
      = [ { vao := 1, vbo := 2, ibo := 3, indexCount := 6,
            materialName := "mat_0-texture014.jpg".toList },
          { vao := 4, vbo := 5, ibo := 6, indexCount := 0,
            materialName := "default-grey.jpg".toList } ] ∧
    (loadedMesh.initialiseFromFile "ship.obj".toList (some sampleScene) sampleNames).mesh.m_subMeshes.length
      = sampleScene.mNumMeshes :=
  ⟨⟨rfl, by decide⟩, by decide,
    (initialiseFromFile_replaces loadedMesh "ship.obj".toList sampleScene
      (fun meshIndex => if meshIndex = 0 then quadTriMesh else litMesh) sampleNames rfl
      (by decide)).2.1⟩

/-- Every submesh can be drawn: `applyMaterial` never throws. -/
theorem drawSubMesh_isSome {α : Type} (m : Mesh α) (sub : SubMesh) :
    ∃ material, m.applyMaterial sub.materialName = some material ∧
      m.drawSubMesh sub = some (material ++
        [Call.glBindVertexArray sub.vao, Call.glDrawElements sub.indexCount]) := by
  obtain ⟨key, hk⟩ := correctedTextureName_isSome sub.materialName
  refine ⟨_, applyMaterial_of_corrected m _ key hk, ?_⟩
  unfold Mesh.drawSubMesh
  rw [applyMaterial_of_corrected m _ key hk]

/-- The loop of `Mesh::draw` appends the calls of each submesh, in order. -/
theorem draw_loop {α : Type} (m : Mesh α) (subs : List SubMesh) (init : List (Call α)) :
    ∃ perSub : List (List (Call α)),
      List.Forall₂
        (fun sub calls => ∃ material, m.applyMaterial sub.materialName = some material ∧
          calls = material ++
            [Call.glBindVertexArray sub.vao, Call.glDrawElements sub.indexCount])
        subs perSub ∧
      subs.foldl
        (fun acc sub =>
          match acc, m.drawSubMesh sub with
          | some calls, some drawn => some (calls ++ drawn)
          | _, _ => none)
        (some init) = some (init ++ perSub.flatten) := by
  induction subs generalizing init with
  | nil => exact ⟨[], List.Forall₂.nil, by simp⟩
  | cons sub rest ih =>
    obtain ⟨material, hmat, hdrawn⟩ := drawSubMesh_isSome m sub
    obtain ⟨perSub, hall, hfold⟩ := ih (init ++ (material ++
      [Call.glBindVertexArray sub.vao, Call.glDrawElements sub.indexCount]))
    refine ⟨(material ++ [Call.glBindVertexArray sub.vao,
      Call.glDrawElements sub.indexCount]) :: perSub,
      List.Forall₂.cons ⟨material, hmat, rfl⟩ hall, ?_⟩
    rw [List.foldl_cons, hdrawn]
    simp only []
    rw [hfold, List.flatten_cons, List.append_assoc]

/-- C12: `Mesh::draw` returns, and its calls are, for each submesh in the order of the
collection, the calls of `applyMaterial` for the material name of that submesh, then
`glBindVertexArray` with its `vao`, then `glDrawElements` with its `indexCount`; after the
last submesh comes `glBindVertexArray(0)`. With no submeshes that is the only call. -/
theorem draw_calls {α : Type} (m : Mesh α) :
    (∃ perSub : List (List (Call α)),
      List.Forall₂
        (fun sub calls => ∃ material, m.applyMaterial sub.materialName = some material ∧
          calls = material ++
            [Call.glBindVertexArray sub.vao, Call.glDrawElements sub.indexCount])
        m.m_subMeshes perSub ∧
      m.draw = some (perSub.flatten ++ [Call.glBindVertexArray 0])) ∧
    (m.m_subMeshes = [] → m.draw = some [Call.glBindVertexArray 0]) := by
  constructor
  · obtain ⟨perSub, hall, hfold⟩ := draw_loop m m.m_subMeshes []
    refine ⟨perSub, hall, ?_⟩
    unfold Mesh.draw
    rw [hfold, List.nil_append]
  · intro h
    unfold Mesh.draw
    rw [h]
    rfl

/-- The calls of `draw` on the sample mesh with one submesh, and with none. -/
theorem draw_samples :
    loadedMesh.draw = some (loadedMesh.bindReflectance ++
      [ Call.texturesFind "texture014.jpg".toList, Call.glActiveTexture 0,
        Call.textureBind { Texture.new with m_glHandle := 11, m_width := 4, m_height := 4 } 0,
        Call.bindUniformInt "diffuseTex".toList 0,
        Call.glBindVertexArray 1, Call.glDrawElements 6, Call.glBindVertexArray 0 ]) ∧
    sampleMesh.draw = some [Call.glBindVertexArray 0] := by
  decide

/-! ## Loading a texture -/

theorem release_handle (t : Texture) : t.release.1.m_glHandle = 0 := by
  unfold Texture.release
  by_cases h : t.m_glHandle = 0
  · simp [h]
  · simp [h]

theorem release_size (t : Texture) (hinv : t.m_glHandle = 0 → t.m_width = 0 ∧ t.m_height = 0) :
    t.release.1.m_width = 0 ∧ t.release.1.m_height = 0 := by
  unfold Texture.release
  by_cases h : t.m_glHandle = 0
  · simp [h, hinv h]
  · simp [h]

theorem release_calls (t : Texture) :
    t.release.2 = if t.m_glHandle ≠ 0 then [TextureCall.glDeleteTextures t.m_glHandle] else [] := by
  unfold Texture.release
  by_cases h : t.m_glHandle = 0
  · simp [h]
  · simp [h]

theorem upload_fields (t : Texture) (image : StbImage) :
    (t.upload image).1.m_glHandle = t.m_glHandle ∧
    (image.comp = 1 → (t.upload image).1.m_format = Texture.RED) ∧
    (image.comp = 2 → (t.upload image).1.m_format = Texture.RG) ∧
    (image.comp = 3 → (t.upload image).1.m_format = Texture.RGB) ∧
    (image.comp = 4 → (t.upload image).1.m_format = Texture.RGBA) ∧
    ∀ n, TextureCall.glDeleteTextures n ∉ (t.upload image).2 := by
  unfold Texture.upload
  by_cases h1 : image.comp = 1
  · simp [h1]
  · by_cases h2 : image.comp = 2
    · simp [h2]
    · by_cases h3 : image.comp = 3
      · simp [h3]
      · by_cases h4 : image.comp = 4
        · simp [h4]
        · simp [h1, h2, h3, h4]

/-- C20: for every texture that either holds a GPU handle or has no size (the invariant of
the data model), a `load` whose decode fails returns `false` and leaves handle, width and
height at 0; a handle held before is deleted by exactly one `glDeleteTextures`, made before
`stbi_load`, and nothing else is called. A `load` whose decode succeeds returns `true`,
records the generated handle, the width, the height and the file name, and records the
format `RED`, `RG`, `RGB`, `RGBA` for 1, 2, 3, 4 channels; here too the only
`glDeleteTextures` is the one for a handle held before, ahead of `stbi_load`. -/
theorem load_outcome (t : Texture) (filename : CppString) (name : Nat)
    (hinv : t.m_glHandle = 0 → t.m_width = 0 ∧ t.m_height = 0) :
    ((t.load filename none name).result = false ∧
      (t.load filename none name).texture.m_glHandle = 0 ∧
      (t.load filename none name).texture.m_width = 0 ∧
      (t.load filename none name).texture.m_height = 0 ∧
      (t.m_glHandle ≠ 0 → (t.load filename none name).calls =
        [TextureCall.glDeleteTextures t.m_glHandle, TextureCall.stbi_load filename]) ∧
      (t.m_glHandle = 0 → (t.load filename none name).calls =
        [TextureCall.stbi_load filename])) ∧
    ∀ image : StbImage,
      (t.load filename (some image) name).result = true ∧
      (t.load filename (some image) name).texture.m_glHandle = name ∧
      (t.load filename (some image) name).texture.m_width = image.x ∧
      (t.load filename (some image) name).texture.m_height = image.y ∧
      (t.load filename (some image) name).texture.m_filename = filename ∧
      (image.comp = 1 → (t.load filename (some image) name).texture.m_format = Texture.RED) ∧
      (image.comp = 2 → (t.load filename (some image) name).texture.m_format = Texture.RG) ∧
      (image.comp = 3 → (t.load filename (some image) name).texture.m_format = Texture.RGB) ∧
      (image.comp = 4 → (t.load filename (some image) name).texture.m_format = Texture.RGBA) ∧
      ∃ rest, (t.load filename (some image) name).calls =
          (if t.m_glHandle ≠ 0 then [TextureCall.glDeleteTextures t.m_glHandle] else [])
            ++ TextureCall.stbi_load filename :: rest ∧
        ∀ n, TextureCall.glDeleteTextures n ∉ rest := by
  constructor
  · refine ⟨rfl, release_handle t, (release_size t hinv).1, (release_size t hinv).2, ?_, ?_⟩
    · intro h
      show t.release.2 ++ [TextureCall.stbi_load filename] = _
      rw [release_calls, if_pos h]
      rfl
    · intro h
      show t.release.2 ++ [TextureCall.stbi_load filename] = _
      rw [release_calls, if_neg (not_not.mpr h)]
      rfl
  · intro image
    obtain ⟨hh, h1, h2, h3, h4, hdel⟩ := upload_fields
      { t.release.1 with m_loadedPixels := some image.pixels, m_glHandle := name } image
    refine ⟨rfl, hh, rfl, rfl, rfl, h1, h2, h3, h4, ?_⟩
    refine ⟨[TextureCall.glGenTextures name, TextureCall.glBindTexture name] ++
      (Texture.upload { t.release.1 with m_loadedPixels := some image.pixels, m_glHandle := name }
        image).2 ++
      [TextureCall.glTexParameteri GLFilter.GL_TEXTURE_MAG_FILTER,
        TextureCall.glTexParameteri GLFilter.GL_TEXTURE_MIN_FILTER,
        TextureCall.glGenerateMipmap, TextureCall.glBindTexture 0], ?_, ?_⟩
    · show t.release.2 ++ [TextureCall.stbi_load filename, TextureCall.glGenTextures name,
          TextureCall.glBindTexture name] ++ _ ++ _ = _
      rw [release_calls]
      simp only [List.append_assoc, List.cons_append, List.nil_append]
    · intro n hn
      simp only [List.cons_append, List.nil_append, List.mem_cons, List.mem_append,
        List.mem_singleton, reduceCtorEq, false_or, or_false, List.not_mem_nil] at hn
      exact hdel n hn

/-- A texture held with handle 11 and size 4 by 4, loaded from a file that fails to decode
and from a three-channel image. -/
theorem load_outcome_witness :
    (((11 : Nat) = 0 → (4 : Nat) = 0 ∧ (4 : Nat) = 0)) ∧
    ({ Texture.new with m_glHandle := 11, m_width := 4, m_height := 4 }.load
        "hull.png".toList none 12
      = { result := false
          texture := Texture.new
          calls := [TextureCall.glDeleteTextures 11, TextureCall.stbi_load "hull.png".toList] }) ∧
    ({ Texture.new with m_glHandle := 11, m_width := 4, m_height := 4 }.load
        "hull.png".toList (some { pixels := [1, 2, 3, 4, 5, 6], x := 2, y := 1, comp := 3 })
        12).texture
      = { m_filename := "hull.png".toList, m_width := 2, m_height := 1, m_glHandle := 12,
          m_format := 3, m_loadedPixels := some [1, 2, 3, 4, 5, 6] } ∧
    ({ Texture.new with m_glHandle := 11, m_width := 4, m_height := 4 }.load
        "hull.png".toList none 12).texture.m_width = 0 :=
  ⟨by decide, by decide, by decide,
    (load_outcome { Texture.new with m_glHandle := 11, m_width := 4, m_height := 4 }
      "hull.png".toList 12 (by decide)).1.2.2.1⟩

/-- A default-constructed texture has no handle and no size, and `load` keeps a texture
with a handle or without size that way whenever the driver hands out a name other than 0. -/
theorem load_keeps_invariant (t : Texture) (filename : CppString) (decoded : Option StbImage)
    (name : Nat) (hname : name ≠ 0)
    (hinv : t.m_glHandle = 0 → t.m_width = 0 ∧ t.m_height = 0) :
    (Texture.new.m_glHandle = 0 ∧ Texture.new.m_width = 0 ∧ Texture.new.m_height = 0) ∧
    ((t.load filename decoded name).texture.m_glHandle = 0 →
      (t.load filename decoded name).texture.m_width = 0 ∧
      (t.load filename decoded name).texture.m_height = 0) := by
  refine ⟨⟨rfl, rfl, rfl⟩, ?_⟩
  cases decoded with
  | none =>
    intro _
    exact ⟨(load_outcome t filename name hinv).1.2.2.1, (load_outcome t filename name hinv).1.2.2.2.1⟩
  | some image =>
    intro h
    rw [((load_outcome t filename name hinv).2 image).2.1] at h
    exact absurd h hname

/-! ## Binding uniforms, binding and linking programs -/

/-- The effect of a name-keyed `bindUniform` on the context is the effect of its calls. -/
theorem bindUniform_eq_calls {α : Type} (loc : Nat → CppString → Int) (shader : ShaderProgram)
    (name : CppString) (value : UniformValue α) (gl : GLState α) :
    shader.bindUniform loc name value gl =
      (shader.bindUniformCalls loc name value).map
        (fun r => (r.1, r.2.foldl (fun g c => c.exec g) gl)) := by
  unfold ShaderProgram.bindUniform ShaderProgram.bindUniformCalls
  by_cases hs : shader.m_program > 0
  · rw [if_pos hs, if_pos hs]
    by_cases hi : loc shader.m_program name < 0
    · simp only [hi, if_true, Option.map_some']
      rfl
    · simp only [hi, if_false, Option.map_some']
      rfl
  · rw [if_neg hs, if_neg hs]
    rfl

/-- C16: on a program with `m_program > 0`, for each of the sixteen name-keyed overloads
(`value` ranges over their value arguments): if `glGetUniformLocation` answers a location
below 0 the call returns `false`, its only calls are that query and the `printf` of the
warning, and uniforms, texture units and active unit are as before; if it answers a
location of 0 or more the call returns `true` and makes, after the query, exactly one
`glUniform*` call, at that location and with the value given. -/
theorem bindUniform_by_name {α : Type} (loc : Nat → CppString → Int) (shader : ShaderProgram)
    (hs : shader.m_program > 0) (name : CppString) (value : UniformValue α) :
    (loc shader.m_program name < 0 →
      shader.bindUniformCalls loc name value = some (false,
        [UniformCall.glGetUniformLocation shader.m_program name,
          UniformCall.printf ("Shader uniform [".toList ++ name
            ++ "] not found! Is it being used?\n".toList)]) ∧
      ∀ gl : GLState α, ∃ gl1, shader.bindUniform loc name value gl = some (false, gl1) ∧
        gl1.uniform = gl.uniform ∧ gl1.boundTexture2D = gl.boundTexture2D ∧
        gl1.activeTexture = gl.activeTexture) ∧
    (0 ≤ loc shader.m_program name →
      shader.bindUniformCalls loc name value = some (true,
        [UniformCall.glGetUniformLocation shader.m_program name,
          UniformCall.glUniform (loc shader.m_program name) value]) ∧
      ∀ gl : GLState α, ∃ gl1, shader.bindUniform loc name value gl = some (true, gl1) ∧
        gl1.uniform (loc shader.m_program name) = some value ∧
        (∀ other, other ≠ loc shader.m_program name → gl1.uniform other = gl.uniform other) ∧
        gl1.boundTexture2D = gl.boundTexture2D ∧ gl1.activeTexture = gl.activeTexture) := by
  constructor
  · intro hi
    have hc : shader.bindUniformCalls loc name value = some (false,
        [UniformCall.glGetUniformLocation shader.m_program name,
          UniformCall.printf ("Shader uniform [".toList ++ name
            ++ "] not found! Is it being used?\n".toList)]) := by
      unfold ShaderProgram.bindUniformCalls
      rw [if_pos hs]
      simp only [hi, if_true]
      rfl
    refine ⟨hc, fun gl => ?_⟩
    rw [bindUniform_eq_calls, hc]
    exact ⟨_, rfl, rfl, rfl, rfl⟩
  · intro hi
    have hc : shader.bindUniformCalls loc name value = some (true,
        [UniformCall.glGetUniformLocation shader.m_program name,
          UniformCall.glUniform (loc shader.m_program name) value]) := by
      unfold ShaderProgram.bindUniformCalls
      rw [if_pos hs]
      simp only [not_lt.mpr hi, if_false]
    refine ⟨hc, fun gl => ?_⟩
    rw [bindUniform_eq_calls, hc]
    refine ⟨_, rfl, ?_, ?_, rfl, rfl⟩
    · simp [UniformCall.exec]
    · intro other hne
      simp [UniformCall.exec, Function.update_noteq hne]

/-- The sample driver has no `Ks` and has `Kd` at location 1. -/
theorem bindUniform_by_name_witness :
    (sampleShader.m_program > 0 ∧ sampleLocation sampleShader.m_program "Ks".toList < 0 ∧
      0 ≤ sampleLocation sampleShader.m_program "Kd".toList) ∧
    sampleShader.bindUniformCalls sampleLocation "Ks".toList
        (UniformValue.vec3 (⟨7, 8, 9⟩ : vec3 Int)) = some (false,
      [UniformCall.glGetUniformLocation 3 "Ks".toList,
        UniformCall.printf "Shader uniform [Ks] not found! Is it being used?\n".toList]) ∧
    sampleShader.bindUniformCalls sampleLocation "Kd".toList
        (UniformValue.vec3 (⟨4, 5, 6⟩ : vec3 Int)) = some (true,
      [UniformCall.glGetUniformLocation 3 "Kd".toList,
        UniformCall.glUniform 1 (UniformValue.vec3 ⟨4, 5, 6⟩)]) :=
  ⟨by decide,
    ((bindUniform_by_name sampleLocation sampleShader (by decide) "Ks".toList
      (UniformValue.vec3 (⟨7, 8, 9⟩ : vec3 Int))).1 (by decide)).1,
    ((bindUniform_by_name sampleLocation sampleShader (by decide) "Kd".toList
      (UniformValue.vec3 (⟨4, 5, 6⟩ : vec3 Int))).2 (by decide)).1⟩

/-- What `link` returns and stores. -/
theorem link_fields (shader : ShaderProgram) (name : Nat) (object : ProgramObject) :
    (shader.link name object).result = object.linkStatus ∧
    (shader.link name object).program.m_program = name ∧
    (shader.link name object).program.m_shaders = shader.m_shaders := by
  unfold ShaderProgram.link glGetProgramiv
  cases h : object.linkStatus <;> simp [GL_TRUE, GL_FALSE]

/-- C17, as the code has it: a `ShaderProgram` whose `m_program` is 0, as it is until
`link` is called, fails the `assert` of `bind`, of every name-keyed `bindUniform` and of
every location-keyed `bindUniform`, and no call is made. `link` stores the name returned by
`glCreateProgram` in `m_program` whether or not the program links; when that name is above
0, `bind` and the `bindUniform` overloads pass the `assert` on `m_program` after `link`,
also after a `link` that returned `false`. -/
theorem use_before_link_asserts {α : Type} (shader : ShaderProgram)
    (h0 : shader.m_program = 0) :
    ShaderProgram.new.m_program = 0 ∧
    shader.bind = none ∧
    (∀ (loc : Nat → CppString → Int) (name : CppString) (value : UniformValue α),
      shader.bindUniformCalls loc name value = none) ∧
    (∀ (ID : Int) (value : UniformValue α), shader.bindUniformID ID value = none) ∧
    (∀ (name : Nat) (object : ProgramObject), name > 0 →
      (shader.link name object).result = object.linkStatus ∧
      (shader.link name object).program.m_program = name ∧
      (shader.link name object).program.bind = some [ShaderCall.glUseProgram name] ∧
      (∀ (loc : Nat → CppString → Int) (uniform : CppString) (value : UniformValue α),
        (shader.link name object).program.bindUniformCalls loc uniform value ≠ none) ∧
      (∀ (ID : Int) (value : UniformValue α), ID ≥ 0 →
        (shader.link name object).program.bindUniformID ID value
          = some [UniformCall.glUniform ID value])) := by
  refine ⟨rfl, ?_, ?_, ?_, ?_⟩
  · unfold ShaderProgram.bind
    rw [h0]
    rfl
  · intro loc name value
    unfold ShaderProgram.bindUniformCalls
    rw [h0]
    rfl
  · intro ID value
    unfold ShaderProgram.bindUniformID
    rw [h0]
    rfl
  · intro name object hname
    have hp : (shader.link name object).program.m_program = name :=
      (link_fields shader name object).2.1
    have hr : (shader.link name object).result = object.linkStatus :=
      (link_fields shader name object).1
    refine ⟨hr, hp, ?_, ?_, ?_⟩
    · unfold ShaderProgram.bind
      rw [hp, if_pos hname]
    · intro loc uniform value
      unfold ShaderProgram.bindUniformCalls
      rw [hp, if_pos hname]
      by_cases hi : loc name uniform < 0
      · simp [hi]
      · simp [hi]
    · intro ID value hID
      unfold ShaderProgram.bindUniformID
      rw [hp, if_pos hname, if_pos hID]

/-- A program on which `link` was never called. -/
theorem use_before_link_asserts_witness :
    ShaderProgram.new.m_program = 0 ∧
    ShaderProgram.new.bind = none ∧
    (∀ (loc : Nat → CppString → Int) (name : CppString) (value : UniformValue Int),
      ShaderProgram.new.bindUniformCalls loc name value = none) ∧
    (∀ (ID : Int) (value : UniformValue Int), ShaderProgram.new.bindUniformID ID value = none) :=
  ⟨rfl, (use_before_link_asserts (α := Int) ShaderProgram.new rfl).2.1,
    (use_before_link_asserts (α := Int) ShaderProgram.new rfl).2.2.1,
    (use_before_link_asserts (α := Int) ShaderProgram.new rfl).2.2.2.1⟩

/-- C17, as stated, fails: `link` on a program that the driver does not link returns
`false` and leaves `m_program` at the name created, 7; after it `bind` calls
`glUseProgram(7)`, and `bindUniform` by name and by location call `glUniform1i`: no
`assert` fails. -/
theorem use_after_failed_link_counterexample :
    (ShaderProgram.new.link 7 brokenProgramObject).result = false ∧
    (ShaderProgram.new.link 7 brokenProgramObject).program.m_program = 7 ∧
    (ShaderProgram.new.link 7 brokenProgramObject).program.bind
      = some [ShaderCall.glUseProgram 7] ∧
    (ShaderProgram.new.link 7 brokenProgramObject).program.bindUniformCalls sampleLocation
        "diffuseTex".toList (UniformValue.int 0 : UniformValue Int)
      = some (true, [UniformCall.glGetUniformLocation 7 "diffuseTex".toList,
          UniformCall.glUniform 3 (UniformValue.int 0)]) ∧
    (ShaderProgram.new.link 7 brokenProgramObject).program.bindUniformID 3
        (UniformValue.int 0 : UniformValue Int)
      = some [UniformCall.glUniform 3 (UniformValue.int 0)] := by
  decide

theorem attachAll_loop (name : Nat) (slots : List (Option Shader)) (init : List ShaderCall) :
    slots.foldl
      (fun calls s =>
        match s with
        | some shader => calls ++ [ShaderCall.glAttachShader name shader.m_handle]
        | none => calls)
      init
      = init ++ (slots.filterMap id).map (fun shader =>
          ShaderCall.glAttachShader name shader.m_handle) := by
  induction slots generalizing init with
  | nil => simp
  | cons s rest ih =>
    cases s with
    | none => simp [ih]
    | some shader => simp [ih]

/-- The loop of `link` attaches the shader of every slot that is not null, in slot order. -/
theorem attachAll_eq (name : Nat) (slots : List (Option Shader)) :
    ShaderProgram.attachAll name slots
      = (slots.filterMap id).map (fun shader => ShaderCall.glAttachShader name shader.m_handle) := by
  unfold ShaderProgram.attachAll
  rw [attachAll_loop, List.nil_append]

theorem stageType_isSome (stage : Nat) (h : stage > 0 ∧ stage < SHADER_STAGE_Count) :
    ∃ type, stageType stage = some type := by
  obtain ⟨h1, h2⟩ := h
  unfold SHADER_STAGE_Count at h2
  interval_cases stage <;> exact ⟨_, rfl⟩

/-- For a stage from 1 to 5, `Shader::loadShader` returns, with the handle created and the
stage stored in the shader, whatever its result. -/
theorem loadShader_fields (shader : Shader) (stage : Nat)
    (h : stage > 0 ∧ stage < SHADER_STAGE_Count) (filename : CppString) (handle : Nat)
    (file : Option OpenedFile) (object : ShaderObject) :
    ∃ loaded, shader.loadShader stage filename handle file object = some loaded ∧
      loaded.shader.m_handle = handle ∧ loaded.shader.m_stage = stage := by
  obtain ⟨type, ht⟩ := stageType_isSome stage h
  unfold Shader.loadShader
  rw [if_pos h]
  simp only [ht]
  cases file with
  | none => exact ⟨_, rfl, rfl, rfl⟩
  | some opened =>
    dsimp only
    by_cases h1 : opened.size ≤ 0
    · rw [if_pos h1]
      exact ⟨_, rfl, rfl, rfl⟩
    · rw [if_neg h1]
      by_cases h2 : opened.bytesRead ≠ opened.size.toNat
      · rw [if_pos h2]
        exact ⟨_, rfl, rfl, rfl⟩
      · rw [if_neg h2]
        refine ⟨_, rfl, ?_, ?_⟩
        · unfold Shader.compileLoaded
          by_cases h3 : glGetShaderiv object GLParameter.GL_COMPILE_STATUS GL_TRUE = GL_FALSE
          · simp only [h3, if_true]
          · simp only [h3, if_false]
        · unfold Shader.compileLoaded
          by_cases h3 : glGetShaderiv object GLParameter.GL_COMPILE_STATUS GL_TRUE = GL_FALSE
          · simp only [h3, if_true]
          · simp only [h3, if_false]

/-- For a stage from 1 to 5, `Shader::createShader` returns `true`, with the handle created
and the stage stored in the shader, whatever the compile status: `glGetShaderiv` is asked
for `GL_LINK_STATUS`, writes nothing, and `success` keeps its initial `GL_TRUE`. -/
theorem createShader_fields (shader : Shader) (stage : Nat)
    (h : stage > 0 ∧ stage < SHADER_STAGE_Count) (string : CppString) (handle : Nat)
    (object : ShaderObject) :
    ∃ loaded, shader.createShader stage string handle object = some loaded ∧
      loaded.result = true ∧ loaded.shader.m_handle = handle ∧ loaded.shader.m_stage = stage := by
  obtain ⟨type, ht⟩ := stageType_isSome stage h
  unfold Shader.createShader
  rw [if_pos h]
  simp only [ht, glGetShaderiv]
  exact ⟨_, rfl, rfl, rfl, rfl⟩

/-- C18, as the code has it: `link` calls `glAttachShader` once for every slot of
`m_shaders` that is not null, in slot order, between `glCreateProgram` and `glLinkProgram`,
and nowhere else; there are six slots, one per stage, so at most one shader per stage is
attached. `loadShader` and `createShader` for a stage from 1 to 5 put the new shader in the
slot of that stage whatever they return, replacing what was there, so `link` afterwards
attaches the handle created by that call, also when the call returned `false`. -/
theorem link_attaches_every_slot (program : ShaderProgram)
    (hlen : program.m_shaders.length = SHADER_STAGE_Count) (name : Nat)
    (object : ProgramObject) :
    (∃ rest, (program.link name object).calls =
        ShaderCall.glCreateProgram name ::
          (program.m_shaders.filterMap id).map
            (fun shader => ShaderCall.glAttachShader name shader.m_handle)
          ++ ShaderCall.glLinkProgram name :: rest ∧
      ∀ p s, ShaderCall.glAttachShader p s ∉ rest) ∧
    (program.m_shaders.filterMap id).length ≤ SHADER_STAGE_Count ∧
    (∀ (stage : Nat) (filename : CppString) (handle : Nat) (file : Option OpenedFile)
        (compiled : ShaderObject), stage > 0 ∧ stage < SHADER_STAGE_Count →
      ∃ loaded shader, program.loadShader stage filename handle file compiled = some loaded ∧
        shader.m_handle = handle ∧ shader.m_stage = stage ∧
        loaded.program.m_shaders = program.m_shaders.set stage (some shader) ∧
        loaded.program.m_shaders[stage]? = some (some shader) ∧
        ShaderCall.glAttachShader name handle ∈ (loaded.program.link name object).calls) ∧
    (∀ (stage : Nat) (string : CppString) (handle : Nat) (compiled : ShaderObject),
      stage > 0 ∧ stage < SHADER_STAGE_Count →
      ∃ loaded shader, program.createShader stage string handle compiled = some loaded ∧
        shader.m_handle = handle ∧ shader.m_stage = stage ∧
        loaded.program.m_shaders = program.m_shaders.set stage (some shader) ∧
        loaded.program.m_shaders[stage]? = some (some shader) ∧
        ShaderCall.glAttachShader name handle ∈ (loaded.program.link name object).calls) := by
  have hlink : ∀ q : ShaderProgram, ∃ rest, (q.link name object).calls =
        ShaderCall.glCreateProgram name ::
          (q.m_shaders.filterMap id).map
            (fun shader => ShaderCall.glAttachShader name shader.m_handle)
          ++ ShaderCall.glLinkProgram name :: rest ∧
      ∀ p s, ShaderCall.glAttachShader p s ∉ rest := by
    intro q
    unfold ShaderProgram.link
    rw [attachAll_eq]
    by_cases hs : glGetProgramiv object GLParameter.GL_LINK_STATUS GL_TRUE = GL_FALSE
    · simp only [hs, if_true]
      exact ⟨[ShaderCall.glGetProgramiv name GLParameter.GL_LINK_STATUS,
        ShaderCall.glGetProgramiv name GLParameter.GL_INFO_LOG_LENGTH,
        ShaderCall.glGetProgramInfoLog name], by simp, by simp⟩
    · simp only [hs, if_false]
      exact ⟨[ShaderCall.glGetProgramiv name GLParameter.GL_LINK_STATUS], by simp, by simp⟩
  have hattach : ∀ (q : ShaderProgram) (stage : Nat) (shader : Shader),
      stage < SHADER_STAGE_Count →
      q.m_shaders = program.m_shaders.set stage (some shader) →
      q.m_shaders[stage]? = some (some shader) ∧
      ShaderCall.glAttachShader name shader.m_handle ∈ (q.link name object).calls := by
    intro q stage shader hst hq
    have hget : q.m_shaders[stage]? = some (some shader) := by
      rw [hq, List.getElem?_set_self (by rw [hlen]; exact hst)]
    refine ⟨hget, ?_⟩
    obtain ⟨rest, hcalls, _⟩ := hlink q
    rw [hcalls]
    have hmem : shader ∈ q.m_shaders.filterMap id := by
      rw [List.mem_filterMap]
      exact ⟨some shader, List.getElem?_mem hget, rfl⟩
    simp only [List.cons_append, List.mem_cons, List.mem_append, List.mem_map, reduceCtorEq,
      false_or]
    exact Or.inl ⟨shader, hmem, rfl⟩
  refine ⟨hlink program, ?_, ?_, ?_⟩
  · rw [← hlen]
    exact List.length_filterMap_le _ _
  · intro stage filename handle file compiled hst
    obtain ⟨l, hl, hh, hs⟩ := loadShader_fields {} stage hst filename handle file compiled
    have hload : program.loadShader stage filename handle file compiled = some
        { result := l.result
          program := { program with m_shaders := program.m_shaders.set stage (some l.shader) }
          calls := l.calls } := by
      unfold ShaderProgram.loadShader
      rw [if_pos hst, hl]
    obtain ⟨hget, hmem⟩ := hattach
      { program with m_shaders := program.m_shaders.set stage (some l.shader) } stage l.shader
      hst.2 rfl
    rw [hh] at hmem
    exact ⟨_, l.shader, hload, hh, hs, rfl, hget, hmem⟩
  · intro stage string handle compiled hst
    obtain ⟨l, hl, _, hh, hs⟩ := createShader_fields {} stage hst string handle compiled
    have hload : program.createShader stage string handle compiled = some
        { result := l.result
          program := { program with m_shaders := program.m_shaders.set stage (some l.shader) }
          calls := l.calls } := by
      unfold ShaderProgram.createShader
      rw [if_pos hst, hl]
    obtain ⟨hget, hmem⟩ := hattach
      { program with m_shaders := program.m_shaders.set stage (some l.shader) } stage l.shader
      hst.2 rfl
    rw [hh] at hmem
    exact ⟨_, l.shader, hload, hh, hs, rfl, hget, hmem⟩

/-- A vertex shader whose file is missing, on a new program that is then linked. -/
theorem link_attaches_every_slot_witness :
    ShaderProgram.new.m_shaders.length = SHADER_STAGE_Count ∧
    ∃ loaded shader, ShaderProgram.new.loadShader 1 "missing.vert".toList 21 none
        goodShaderObject = some loaded ∧
      shader.m_handle = 21 ∧ shader.m_stage = 1 ∧
      loaded.program.m_shaders = ShaderProgram.new.m_shaders.set 1 (some shader) ∧
      loaded.program.m_shaders[1]? = some (some shader) ∧
      ShaderCall.glAttachShader 7 21 ∈ (loaded.program.link 7 goodProgramObject).calls :=
  ⟨rfl, (link_attaches_every_slot ShaderProgram.new rfl 7 goodProgramObject).2.2.1 1
    "missing.vert".toList 21 none goodShaderObject (by decide)⟩

/-- C18, as stated, fails: `loadShader` for the vertex stage returns `false` when the file
cannot be opened, and when the source does not compile; in both cases the `link` that
follows attaches the shader created by that call. -/
theorem link_attaches_failed_stage_counterexample :
    (ShaderProgram.new.loadShader 1 "missing.vert".toList 21 none goodShaderObject).map
      (fun loaded => (loaded.result, (loaded.program.link 7 goodProgramObject).calls))
      = some (false,
          [ ShaderCall.glCreateProgram 7, ShaderCall.glAttachShader 7 21,
            ShaderCall.glLinkProgram 7,
            ShaderCall.glGetProgramiv 7 GLParameter.GL_LINK_STATUS ]) ∧
    (ShaderProgram.new.loadShader 1 "bad.vert".toList 22 (some sampleShaderFile)
        brokenShaderObject).map
      (fun loaded => (loaded.result, (loaded.program.link 7 goodProgramObject).calls))
      = some (false,
          [ ShaderCall.glCreateProgram 7, ShaderCall.glAttachShader 7 22,
            ShaderCall.glLinkProgram 7,
            ShaderCall.glGetProgramiv 7 GLParameter.GL_LINK_STATUS ]) := by
  decide

/-- What `Shader::loadShader` returns for a stage from 1 to 5: `false` without any
`glShaderSource` or `glCompileShader` when the file cannot be opened or `ftell` reports no
content, and otherwise, once the file is read in full, the compile status. -/
theorem loadShader_result (shader : Shader) (stage : Nat)
    (h : stage > 0 ∧ stage < SHADER_STAGE_Count) (filename : CppString) (handle : Nat)
    (object : ShaderObject) :
    (∃ loaded, shader.loadShader stage filename handle none object = some loaded ∧
      loaded.result = false ∧
      ∀ c ∈ loaded.calls, (∀ s src, c ≠ ShaderCall.glShaderSource s src) ∧
        ∀ s, c ≠ ShaderCall.glCompileShader s) ∧
    (∀ opened : OpenedFile, opened.size ≤ 0 →
      ∃ loaded, shader.loadShader stage filename handle (some opened) object = some loaded ∧
        loaded.result = false ∧
        ∀ c ∈ loaded.calls, (∀ s src, c ≠ ShaderCall.glShaderSource s src) ∧
          ∀ s, c ≠ ShaderCall.glCompileShader s) ∧
    (∀ opened : OpenedFile, 0 < opened.size → opened.bytesRead = opened.size.toNat →
      ∃ loaded, shader.loadShader stage filename handle (some opened) object = some loaded ∧
        loaded.result = object.compileStatus) := by
  obtain ⟨type, ht⟩ := stageType_isSome stage h
  refine ⟨?_, ?_, ?_⟩
  · unfold Shader.loadShader
    rw [if_pos h]
    simp only [ht]
    refine ⟨_, rfl, rfl, ?_⟩
    intro c hc
    simp only [List.cons_append, List.nil_append, List.mem_cons, List.mem_singleton,
      List.not_mem_nil, or_false] at hc
    rcases hc with rfl | rfl | rfl <;> simp
  · intro opened hsize
    unfold Shader.loadShader
    rw [if_pos h]
    simp only [ht]
    rw [if_pos hsize]
    refine ⟨_, rfl, rfl, ?_⟩
    intro c hc
    simp only [List.cons_append, List.nil_append, List.mem_cons, List.mem_singleton,
      List.not_mem_nil, or_false] at hc
    rcases hc with rfl | rfl | rfl | rfl | rfl <;> simp
  · intro opened hsize hread
    unfold Shader.loadShader
    rw [if_pos h]
    simp only [ht]
    rw [if_neg (not_le.mpr hsize), if_neg (not_not.mpr hread)]
    refine ⟨_, rfl, ?_⟩
    unfold Shader.compileLoaded glGetShaderiv
    cases hcs : object.compileStatus <;> simp [GL_TRUE, GL_FALSE]

/-- C19, as the code has it: for every stage from 1 to 5, every source and every answer
of the driver, `Shader::createShader` returns `true`, also when the compile status is
false: the only status it asks for is `GL_LINK_STATUS`, never `GL_COMPILE_STATUS`.
`Shader::loadShader` returns the compile status once the file is read in full, and returns
`false` without `glShaderSource` or `glCompileShader` when the file cannot be opened or
`ftell` reports no content. -/
theorem createShader_ignores_compile_status (shader : Shader) (stage : Nat)
    (h : stage > 0 ∧ stage < SHADER_STAGE_Count) (text : CppString) (handle : Nat)
    (object : ShaderObject) :
    (∃ loaded, shader.createShader stage text handle object = some loaded ∧
      loaded.result = true ∧
      (∀ s, ShaderCall.glGetShaderiv s GLParameter.GL_COMPILE_STATUS ∉ loaded.calls) ∧
      ShaderCall.glGetShaderiv handle GLParameter.GL_LINK_STATUS ∈ loaded.calls) ∧
    (∀ opened : OpenedFile, 0 < opened.size → opened.bytesRead = opened.size.toNat →
      ∃ loaded, shader.loadShader stage text handle (some opened) object = some loaded ∧
        loaded.result = object.compileStatus) ∧
    (∃ loaded, shader.loadShader stage text handle none object = some loaded ∧
      loaded.result = false ∧
      ∀ c ∈ loaded.calls, (∀ s src, c ≠ ShaderCall.glShaderSource s src) ∧
        ∀ s, c ≠ ShaderCall.glCompileShader s) ∧
    (∀ opened : OpenedFile, opened.size ≤ 0 →
      ∃ loaded, shader.loadShader stage text handle (some opened) object = some loaded ∧
        loaded.result = false ∧
        ∀ c ∈ loaded.calls, (∀ s src, c ≠ ShaderCall.glShaderSource s src) ∧
          ∀ s, c ≠ ShaderCall.glCompileShader s) := by
  obtain ⟨hnone, hempty, hread⟩ := loadShader_result shader stage h text handle object
  refine ⟨?_, hread, hnone, hempty⟩
  obtain ⟨type, ht⟩ := stageType_isSome stage h
  unfold Shader.createShader
  rw [if_pos h]
  simp only [ht, glGetShaderiv]
  refine ⟨_, rfl, rfl, ?_, ?_⟩
  · intro s hs
    simp at hs
  · simp

/-- A vertex shader whose source the driver does not compile: `loadShader` returns `false`;
`createShader` asks `glGetShaderiv` for `GL_LINK_STATUS` and returns `true`. -/
theorem createShader_ignores_compile_status_witness :
    ((1 : Nat) > 0 ∧ 1 < SHADER_STAGE_Count) ∧ brokenShaderObject.compileStatus = false ∧
    (∃ loaded, ({} : Shader).createShader 1 "void m()".toList 22 brokenShaderObject
        = some loaded ∧ loaded.result = true ∧
      (∀ s, ShaderCall.glGetShaderiv s GLParameter.GL_COMPILE_STATUS ∉ loaded.calls) ∧
      ShaderCall.glGetShaderiv 22 GLParameter.GL_LINK_STATUS ∈ loaded.calls) ∧
    (({} : Shader).loadShader 1 "void m()".toList 22 (some sampleShaderFile)
      brokenShaderObject).map (fun loaded => loaded.result) = some false :=
  ⟨by decide, rfl,
    (createShader_ignores_compile_status {} 1 (by decide) "void m()".toList 22
      brokenShaderObject).1,
    by decide⟩

/-- The two creation paths at a vertex shader whose source the driver does not compile. -/
theorem createShader_compile_failure :
    brokenShaderObject.compileStatus = false ∧
    (({} : Shader).loadShader 1 "bad.vert".toList 22 (some sampleShaderFile)
      brokenShaderObject).map (fun loaded => loaded.result) = some false ∧
    ({} : Shader).createShader 1 "void m()".toList 22 brokenShaderObject = some
      { result := true
        shader := { m_handle := 22, m_stage := 1, m_lastError := none }
        calls :=
          [ ShaderCall.glCreateShader GLShaderType.GL_VERTEX_SHADER 22,
            ShaderCall.glShaderSource 22 "void m()".toList,
            ShaderCall.glCompileShader 22,
            ShaderCall.glGetShaderiv 22 GLParameter.GL_LINK_STATUS ] } ∧
    (ShaderProgram.new.createShader 1 "void m()".toList 22 brokenShaderObject).map
      (fun loaded => loaded.result) = some true := by
  decide

/-! ## Reading a material file -/

/-- The sample material file, read in full. -/
theorem loadMaterial_sample :
    (sampleMesh.loadMaterial sampleEnv "./models/ship.mtl".toList (some sampleMaterial) 7).map
      (fun st => (st.mesh.Ka, st.mesh.Kd, st.mesh.Ks))
      = some (⟨1, 2, 3⟩, ⟨4, 5, 6⟩, ⟨7, 8, 9⟩) ∧
    (sampleMesh.loadMaterial sampleEnv "./models/ship.mtl".toList (some sampleMaterial) 7).map
      (fun st => (st.mesh.specularPower, st.mesh.textures.find "hull.png".toList))
      = some (9, some Texture.new) ∧
    (sampleMesh.loadMaterial sampleEnv "./models/ship.mtl".toList (some sampleMaterial) 7).map
      (fun st => st.calls)
      = some
          [ MaterialCall.texture (TextureCall.stbi_load "./models/hull.png".toList),
            MaterialCall.cerr "Failed to load texture: ./models/hull.png".toList ] ∧
    (sampleMesh.loadMaterial sampleEnv "./models/ship.mtl".toList (some sampleMaterial)
      6).isSome = false := by
  decide

theorem findString_zero_iff (str s : CppString) : findString str s = some 0 ↔ s <+: str := by
  rw [findString.eq_def]
  by_cases h : str.take s.length = s
  · rw [if_pos h]
    exact ⟨fun _ => List.prefix_iff_eq_take.mpr h.symm, fun _ => rfl⟩
  · rw [if_neg h]
    constructor
    · intro e
      cases str with
      | nil => simp at e
      | cons c cs =>
        simp only [Option.map_eq_some'] at e
        obtain ⟨n, _, hn⟩ := e
        omega
    · intro hp
      exact absurd (List.prefix_iff_eq_take.mp hp).symm h

theorem loadMaterialLine_other {α : Type} (env : MaterialEnv α) (directory : CppString)
    (st : MaterialState α) (line : CppString)
    (h1 : ¬ "Ka".toList <+: line) (h2 : ¬ "Kd".toList <+: line) (h3 : ¬ "Ks".toList <+: line)
    (h4 : ¬ "Ns".toList <+: line) (h5 : ¬ "map_Kd".toList <+: line) :
    Mesh.loadMaterialLine env directory st line = st := by
  unfold Mesh.loadMaterialLine
  rw [if_neg (fun e => h1 ((findString_zero_iff _ _).mp e)),
    if_neg (fun e => h2 ((findString_zero_iff _ _).mp e)),
    if_neg (fun e => h3 ((findString_zero_iff _ _).mp e)),
    if_neg (fun e => h4 ((findString_zero_iff _ _).mp e)),
    if_neg (fun e => h5 ((findString_zero_iff _ _).mp e))]

theorem load_new_failed (path : CppString) (name : Nat) :
    Texture.new.load path none name =
      { result := false, texture := Texture.new, calls := [TextureCall.stbi_load path] } := by
  simp [Texture.load, Texture.release, Texture.new]

/-- The same texture line twice: the map holds one entry for the key, the texture produced
by the second line, which carries the second name generated. -/
theorem loadMaterial_same_key_twice :
    (sampleMesh.loadMaterial sampleEnv "./models/ship.mtl".toList
      (some "map_Kd deck.png\nmap_Kd deck.png\n".toList) 4).map
      (fun st => (st.mesh.textures.map Prod.fst, st.mesh.textures.find "deck.png".toList))
      = some (["texture014.jpg".toList, "default-grey.jpg".toList, "deck.png".toList],
          some { m_filename := "./models/deck.png".toList, m_width := 2, m_height := 1,
                 m_glHandle := 22, m_format := 3, m_loadedPixels := some [1, 2, 3, 4, 5, 6] }) := by
  decide

/-! ## The read loop -/

theorem getline_failed (s : IStream) (hf : s.failbit = true) (n : Nat) :
    s.getline n = ([], s) := by
  obtain ⟨rest, eofbit, failbit⟩ := s
  simp only at hf
  subst hf
  simp [IStream.getline, IStream.good]

theorem loadMaterialLine_empty {α : Type} (env : MaterialEnv α) (directory : CppString)
    (st : MaterialState α) : Mesh.loadMaterialLine env directory st (cstr []) = st :=
  loadMaterialLine_other env directory st _ (by decide) (by decide) (by decide) (by decide)
    (by decide)

/-- Once `failbit` is set without `eofbit`, every `getline` extracts nothing, no line
changes the state, and the read loop does not end. -/
theorem loadMaterialLoop_stuck {α : Type} (env : MaterialEnv α) (directory : CppString)
    (s : IStream) (hf : s.failbit = true) (he : s.eofbit = false) (fuel : Nat)
    (st : MaterialState α) : Mesh.loadMaterialLoop env directory fuel s st = none := by
  induction fuel generalizing st with
  | zero => rfl
  | succ n ih =>
    rw [Mesh.loadMaterialLoop, he]
    simp only [Bool.false_eq_true, if_false, getline_failed s hf, loadMaterialLine_empty]
    exact ih st

theorem getlineLoop_line (room : Nat) (l rest : CppString) (hlen : l.length ≤ room)
    (hnl : newline ∉ l) :
    getlineLoop room (l ++ newline :: rest) =
      { stored := l, rest := rest, eof := false, full := false, count := l.length + 1 } := by
  induction l generalizing room with
  | nil => cases room <;> simp [getlineLoop]
  | cons c cs ih =>
    have hc : ¬ c = newline := fun e => hnl (by simp [e])
    have hcs : newline ∉ cs := fun e => hnl (by simp [e])
    cases room with
    | zero => simp at hlen
    | succ room1 =>
      have hlen1 : cs.length ≤ room1 := by
        simp only [List.length_cons] at hlen
        omega
      have hrec := ih room1 hlen1 hcs
      rw [List.cons_append, getlineLoop, if_neg hc]
      simp only [hrec, List.length_cons]

/-- A line of at most 255 characters that ends in a newline is read in full, and the stream
stays good. -/
theorem getline_line (l rest : CppString) (hlen : l.length ≤ 255) (hnl : newline ∉ l) :
    (IStream.open (l ++ newline :: rest)).getline 256 = (l, IStream.open rest) := by
  simp [IStream.getline, IStream.good, IStream.open, getlineLoop_line 255 l rest hlen hnl]

theorem cstr_eq (l : CppString) (h : nullChar ∉ l) : cstr l = l := by
  unfold cstr
  rw [List.takeWhile_eq_self_iff]
  intro c hc
  simp only [bne_iff_ne, ne_eq]
  intro e
  exact h (e ▸ hc)

/-- On a file made of lines of at most 255 characters, each ended by a newline, the read
loop ends after one test of its condition per line and two more, and its result is the
body applied to the lines in order. -/
theorem loadMaterialLoop_lines {α : Type} (env : MaterialEnv α) (directory : CppString)
    (lines : List CppString)
    (h : ∀ l ∈ lines, l.length ≤ 255 ∧ newline ∉ l ∧ nullChar ∉ l)
    (st : MaterialState α) (fuel : Nat) (hfuel : lines.length + 2 ≤ fuel) :
    Mesh.loadMaterialLoop env directory fuel
        (IStream.open (lines.flatMap (fun l => l ++ [newline]))) st
      = some (lines.foldl (Mesh.loadMaterialLine env directory) st) := by
  induction lines generalizing st fuel with
  | nil =>
    obtain ⟨n, rfl⟩ : ∃ n, fuel = n + 2 := ⟨fuel - 2, by simp at hfuel; omega⟩
    simp [Mesh.loadMaterialLoop, IStream.open, IStream.getline, IStream.good, getlineLoop,
      loadMaterialLine_empty]
  | cons l ls ih =>
    obtain ⟨hl1, hl2, hl3⟩ := h l (by simp)
    obtain ⟨n, rfl⟩ : ∃ n, fuel = n + 1 := ⟨fuel - 1, by simp at hfuel; omega⟩
    have hn : ls.length + 2 ≤ n := by
      simp only [List.length_cons] at hfuel
      omega
    have e : (l :: ls).flatMap (fun l => l ++ [newline])
        = l ++ newline :: ls.flatMap (fun l => l ++ [newline]) := by
      simp
    have hopen : (IStream.open (l ++ newline :: ls.flatMap (fun l => l ++ [newline]))).eofbit
        = false := rfl
    rw [e, Mesh.loadMaterialLoop, hopen]
    simp only [Bool.false_eq_true, if_false, getline_line l _ hl1 hl2, cstr_eq l hl3,
      List.foldl_cons]
    exact ih (fun l' hl' => h l' (by simp [hl'])) _ n hn

set_option maxRecDepth 8000 in
/-- C15 at a material file whose first line has 300 characters and whose second line is
`Ka 1 2 3`: the first `getline` stores 255 characters and sets `failbit`, not `eofbit`, with
the rest of the long line and the `Ka` line still in the stream; the loop then never ends,
whatever the number of iterations allowed, and the `Ka` line is never read. With the first
line cut to 255 characters the file is read to its end and `Ka` becomes `(1, 2, 3)`. -/
theorem loadMaterial_long_line :
    longLineMaterial.length = 310 ∧
    (IStream.open longLineMaterial).getline 256 =
      (List.replicate 255 'x',
        { rest := List.replicate 45 'x' ++ "\nKa 1 2 3\n".toList, eofbit := false,
          failbit := true }) ∧
    (∀ fuel, (sampleMesh.loadMaterial sampleEnv "./models/ship.mtl".toList
      (some longLineMaterial) fuel).isSome = false) ∧
    (sampleMesh.loadMaterial sampleEnv "./models/ship.mtl".toList
      (some (List.replicate 255 'x' ++ "\nKa 1 2 3\n".toList)) 4).map (fun st => st.mesh.Ka)
      = some ⟨1, 2, 3⟩ := by
  have hget : (IStream.open longLineMaterial).getline 256 =
      (List.replicate 255 'x',
        { rest := List.replicate 45 'x' ++ "\nKa 1 2 3\n".toList, eofbit := false,
          failbit := true }) := by
    decide
  refine ⟨by decide, hget, ?_, by decide⟩
  intro fuel
  cases fuel with
  | zero => rfl
  | succ n =>
    have hopen : (IStream.open longLineMaterial).eofbit = false := rfl
    unfold Mesh.loadMaterial
    simp only []
    rw [Mesh.loadMaterialLoop, hopen]
    simp only [Bool.false_eq_true, if_false, hget]
    rw [loadMaterialLoop_stuck _ _ _ rfl rfl]
    rfl

/-- A material file made of lines of at most 255 characters, each ended by a newline, is
read to its end: `loadMaterial` returns, and the mesh is the one obtained by applying the
body of the loop to the lines in order. A file that cannot be opened leaves the mesh as it
was. -/
theorem loadMaterial_lines {α : Type} (env : MaterialEnv α) (m : Mesh α)
    (fileName : CppString) (lines : List CppString)
    (h : ∀ l ∈ lines, l.length ≤ 255 ∧ newline ∉ l ∧ nullChar ∉ l) :
    m.loadMaterial env fileName (some (lines.flatMap (fun l => l ++ [newline])))
        (lines.length + 2)
      = some (lines.foldl (Mesh.loadMaterialLine env (materialDirectory fileName))
          { mesh := m, calls := [], generated := 0 }) ∧
    (m.loadMaterial env fileName none 0).map (fun st => st.mesh) = some m := by
  constructor
  · unfold Mesh.loadMaterial
    exact loadMaterialLoop_lines env _ lines h _ _ (Nat.le_refl _)
  · rfl

/-! ## Destruction -/

theorem destructor_eq {α : Type} (m : Mesh α) :
    m.destructor = m.m_subMeshes.flatMap Mesh.destroySubMesh := by
  unfold Mesh.destructor
  rw [foldl_push_back_many]
  rfl

theorem released_append {α : Type} (a b : List (LifetimeCall α)) :
    released (a ++ b) = released a ++ released b := by
  unfold released
  exact List.filterMap_append _ _ _

theorem allocated_append {α : Type} (a b : List (LifetimeCall α)) :
    allocated (a ++ b) = allocated a ++ allocated b := by
  unfold allocated
  exact List.filterMap_append _ _ _

/-- The body of the loop of `Mesh::~Mesh` releases the non-zero handles of the submesh,
one call each, and makes no other call. -/
theorem destroySubMesh_handles {α : Type} (sub : SubMesh) :
    released ((Mesh.destroySubMesh sub : List (Call α)).map LifetimeCall.mesh) = sub.handles ∧
    (Mesh.destroySubMesh sub : List (Call α)).length = sub.handles.length := by
  unfold Mesh.destroySubMesh SubMesh.handles released
  by_cases h1 : sub.vao = 0 <;> by_cases h2 : sub.vbo = 0 <;> by_cases h3 : sub.ibo = 0 <;>
    simp [h1, h2, h3, LifetimeCall.releases, Handle.name, List.filter]

theorem destroySubMesh_calls {α : Type} (sub : SubMesh) (c : Call α)
    (hc : c ∈ (Mesh.destroySubMesh sub : List (Call α))) :
    ∃ name, name ≠ 0 ∧ (c = Call.glDeleteVertexArrays name ∨ c = Call.glDeleteBuffers name) := by
  unfold Mesh.destroySubMesh at hc
  rcases List.mem_append.mp hc with h | h
  · by_cases h1 : sub.vao = 0
    · simp [h1] at h
    · rw [if_pos h1] at h
      exact ⟨sub.vao, h1, Or.inl (List.mem_singleton.mp h)⟩
  · rcases List.mem_append.mp h with h | h
    · by_cases h2 : sub.vbo = 0
      · simp [h2] at h
      · rw [if_pos h2] at h
        exact ⟨sub.vbo, h2, Or.inr (List.mem_singleton.mp h)⟩
    · by_cases h3 : sub.ibo = 0
      · simp [h3] at h
      · rw [if_pos h3] at h
        exact ⟨sub.ibo, h3, Or.inr (List.mem_singleton.mp h)⟩

theorem released_destructor {α : Type} (m : Mesh α) :
    released (m.destructor.map LifetimeCall.mesh) = m.m_subMeshes.flatMap SubMesh.handles ∧
    m.destructor.length = (m.m_subMeshes.flatMap SubMesh.handles).length := by
  rw [destructor_eq]
  induction m.m_subMeshes with
  | nil => exact ⟨rfl, rfl⟩
  | cons sub subs ih =>
    simp only [List.flatMap_cons, List.map_append, released_append, List.length_append]
    rw [ih.1, ih.2, (destroySubMesh_handles sub).1, (destroySubMesh_handles sub).2]
    exact ⟨rfl, rfl⟩

/-- The destructor of a texture releases its handle if it holds one, and frees its pixels
if it holds any. -/
theorem released_texture_destructor (α : Type) (t : Texture) :
    released ((t.destructor.map LifetimeCall.texture : List (LifetimeCall α))) =
      if t.m_glHandle ≠ 0 then [Handle.texture t.m_glHandle] else [] := by
  unfold Texture.destructor released
  by_cases h : t.m_glHandle = 0 <;> cases t.m_loadedPixels <;>
    simp [h, LifetimeCall.releases]

theorem released_textures (α : Type) (textures : TextureMap) :
    released (textures.flatMap
      (fun entry => (entry.2.destructor.map LifetimeCall.texture : List (LifetimeCall α))))
      = textures.handles := by
  induction textures with
  | nil => rfl
  | cons entry rest ih =>
    simp only [List.flatMap_cons, released_append, ih, released_texture_destructor]
    unfold TextureMap.handles
    by_cases h : entry.2.m_glHandle = 0 <;> simp [h, List.filter, Handle.name]

theorem released_destroy {α : Type} (m : Mesh α) :
    released m.destroy = m.m_subMeshes.flatMap SubMesh.handles ++ m.textures.handles := by
  unfold Mesh.destroy
  rw [released_append, (released_destructor m).1, released_textures]

theorem texture_destructor_calls (t : Texture) (h : t.m_glHandle = 0) (c : TextureCall)
    (hc : c ∈ t.destructor) : ∃ pixels, c = TextureCall.stbi_image_free pixels := by
  unfold Texture.destructor at hc
  cases hp : t.m_loadedPixels with
  | none => simp [h, hp] at hc
  | some pixels =>
    simp [h, hp] at hc
    exact ⟨pixels, hc⟩

/-- C21, as the code has it: the body of `Mesh::~Mesh` makes one release call for each non-zero
vertex-array, vertex-buffer and index-buffer handle of each submesh, in submesh order, and
no other call: every call it makes is a `glDeleteVertexArrays` or a `glDeleteBuffers` of a
non-zero name, so a handle that is 0 gets no call. The destruction of the object then runs
the destructors of the textures of the map, and the release calls of the whole destruction
are those of the submeshes followed by one `glDeleteTextures` for each texture that holds a
non-zero handle. For a mesh with zero submeshes the body makes no call at all, and the
release calls of the destruction are exactly those of the textures that hold a handle; if
no texture holds one, the only calls left are `stbi_image_free` calls, none of them to the
GPU. -/
theorem destroy_releases {α : Type} (m : Mesh α) :
    released (m.destructor.map LifetimeCall.mesh) = m.m_subMeshes.flatMap SubMesh.handles ∧
    m.destructor.length = (m.m_subMeshes.flatMap SubMesh.handles).length ∧
    (∀ c ∈ m.destructor, ∃ name, name ≠ 0 ∧
      (c = Call.glDeleteVertexArrays name ∨ c = Call.glDeleteBuffers name)) ∧
    released m.destroy = m.m_subMeshes.flatMap SubMesh.handles ++ m.textures.handles ∧
    (∀ handle ∈ released m.destroy, handle.name ≠ 0) ∧
    (m.m_subMeshes = [] → m.destructor = [] ∧ released m.destroy = m.textures.handles) ∧
    (m.m_subMeshes = [] → (∀ entry ∈ m.textures, entry.2.m_glHandle = 0) →
      released m.destroy = [] ∧
      ∀ c ∈ m.destroy, ∃ pixels, c = LifetimeCall.texture (TextureCall.stbi_image_free pixels)) := by
  have hbody := released_destructor m
  have hall := released_destroy m
  have hempty : m.m_subMeshes = [] → m.destructor = [] := by
    intro h
    rw [destructor_eq, h]
    rfl
  have hnone : (∀ entry ∈ m.textures, entry.2.m_glHandle = 0) → m.textures.handles = [] := by
    intro h
    unfold TextureMap.handles
    rw [List.filter_eq_nil_iff]
    intro handle hmem
    obtain ⟨entry, hentry, rfl⟩ := List.mem_map.mp hmem
    simp [Handle.name, h entry hentry]
  refine ⟨hbody.1, hbody.2, ?_, hall, ?_, ?_, ?_⟩
  · intro c hc
    rw [destructor_eq] at hc
    obtain ⟨sub, _, hsub⟩ := List.mem_flatMap.mp hc
    exact destroySubMesh_calls sub c hsub
  · intro handle hmem
    rw [hall] at hmem
    rcases List.mem_append.mp hmem with h | h
    · obtain ⟨sub, _, hsub⟩ := List.mem_flatMap.mp h
      unfold SubMesh.handles at hsub
      simpa using (List.mem_filter.mp hsub).2
    · unfold TextureMap.handles at h
      simpa using (List.mem_filter.mp h).2
  · intro h
    refine ⟨hempty h, ?_⟩
    rw [hall, h]
    rfl
  · intro h htex
    refine ⟨?_, ?_⟩
    · rw [hall, h, hnone htex]
      rfl
    · intro c hc
      unfold Mesh.destroy at hc
      rw [hempty h] at hc
      simp only [List.map_nil, List.nil_append] at hc
      obtain ⟨entry, hentry, hmem⟩ := List.mem_flatMap.mp hc
      obtain ⟨tc, htc, rfl⟩ := List.mem_map.mp hmem
      obtain ⟨pixels, rfl⟩ := texture_destructor_calls entry.2 (htex entry hentry) tc htc
      exact ⟨pixels, rfl⟩

/-- C21 at two meshes: a mesh with one submesh of handles 1, 2 and 3 releases the three,
and a mesh with no submesh whose only texture holds no handle releases nothing. -/
theorem destroy_releases_witness :
    released (loadedMesh.destructor.map LifetimeCall.mesh) =
      [Handle.vertexArray 1, Handle.buffer 2, Handle.buffer 3] ∧
    unloadedMesh.m_subMeshes = [] ∧
    (∀ entry ∈ unloadedMesh.textures, entry.2.m_glHandle = 0) ∧
    released unloadedMesh.destroy = [] :=
  ⟨(destroy_releases loadedMesh).1, rfl, by decide,
    ((destroy_releases unloadedMesh).2.2.2.2.2.2 rfl (by decide)).1⟩

/-- C21, as stated, fails for a mesh whose model file could not be imported and whose
material file named one image that decoded: the mesh has zero submeshes, and its
destruction calls `glDeleteTextures` for the texture. -/
theorem destroy_unloaded_counterexample :
    (MeshLife.run lifeEnv 3 { mesh := Mesh.new 0 32, calls := [] } unloadedOps).map
      (fun life => (life.mesh.m_subMeshes, life.mesh.destroy))
      = some ([],
          [LifetimeCall.texture (TextureCall.glDeleteTextures 1),
            LifetimeCall.texture (TextureCall.stbi_image_free [1, 2, 3, 4, 5, 6])]) := by
  decide

/-! ## Release calls over a lifetime -/

theorem released_eq_nil {α : Type} (calls : List (LifetimeCall α))
    (h : ∀ c ∈ calls, c.releases = none) : released calls = [] := by
  unfold released
  exact List.filterMap_eq_nil_iff.mpr h

theorem buildSubMesh_releases {α : Type} [Zero α] [One α] [Sub α] (scene : aiScene α)
    (mesh : aiMesh α) (vao vbo ibo : Nat) (c : Call α)
    (hc : c ∈ (buildSubMesh scene mesh vao vbo ibo).calls) :
    (LifetimeCall.mesh c).releases = none := by
  simp only [buildSubMesh, List.mem_cons, List.mem_singleton, List.not_mem_nil, or_false] at hc
  rcases hc with h | h | h | h | h | h | h | h | h | h | h | h | h | h | h | h | h <;>
    rw [h] <;> rfl

/-- The function `initialiseFromFile` makes no release call, whatever the mesh held
before: the submeshes it replaces are dropped with their handles. -/
theorem initialiseFromFile_releases {α : Type} [Zero α] [One α] [Sub α] (m : Mesh α)
    (filename : CppString) (scene : Option (aiScene α)) (names : Nat → Nat) :
    released ((m.initialiseFromFile filename scene names).calls.map LifetimeCall.mesh) = [] := by
  apply released_eq_nil
  intro lc hlc
  obtain ⟨c, hc, rfl⟩ := List.mem_map.mp hlc
  cases scene with
  | none =>
    rw [initialiseFromFile_failed m filename none names (Or.inl rfl)] at hc
    simp only [List.mem_cons, List.mem_singleton, List.not_mem_nil, or_false] at hc
    rcases hc with h | h <;> rw [h] <;> rfl
  | some sc =>
    by_cases hs : sc.HasMeshes = true
    · have hs2 := hs
      unfold aiScene.HasMeshes at hs2
      obtain ⟨h1, h2⟩ := Bool.and_eq_true_iff.mp hs2
      obtain ⟨mMeshes, hm⟩ := Option.isSome_iff_exists.mp h1
      rw [initialiseFromFile_loaded m filename sc mMeshes names hm (by simpa using h2),
        loadSubMeshes_eq] at hc
      simp only [List.cons_append, List.mem_cons, List.mem_append, List.mem_singleton,
        List.not_mem_nil, or_false] at hc
      rcases hc with h | h | h
      · rw [h]
        rfl
      · obtain ⟨i, _, hi⟩ := List.mem_flatMap.mp h
        exact buildSubMesh_releases _ _ _ _ _ c hi
      · rw [h]
        rfl
    · rw [initialiseFromFile_failed m filename (some sc) names
        (Or.inr ⟨sc, rfl, by simpa using hs⟩)] at hc
      simp only [List.mem_cons, List.mem_singleton, List.not_mem_nil, or_false] at hc
      rcases hc with h | h <;> rw [h] <;> rfl

theorem upload_releases (t : Texture) (image : StbImage) (c : TextureCall)
    (hc : c ∈ (t.upload image).2) : ∀ n, c ≠ TextureCall.glDeleteTextures n := by
  intro n hn
  subst hn
  unfold Texture.upload at hc
  split_ifs at hc <;> simp at hc

/-- A load into a default-constructed texture makes no release call. -/
theorem load_new_releases (α : Type) (path : CppString) (decoded : Option StbImage)
    (name : Nat) :
    released ((Texture.new.load path decoded name).calls.map
      (MaterialCall.lift ∘ MaterialCall.texture) : List (LifetimeCall α)) = [] := by
  apply released_eq_nil
  intro lc hlc
  obtain ⟨c, hc, rfl⟩ := List.mem_map.mp hlc
  cases decoded with
  | none =>
    rw [load_new_failed] at hc
    simp only [List.mem_singleton] at hc
    rw [hc]
    rfl
  | some image =>
    simp only [Texture.load, Texture.release, Texture.new, List.mem_append, List.mem_cons,
      List.mem_singleton, List.not_mem_nil, or_false, ne_eq, not_true_eq_false, if_false,
      false_or] at hc
    rcases hc with ((h | h | h) | h) | h | h | h | h
    · rw [h]; rfl
    · rw [h]; rfl
    · rw [h]; rfl
    · have hne := upload_releases _ _ c h
      cases c <;> first | rfl | exact absurd rfl (hne _)
    · rw [h]; rfl
    · rw [h]; rfl
    · rw [h]; rfl
    · rw [h]; rfl

theorem released_lift_cerr (α : Type) (line : CppString) :
    released ([MaterialCall.lift (MaterialCall.cerr line)] : List (LifetimeCall α)) = [] :=
  rfl

/-- The `map_Kd` branch makes no release call: the texture the key held before is
overwritten with its handle. -/
theorem loadMap_releases {α : Type} (env : MaterialEnv α) (directory : CppString)
    (st : MaterialState α) (ss : IStream) :
    @released α ((Mesh.loadMap env directory st ss).calls.map MaterialCall.lift) =
      @released α (st.calls.map MaterialCall.lift) := by
  unfold Mesh.loadMap
  simp only [List.map_append, List.map_map, released_append, load_new_releases,
    List.append_nil]
  split_ifs
  · exact List.append_nil _
  · rw [List.map_singleton, released_lift_cerr, List.append_nil]

theorem loadMaterialLine_releases {α : Type} (env : MaterialEnv α) (directory : CppString)
    (st : MaterialState α) (line : CppString) :
    @released α ((Mesh.loadMaterialLine env directory st line).calls.map MaterialCall.lift) =
      @released α (st.calls.map MaterialCall.lift) := by
  unfold Mesh.loadMaterialLine
  simp only []
  split_ifs
  · rfl
  · rfl
  · rfl
  · rfl
  · exact loadMap_releases env directory st _
  · rfl

theorem loadMaterialLoop_releases {α : Type} (env : MaterialEnv α) (directory : CppString)
    (fuel : Nat) (s : IStream) (st after : MaterialState α)
    (h : Mesh.loadMaterialLoop env directory fuel s st = some after) :
    @released α (after.calls.map MaterialCall.lift) =
      @released α (st.calls.map MaterialCall.lift) := by
  induction fuel generalizing s st with
  | zero => exact nomatch h
  | succ n ih =>
    rw [Mesh.loadMaterialLoop] at h
    by_cases he : s.eofbit = true
    · rw [if_pos he] at h
      rw [← Option.some.inj h]
    · rw [if_neg he] at h
      rw [ih _ _ h, loadMaterialLine_releases]

/-- The function `loadMaterial` makes no release call. -/
theorem loadMaterial_releases {α : Type} (env : MaterialEnv α) (m : Mesh α)
    (fileName : CppString) (content : Option CppString) (fuel : Nat) (after : MaterialState α)
    (h : m.loadMaterial env fileName content fuel = some after) :
    @released α (after.calls.map MaterialCall.lift) = [] := by
  cases content with
  | none =>
    rw [← Option.some.inj h]
    rfl
  | some content => exact loadMaterialLoop_releases env _ fuel _ _ after h

theorem step_releases {α : Type} [Zero α] [One α] [Sub α] (env : MaterialEnv α) (fuel : Nat)
    (life next : MeshLife α) (op : MeshOp α) (h : life.step env fuel op = some next) :
    released next.calls = released life.calls := by
  cases op with
  | initialiseFromFile filename scene =>
    rw [← Option.some.inj h, released_append, initialiseFromFile_releases, List.append_nil]
  | loadMaterial fileName content =>
    unfold MeshLife.step at h
    simp only [] at h
    obtain ⟨st, hst, hnext⟩ := Option.map_eq_some'.mp h
    rw [← hnext, released_append, loadMaterial_releases _ _ _ _ _ st hst, List.append_nil]

theorem run_releases {α : Type} [Zero α] [One α] [Sub α] (env : MaterialEnv α) (fuel : Nat)
    (life final : MeshLife α) (ops : List (MeshOp α))
    (h : MeshLife.run env fuel life ops = some final) :
    released final.calls = released life.calls := by
  induction ops generalizing life with
  | nil => rw [← Option.some.inj h]
  | cons op ops ih =>
    rw [MeshLife.run] at h
    cases hstep : life.step env fuel op with
    | none => rw [hstep] at h; exact nomatch h
    | some next =>
      rw [hstep] at h
      rw [ih next h, step_releases env fuel life next op hstep]

/-- Over a lifetime the only release calls are those of the destruction: the handles
released are the non-zero handles the mesh holds when it is destroyed, and a handle
dropped before that, by a load that replaced the submeshes or by a texture line that
replaced a texture, is never released. -/
theorem lifetime_releases {α : Type} [Zero α] [One α] [Sub α] (env : MaterialEnv α)
    (fuel : Nat) (tenth thirtyTwo : α) (ops : List (MeshOp α)) (final : MeshLife α)
    (h : MeshLife.run env fuel { mesh := Mesh.new tenth thirtyTwo, calls := [] } ops
      = some final) :
    Mesh.lifetime env fuel tenth thirtyTwo ops = some (final.calls ++ final.mesh.destroy) ∧
    released (final.calls ++ final.mesh.destroy) =
      final.mesh.m_subMeshes.flatMap SubMesh.handles ++ final.mesh.textures.handles := by
  refine ⟨?_, ?_⟩
  · unfold Mesh.lifetime
    rw [h]
    rfl
  · rw [released_append, run_releases env fuel _ final ops h, released_destroy]
    rfl

/-- C22, as the code has it, at a lifetime of two successful loads of the sample scene (two meshes each), a
material file with the line `map_Kd deck.png` twice, and destruction, with a driver that
hands out the names 1, 2, 3, ...: fourteen handles are allocated and seven are released.
The six handles of the first load and the texture of the first `map_Kd` line are never
released, so not every handle allocated is released exactly once; no handle is released
twice. -/
theorem lifetime_reload_leaks :
    (Mesh.lifetime lifeEnv 4 0 32 reloadOps).map
      (fun calls => (allocated calls, released calls)) =
      some
        ([Handle.vertexArray 1, Handle.buffer 2, Handle.buffer 3, Handle.vertexArray 4,
          Handle.buffer 5, Handle.buffer 6, Handle.vertexArray 7, Handle.buffer 8,
          Handle.buffer 9, Handle.vertexArray 10, Handle.buffer 11, Handle.buffer 12,
          Handle.texture 13, Handle.texture 14],
         [Handle.vertexArray 7, Handle.buffer 8, Handle.buffer 9, Handle.vertexArray 10,
          Handle.buffer 11, Handle.buffer 12, Handle.texture 14]) ∧
    ∃ calls, Mesh.lifetime lifeEnv 4 0 32 reloadOps = some calls ∧
      ¬ ReleasedExactlyOnce calls ∧
      timesReleased calls (Handle.vertexArray 1) = 0 ∧
      timesReleased calls (Handle.texture 13) = 0 ∧
      (released calls).Nodup := by
  have h : (Mesh.lifetime lifeEnv 4 0 32 reloadOps).map
      (fun calls => (allocated calls, released calls)) =
      some
        ([Handle.vertexArray 1, Handle.buffer 2, Handle.buffer 3, Handle.vertexArray 4,
          Handle.buffer 5, Handle.buffer 6, Handle.vertexArray 7, Handle.buffer 8,
          Handle.buffer 9, Handle.vertexArray 10, Handle.buffer 11, Handle.buffer 12,
          Handle.texture 13, Handle.texture 14],
         [Handle.vertexArray 7, Handle.buffer 8, Handle.buffer 9, Handle.vertexArray 10,
          Handle.buffer 11, Handle.buffer 12, Handle.texture 14]) := by
    decide
  refine ⟨h, ?_⟩
  obtain ⟨calls, hcalls, hpair⟩ := Option.map_eq_some'.mp h
  obtain ⟨ha, hr⟩ := Prod.mk.inj hpair
  have h1 : timesReleased calls (Handle.vertexArray 1) = 0 := by
    unfold timesReleased
    rw [hr]
    decide
  have h13 : timesReleased calls (Handle.texture 13) = 0 := by
    unfold timesReleased
    rw [hr]
    decide
  refine ⟨calls, hcalls, ?_, h1, h13, ?_⟩
  · intro hall
    have hmem : Handle.vertexArray 1 ∈ allocated calls := by
      rw [ha]
      decide
    have := hall _ hmem
    rw [h1] at this
    exact absurd this (by decide)
  · rw [hr]
    decide

/-! ## A line that does not fit the buffer -/

theorem getlineLoop_full (p : CppString) (c : Char) (rest : CppString)
    (hnl : newline ∉ p) (hc : c ≠ newline) :
    getlineLoop p.length (p ++ c :: rest) =
      { stored := p, rest := c :: rest, eof := false, full := true, count := p.length } := by
  induction p with
  | nil =>
    rw [List.nil_append, List.length_nil, getlineLoop, if_neg hc]
  | cons d ds ih =>
    have hd : d ≠ newline := fun e => hnl (e ▸ List.mem_cons_self _ _)
    have hrec := ih (fun hmem => hnl (List.mem_cons_of_mem _ hmem))
    rw [List.cons_append, List.length_cons, getlineLoop, if_neg hd]
    simp only [hrec]

/-- A line of more than 255 characters: `getline(buffer, 256)` stores the first 255, leaves
the others in the stream, and sets `failbit` without `eofbit`. -/
theorem getline_full (p : CppString) (c : Char) (rest : CppString) (hp : p.length = 255)
    (hnl : newline ∉ p) (hc : c ≠ newline) :
    (IStream.open (p ++ c :: rest)).getline 256 =
      (p, { rest := c :: rest, eofbit := false, failbit := true }) := by
  have h := getlineLoop_full p c rest hnl hc
  rw [hp] at h
  simp [IStream.getline, IStream.good, IStream.open, h]

/-- The read loop on a file with a line of more than 255 characters, after any number of
lines that fit the buffer: it has not ended after any number of tests of its condition. -/
theorem loadMaterialLoop_long {α : Type} (env : MaterialEnv α) (directory : CppString)
    (lines : List CppString) (p : CppString) (c : Char) (rest : CppString)
    (h : ∀ l ∈ lines, l.length ≤ 255 ∧ newline ∉ l)
    (hp : p.length = 255) (hnl : newline ∉ p) (hc : c ≠ newline)
    (fuel : Nat) (st : MaterialState α) :
    Mesh.loadMaterialLoop env directory fuel
      (IStream.open (lines.flatMap (fun l => l ++ [newline]) ++ (p ++ c :: rest))) st
      = none := by
  induction lines generalizing st fuel with
  | nil =>
    cases fuel with
    | zero => rfl
    | succ n =>
      have hopen : (IStream.open (p ++ c :: rest)).eofbit = false := rfl
      rw [List.flatMap_nil, List.nil_append, Mesh.loadMaterialLoop, hopen]
      simp only [Bool.false_eq_true, if_false, getline_full p c rest hp hnl hc]
      exact loadMaterialLoop_stuck env directory _ rfl rfl n _
  | cons l ls ih =>
    cases fuel with
    | zero => rfl
    | succ n =>
      obtain ⟨hl1, hl2⟩ := h l (List.mem_cons_self _ _)
      have e : (l :: ls).flatMap (fun l => l ++ [newline]) ++ (p ++ c :: rest)
          = l ++ newline :: (ls.flatMap (fun l => l ++ [newline]) ++ (p ++ c :: rest)) := by
        simp
      have hopen : (IStream.open
          (l ++ newline :: (ls.flatMap (fun l => l ++ [newline]) ++ (p ++ c :: rest)))).eofbit
          = false := rfl
      rw [e, Mesh.loadMaterialLoop, hopen]
      simp only [Bool.false_eq_true, if_false, getline_line l _ hl1 hl2]
      exact ih (fun l' hl' => h l' (List.mem_cons_of_mem _ hl')) n _

set_option maxRecDepth 8000 in
/-- C23, as the code has it: for a material file that holds a line of more than 255
characters, whatever comes before it in lines that fit the buffer and whatever comes after
it, the read loop of `loadMaterial` has not ended after any number of tests of its
condition, so the number of its iterations has no bound and `loadMaterial` does not
return. -/
theorem loadMaterial_not_bounded {α : Type} (env : MaterialEnv α) (m : Mesh α)
    (fileName : CppString) (lines : List CppString) (p : CppString) (c : Char)
    (rest : CppString) (h : ∀ l ∈ lines, l.length ≤ 255 ∧ newline ∉ l)
    (hp : p.length = 255) (hnl : newline ∉ p) (hc : c ≠ newline) (fuel : Nat) :
    m.loadMaterial env fileName
      (some (lines.flatMap (fun l => l ++ [newline]) ++ (p ++ c :: rest))) fuel = none :=
  loadMaterialLoop_long env _ lines p c rest h hp hnl hc fuel _

set_option maxRecDepth 8000 in
/-- C23 at a material file of 256 characters without a newline, and at one whose second
line has 256 characters: `loadMaterial` has not returned after any number of tests of the
loop condition. -/
theorem loadMaterial_not_bounded_witness :
    unbrokenMaterial.length = 256 ∧
    (∀ fuel, sampleMesh.loadMaterial sampleEnv "./models/ship.mtl".toList
      (some unbrokenMaterial) fuel = none) ∧
    (∀ fuel, sampleMesh.loadMaterial sampleEnv "./models/ship.mtl".toList
      (some ("Ns 9\n".toList ++ unbrokenMaterial ++ "\nKa 1 2 3\n".toList)) fuel = none) :=
  ⟨by decide,
    fun fuel =>
      loadMaterial_not_bounded sampleEnv sampleMesh "./models/ship.mtl".toList []
        (List.replicate 255 'y') 'y' [] (fun _ hl => nomatch hl) (by decide) (by decide)
        (by decide) fuel,
    fun fuel =>
      loadMaterial_not_bounded sampleEnv sampleMesh "./models/ship.mtl".toList
        ["Ns 9".toList] (List.replicate 255 'y') 'y' "\nKa 1 2 3\n".toList (by decide)
        (by decide) (by decide) (by decide) fuel⟩

end Project3D
